import Mathlib

/-!
# Legacy GPS projection and coordinate parser of `gps_coordinates.cpp`

A shallow embedding of `GPSProjectionParameters`, of the `LatLon` conversions
(`toMapCoordF`, the Newton inverse, `toCartesianCoordinates`) and of
`LatLon::fromString`.

C++ `double` values are idealised as elements of a linearly ordered field `F`
(rounding is not modelled); the `<cmath>` functions the code calls are the
operations of the class `CMath`.  The statements that need analysis are made
for `F = ℝ`, where `CMath` is instantiated with the real functions.  The Qt
string functions `QChar::toUpper` and `QString::toDouble` are library code
and enter the parser as the two fields of `QtText`.

The second part embeds the state of the georeferencing dialogs under `gui/`
(`GeoreferencingDialog`, `MapAlignmentDialog`, `ReferenceSystemDialog`,
`ShiftMapDialog`) with the slots that enable the OK button, reset the working
copy and convert the shift vector; widgets are held by the values they show.
-/

namespace Mapper

/-! ## Numbers and library functions -/

/-- The functions of `<cmath>` and the constant `M_PI` used by the code. -/
class CMath (F : Type) where
  /-- The C function `sin`. -/
  sin : F → F
  /-- The C function `cos`. -/
  cos : F → F
  /-- The C function `acos`. -/
  acos : F → F
  /-- The C function `sqrt`. -/
  sqrt : F → F
  /-- The C function `pow`. -/
  pow : F → F → F
  /-- The constant `M_PI`. -/
  M_PI : F

/-- The real functions behind `<cmath>`. -/
noncomputable instance realCMath : CMath ℝ where
  sin := Real.sin
  cos := Real.cos
  acos := Real.arccos
  sqrt := Real.sqrt
  pow := fun x y => x ^ y
  M_PI := Real.pi

section Defs

variable {F : Type} [LinearOrderedField F] [CMath F]

/-- Qt's `qAbs`: `t >= 0 ? t : -t`. -/
def qAbs (t : F) : F := if 0 ≤ t then t else -t

/-- Qt's `qMax`: `(a < b) ? b : a`. -/
def qMax (a b : F) : F := if a < b then b else a

/-! ## Data model -/

/-- The fields of `GPSProjectionParameters`: the ellipsoid, the tangent point
and the constants derived from them by `update`. -/
structure GPSProjectionParameters (F : Type) where
  a : F
  b : F
  center_latitude : F
  center_longitude : F
  e_sq : F
  cos_center_latitude : F
  sin_center_latitude : F
  v0 : F

/-- A map coordinate `MapCoordF(x, y)`. -/
structure MapCoordF (F : Type) where
  x : F
  y : F

/-- The accessor `MapCoordF::getX`. -/
def MapCoordF.getX (m : MapCoordF F) : F := m.x

/-- The accessor `MapCoordF::getY`. -/
def MapCoordF.getY (m : MapCoordF F) : F := m.y

/-- A geographic point: latitude and longitude in radians. -/
structure LatLon (F : Type) where
  latitude : F
  longitude : F

/-! ## Ellipsoid model -/

/-- The assignments of the constructor `GPSProjectionParameters()`; the derived
constants are not set by it and are carried over from `junk`. -/
def GPSProjectionParameters.init (junk : GPSProjectionParameters F) :
    GPSProjectionParameters F :=
  { junk with a := 6378137.0, b := 6356752.3142, center_latitude := 0, center_longitude := 0 }

/-- The method `GPSProjectionParameters::update`. -/
def GPSProjectionParameters.update (params : GPSProjectionParameters F) :
    GPSProjectionParameters F :=
  let e_sq := (params.a * params.a - params.b * params.b) / (params.a * params.a)
  let cos_center_latitude := CMath.cos params.center_latitude
  let sin_center_latitude := CMath.sin params.center_latitude
  let v0 := params.a / CMath.sqrt (1 - e_sq * sin_center_latitude * sin_center_latitude)
  { params with
    e_sq := e_sq
    cos_center_latitude := cos_center_latitude
    sin_center_latitude := sin_center_latitude
    v0 := v0 }

/-- A freshly constructed `GPSProjectionParameters` object: the default ellipsoid
with tangent point `(0, 0)`; the derived constants, which the constructor leaves
unset, are given the value `0` here. -/
def wgs84 : GPSProjectionParameters F :=
  GPSProjectionParameters.init
    { a := 0, b := 0, center_latitude := 0, center_longitude := 0, e_sq := 0,
      cos_center_latitude := 0, sin_center_latitude := 0, v0 := 0 }

/-- A `GPSProjectionParameters` object for the unit sphere `a = b = 1` with
tangent point `(0, 0)`, before `update`. -/
def unitSphere : GPSProjectionParameters F :=
  { a := 1, b := 1, center_latitude := 0, center_longitude := 0, e_sq := 0,
    cos_center_latitude := 0, sin_center_latitude := 0, v0 := 0 }

/-! ## Forward projection -/

/-- The method `LatLon::toMapCoordF`. -/
def LatLon.toMapCoordF (self : LatLon F) (params : GPSProjectionParameters F) : MapCoordF F :=
  let sin_l := CMath.sin self.latitude
  let cos_l := CMath.cos self.latitude
  let v := params.a / CMath.sqrt (1 - params.e_sq * sin_l * sin_l)
  { x := v * cos_l * CMath.sin (self.longitude - params.center_longitude)
    y := (-1) * (v * (sin_l * params.cos_center_latitude
                      - cos_l * params.sin_center_latitude
                          * CMath.cos (self.longitude - params.center_longitude))
                 + params.e_sq * (params.v0 * params.sin_center_latitude - v * sin_l)
                     * params.cos_center_latitude) }

/-! ## Inverse projection (Newton iteration) -/

/-- The constant `MAX_ITERATIONS` of the inverse transform. -/
def MAX_ITERATIONS : Nat := 20

/-- The constant `INSIGNIFICANT_CHANGE` of the inverse transform. -/
def INSIGNIFICANT_CHANGE : F := 0.000000001

/-- The local variables of one pass through the loop body of the inverse
transform, up to the two corrections. -/
structure NewtonLocals (F : Type) where
  sin_l : F
  cos_l : F
  sin_dlong : F
  cos_dlong : F
  denominator_inner : F
  v : F
  p : F
  E_test : F
  N_test : F
  J11 : F
  J12 : F
  J21 : F
  J22 : F
  D : F
  dE : F
  dN : F
  d_latitude : F
  d_longitude : F

/-- The loop body of the inverse transform from `sin_l` to `d_longitude`,
evaluated at the iterate `(latitude, longitude)`. -/
def newtonLocals (params : GPSProjectionParameters F) (start_E start_N : F)
    (latitude longitude : F) : NewtonLocals F :=
  let sin_l := CMath.sin latitude
  let cos_l := CMath.cos latitude
  let sin_dlong := CMath.sin (longitude - params.center_longitude)
  let cos_dlong := CMath.cos (longitude - params.center_longitude)
  let denominator_inner := 1 - params.e_sq * sin_l * sin_l
  let v := params.a / CMath.sqrt denominator_inner
  let p := params.a * (1 - params.e_sq) / CMath.pow denominator_inner 1.5
  let E_test := v * cos_l * CMath.sin (longitude - params.center_longitude)
  let N_test :=
    v * (sin_l * params.cos_center_latitude
         - cos_l * params.sin_center_latitude * CMath.cos (longitude - params.center_longitude))
    + params.e_sq * (params.v0 * params.sin_center_latitude - v * sin_l)
        * params.cos_center_latitude
  let J11 := -p * sin_l * sin_dlong
  let J12 := v * cos_l * cos_dlong
  let J21 := p * (cos_l * params.cos_center_latitude
                  + sin_l * params.sin_center_latitude * cos_dlong)
  let J22 := v * params.sin_center_latitude * cos_l * sin_dlong
  let D := J11 * J22 - J12 * J21
  let dE := start_E - E_test
  let dN := start_N - N_test
  let d_latitude := (J22 * dE - J12 * dN) / D
  let d_longitude := (-J21 * dE + J11 * dN) / D
  { sin_l := sin_l, cos_l := cos_l, sin_dlong := sin_dlong, cos_dlong := cos_dlong,
    denominator_inner := denominator_inner, v := v, p := p,
    E_test := E_test, N_test := N_test,
    J11 := J11, J12 := J12, J21 := J21, J22 := J22, D := D,
    dE := dE, dN := dN, d_latitude := d_latitude, d_longitude := d_longitude }

/-- The iterate after one pass: `latitude + d_latitude`, `longitude + d_longitude`. -/
def newtonNext (params : GPSProjectionParameters F) (start_E start_N : F)
    (self : LatLon F) : LatLon F :=
  let s := newtonLocals params start_E start_N self.latitude self.longitude
  { latitude := self.latitude + s.d_latitude, longitude := self.longitude + s.d_longitude }

/-- The test that ends the loop: `qMax(qAbs(d_latitude), qAbs(d_longitude)) <
INSIGNIFICANT_CHANGE`, for the pass made at the iterate `self`. -/
def newtonSmall (params : GPSProjectionParameters F) (start_E start_N : F)
    (self : LatLon F) : Bool :=
  let s := newtonLocals params start_E start_N self.latitude self.longitude
  decide (qMax (qAbs s.d_latitude) (qAbs s.d_longitude) < INSIGNIFICANT_CHANGE)

/-- The `for` loop of the inverse transform.  The first argument is the number
of values of `i` still to come (`MAX_ITERATIONS - i`), the second is `i`.  The
result is the final iterate with the number of passes that were made. -/
def inverseLoop (params : GPSProjectionParameters F) (start_E start_N : F) :
    Nat → Nat → LatLon F → LatLon F × Nat
  | 0, i, self => (self, i)
  | fuel + 1, i, self =>
    let next := newtonNext params start_E start_N self
    if newtonSmall params start_E start_N self then (next, i + 1)
    else inverseLoop params start_E start_N fuel (i + 1) next

/-- The constructor `LatLon::LatLon(MapCoordF, const GPSProjectionParameters&)`
together with the number of passes through the loop body. -/
def LatLon.ofMapCoordFCounted (map_coord : MapCoordF F) (params : GPSProjectionParameters F) :
    LatLon F × Nat :=
  let start_E := map_coord.getX
  let start_N := (-1) * map_coord.getY
  inverseLoop params start_E start_N MAX_ITERATIONS 0
    { latitude := params.center_latitude, longitude := params.center_longitude }

/-- The constructor `LatLon::LatLon(MapCoordF, const GPSProjectionParameters&)`. -/
def LatLon.ofMapCoordF (map_coord : MapCoordF F) (params : GPSProjectionParameters F) :
    LatLon F :=
  (LatLon.ofMapCoordFCounted map_coord params).1

/-- The iterate after `k` passes through the loop body when no `break` intervenes. -/
def newtonIterate (params : GPSProjectionParameters F) (map_coord : MapCoordF F) (k : Nat) :
    LatLon F :=
  (newtonNext params map_coord.getX ((-1) * map_coord.getY))^[k]
    { latitude := params.center_latitude, longitude := params.center_longitude }

/-- Whether pass number `k + 1` (the pass made at the iterate after `k` passes)
produces corrections below the tolerance. -/
def passIsSmall (params : GPSProjectionParameters F) (map_coord : MapCoordF F) (k : Nat) : Bool :=
  newtonSmall params map_coord.getX ((-1) * map_coord.getY) (newtonIterate params map_coord k)

/-- The local variables of pass number `k + 1`, the pass made at the iterate
reached after `k` passes. -/
def passLocals (params : GPSProjectionParameters F) (map_coord : MapCoordF F) (k : Nat) :
    NewtonLocals F :=
  newtonLocals params map_coord.getX ((-1) * map_coord.getY)
    (newtonIterate params map_coord k).latitude (newtonIterate params map_coord k).longitude

/-! ## Geocentric coordinates -/

/-- The method `LatLon::toCartesianCoordinates`; the three reference outputs
`x`, `y`, `z` are returned as a triple. -/
def LatLon.toCartesianCoordinates (self : LatLon F) (params : GPSProjectionParameters F)
    (height : F) : F × F × F :=
  let alpha := CMath.acos (params.b / params.a)
  let N := params.a / CMath.sqrt (1 - (CMath.sin self.latitude * CMath.sin alpha)
                                        * (CMath.sin self.latitude * CMath.sin alpha))
  let x := (N + height) * CMath.cos self.latitude * CMath.cos self.longitude
  let y := (N + height) * CMath.cos self.latitude * CMath.sin self.longitude
  let z := (CMath.cos alpha * CMath.cos alpha * N + height) * CMath.sin self.latitude
  (x, y, z)

/-! ## Coordinate text parser -/

/-- The two Qt string functions the parser calls: `QChar::toUpper` and
`QString::toDouble` (exact value of the text, `0` when the conversion fails). -/
structure QtText (F : Type) where
  toUpper : Char → Char
  toDouble : List Char → F

/-- The degree sign, character code 176. -/
abbrev degreeSign : Char := Char.ofNat 176

/-- The character with code 194, which precedes the degree sign in UTF-8 text read as Latin-1. -/
abbrev leadByte : Char := Char.ofNat 194

/-- The double quote, character code 34. -/
abbrev doubleQuote : Char := Char.ofNat 34

/-- The apostrophe, character code 39. -/
abbrev apostrophe : Char := Char.ofNat 39

/-- The tabulator, character code 9. -/
abbrev tab : Char := Char.ofNat 9

/-- The carriage return, character code 13. -/
abbrev carriageReturn : Char := Char.ofNat 13

/-- The line feed, character code 10. -/
abbrev lineFeed : Char := Char.ofNat 10

/-- The null character, the initial value of `letter`. -/
abbrev nullChar : Char := Char.ofNat 0

/-- The local variables of `LatLon::fromString` that live across loop passes. -/
structure ParseState (F : Type) where
  temp : List Char
  temp_latitude : F
  temp_longitude : F
  temp_latitude_set : Bool
  letter : Char
  degrees : F
  degrees_set : Bool
  minutes_set : Bool

/-- The values of the local variables before the loop of `LatLon::fromString`. -/
def ParseState.initial : ParseState F :=
  { temp := [], temp_latitude := 0, temp_longitude := 0, temp_latitude_set := false,
    letter := nullChar, degrees := 0, degrees_set := false, minutes_set := false }

/-- The whitespace branch of the loop body of `LatLon::fromString`. -/
def finalizeField (Q : QtText F) (st : ParseState F) : ParseState F :=
  if st.temp.isEmpty && !st.degrees_set then st
  else
    let degrees :=
      if !st.temp.isEmpty then
        if !st.degrees_set then Q.toDouble st.temp
        else if !st.minutes_set then st.degrees + Q.toDouble st.temp / 60.0
        else st.degrees + Q.toDouble st.temp / (60.0 * 60.0)
      else st.degrees
    let degrees := if st.letter = 'S' ∨ st.letter = 'W' then -degrees else degrees
    let assigned : F × F × Bool :=
      if st.letter = 'N' ∨ st.letter = 'S' then (degrees, st.temp_longitude, true)
      else if st.letter = 'W' ∨ st.letter = 'E' then
        (st.temp_latitude, degrees, st.temp_latitude_set)
      else if st.temp_latitude_set then (st.temp_latitude, degrees, st.temp_latitude_set)
      else (degrees, st.temp_longitude, true)
    { temp := [], temp_latitude := assigned.1, temp_longitude := assigned.2.1,
      temp_latitude_set := assigned.2.2, letter := nullChar, degrees := 0,
      degrees_set := false, minutes_set := false }

/-- One pass through the loop body of `LatLon::fromString` for the character
`c` (already upper-cased); `nextIsApostrophe` is the value of
`(i < str_len - 1) && (str[i+1] == apostrophe)`.  The result `none` is `return false`. -/
def fromStringBody (Q : QtText F) (c : Char) (nextIsApostrophe : Bool) (st : ParseState F) :
    Option (ParseState F) :=
  if ('0' ≤ c ∧ c ≤ '9') ∨ c = '.' ∨ c = '-' then
    some { st with temp := st.temp ++ [c] }
  else if c.toNat = 176 then
    some { st with degrees := Q.toDouble st.temp, degrees_set := true, temp := [] }
  else if c.toNat = 194 then
    some st
  else if c = doubleQuote ∨ (c = apostrophe ∧ nextIsApostrophe = true) then
    some { st with degrees := st.degrees + Q.toDouble st.temp / (60.0 * 60.0), temp := [] }
  else if c = apostrophe then
    some { st with degrees := st.degrees + Q.toDouble st.temp / 60.0, minutes_set := true,
                   temp := [] }
  else if c = 'N' ∨ c = 'E' ∨ c = 'S' ∨ c = 'W' then
    some { st with letter := c }
  else if c = ' ' ∨ c = tab ∨ c = carriageReturn ∨ c = lineFeed then
    some (finalizeField Q st)
  else
    none

/-- The loop of `LatLon::fromString` over the characters `str[i], str[i+1], ...`
still to come; the empty list is the last pass `i = str_len`, whose character is a space. -/
def fromStringLoop (Q : QtText F) : List Char → ParseState F → Option (ParseState F)
  | [], st => fromStringBody Q ' ' false st
  | ch :: rest, st =>
    match fromStringBody Q (Q.toUpper ch) (decide (rest.head? = some apostrophe)) st with
    | none => none
    | some st' => fromStringLoop Q rest st'

/-- The method `LatLon::fromString`: the returned flag and the object after the call. -/
def LatLon.fromString (Q : QtText F) (self : LatLon F) (str : List Char) : Bool × LatLon F :=
  match fromStringLoop Q str ParseState.initial with
  | none => (false, self)
  | some st =>
    (true, { latitude := st.temp_latitude * CMath.M_PI / 180,
             longitude := st.temp_longitude * CMath.M_PI / 180 })

/-- The characters the loop body of `LatLon::fromString` has a branch for. -/
def acceptedChar (c : Char) : Prop :=
  (('0' ≤ c ∧ c ≤ '9') ∨ c = '.' ∨ c = '-') ∨ c = degreeSign ∨ c = leadByte
    ∨ c = doubleQuote ∨ c = apostrophe
    ∨ (c = 'N' ∨ c = 'E' ∨ c = 'S' ∨ c = 'W')
    ∨ (c = ' ' ∨ c = tab ∨ c = carriageReturn ∨ c = lineFeed)

/-- The characters the parser appends to its numeric buffer. -/
def isNumberChar (c : Char) : Bool :=
  decide (('0' ≤ c ∧ c ≤ '9') ∨ c = '.' ∨ c = '-')

/-- The whitespace characters that end a field. -/
def isFieldEnd (c : Char) : Bool :=
  decide (c = ' ' ∨ c = tab ∨ c = carriageReturn ∨ c = lineFeed)

/-- A non-negative decimal numeral: digits with at most one decimal point and at
least one digit. -/
def isDecimalNumeral (s : List Char) : Bool :=
  s.all (fun c => decide (('0' ≤ c ∧ c ≤ '9') ∨ c = '.'))
    && s.any (fun c => decide ('0' ≤ c ∧ c ≤ '9'))
    && decide (s.count '.' ≤ 1)

/-- A decimal numeral with an optional leading minus sign. -/
def isSignedNumeral (s : List Char) : Bool :=
  match s with
  | '-' :: r => isDecimalNumeral r
  | _ => isDecimalNumeral s

/-- The number a string of digits denotes in base ten. -/
def digitsValue (s : List Char) : Nat :=
  s.foldl (fun n c => 10 * n + (c.toNat - 48)) 0

/-- The parts of a text made of digits, `.` and `-` that `QString::toDouble`
converts: an optional sign, digits, an optional point and digits, with at least one
digit.  The result is the sign, the digits before the point and the digits after
it; `none` for any other text. -/
def decimalParts (s : List Char) : Option (Bool × List Char × List Char) :=
  let negative := decide (s.head? = some '-')
  let body := if negative then s.drop 1 else s
  let whole := body.takeWhile Char.isDigit
  let rest := body.dropWhile Char.isDigit
  let fraction := if rest.head? = some '.' then rest.drop 1 else rest
  if fraction.all Char.isDigit && (!whole.isEmpty || !fraction.isEmpty)
      && (rest.isEmpty || decide (rest.head? = some '.')) then
    some (negative, whole, fraction)
  else none

/-- The exact value `QString::toDouble` assigns to a text made of digits, `.` and
`-`; `0` when the conversion fails. -/
def decimalValue (s : List Char) : F :=
  match decimalParts s with
  | none => 0
  | some (negative, whole, fraction) =>
    let magnitude : F := (digitsValue whole : F) + (digitsValue fraction : F) / 10 ^ fraction.length
    if negative then -magnitude else magnitude

/-- A model of the Qt text functions for plain text: `QChar::toUpper` on ASCII
characters and characters without case, and `QString::toDouble` on the texts the
parser hands to it, without rounding. -/
def decimalText : QtText F :=
  { toUpper := Char.toUpper, toDouble := decimalValue }

/-- The property of `QChar::toUpper` that well-formed coordinate text relies on:
the characters the parser has a branch for are upper-case or have no case, so
upper-casing leaves them as they are. -/
def UpperFixesAccepted (Q : QtText F) : Prop :=
  ∀ c, acceptedChar c → Q.toUpper c = c

/-- The degree value of the field that the whitespace branch of `LatLon::fromString`
finalizes, before the hemisphere sign: the buffer, if not empty, is taken as degrees,
or added as minutes or as seconds to the degrees already set. -/
def fieldMagnitude (Q : QtText F) (st : ParseState F) : F :=
  if !st.temp.isEmpty then
    if !st.degrees_set then Q.toDouble st.temp
    else if !st.minutes_set then st.degrees + Q.toDouble st.temp / 60.0
    else st.degrees + Q.toDouble st.temp / (60.0 * 60.0)
  else st.degrees

/-- The degree value of the field that the whitespace branch finalizes, with the
hemisphere sign applied: negated when `letter` is `S` or `W`. -/
def fieldDegrees (Q : QtText F) (st : ParseState F) : F :=
  if st.letter = 'S' ∨ st.letter = 'W' then -fieldMagnitude Q st else fieldMagnitude Q st

/-- Modelled from the spec: the three states of a `Georeferencing`.  The class is
declared in `core/georeferencing.h`, which is not among the sources. -/
inductive GeorefState where
  | Local
  | Geospatial
  | BrokenGeospatial
  deriving DecidableEq

/-- Modelled from the spec: the fields of the `Georeferencing` aggregate that its
data model lists. -/
structure Georeferencing (F : Type) where
  state : GeorefState
  scale_denominator : Nat
  map_ref_point : MapCoordF F
  projected_ref_point : F × F
  geographic_ref_point : Option (LatLon F)
  grivation : F
  declination : Option F
  combined_scale_factor : F
  auxiliary_scale_factor : F

/-- Modelled from the spec: the accessor `Georeferencing::getState`. -/
def Georeferencing.getState (g : Georeferencing F) : GeorefState := g.state

/-- Modelled from the spec: `Georeferencing::isValid` is true only in `Local` or
`Geospatial` state. -/
def Georeferencing.isValid (g : Georeferencing F) : Bool :=
  match g.state with
  | GeorefState.Local => true
  | GeorefState.Geospatial => true
  | GeorefState.BrokenGeospatial => false

/-- Modelled from the spec: `Georeferencing::hasGeographicRefPoint`, the geographic
reference point being optional. -/
def Georeferencing.hasGeographicRefPoint (g : Georeferencing F) : Bool :=
  g.geographic_ref_point.isSome

/-- Modelled from the spec: the accessor `Georeferencing::getGrivation`, in degrees. -/
def Georeferencing.getGrivation (g : Georeferencing F) : F := g.grivation

/-- Modelled from the spec: the accessor `Georeferencing::getCombinedScaleFactor`. -/
def Georeferencing.getCombinedScaleFactor (g : Georeferencing F) : F := g.combined_scale_factor

/-- Modelled from the spec: the accessor `Georeferencing::getScaleDenominator`. -/
def Georeferencing.getScaleDenominator (g : Georeferencing F) : Nat := g.scale_denominator

/-- Modelled from the spec: a default-constructed `Georeferencing`, in `Local` state
with the identity transform; the scale denominator is given. -/
def Georeferencing.localDefault (scale_denominator : Nat) : Georeferencing F :=
  { state := GeorefState.Local, scale_denominator := scale_denominator,
    map_ref_point := { x := 0, y := 0 }, projected_ref_point := (0, 0),
    geographic_ref_point := none, grivation := 0, declination := none,
    combined_scale_factor := 1, auxiliary_scale_factor := 1 }

/-- The protected state of `GeoDialogCommon`.  Pointers are held by what they point
to: `controller` is whether the controller is not null, `map_georef` is the
georeferencing of `map`, `initial_georef` and `georef` are the objects pointed to. -/
structure GeoDialogCommon (F : Type) where
  controller : Bool
  map_georef : Georeferencing F
  initial_georef : Georeferencing F
  georef : Georeferencing F
  tool_active : Bool

/-- The constructor `GeoDialogCommon::GeoDialogCommon`; `initial` is `none` for a
null pointer. -/
def GeoDialogCommon.construct (controller : Bool) (map_georef : Georeferencing F)
    (initial : Option (Georeferencing F)) : GeoDialogCommon F :=
  let initial_georef :=
    match initial with
    | some given => given
    | none => map_georef
  { controller := controller, map_georef := map_georef, initial_georef := initial_georef,
    georef := initial_georef, tool_active := false }

/-- The state of a `GeoreferencingDialog`: the members of the class and, of its
widgets, the radio button selection, the selection of the local item in the CRS
selector, and the enabled and visible flags that its methods set. -/
structure GeoreferencingDialog (F : Type) extends GeoDialogCommon F where
  allow_no_georeferencing : Bool
  declination_query_in_progress : Bool
  control_projected_selected : Bool
  control_geographic_radio_checked : Bool
  crs_selector_item_is_local : Bool
  status_visible : Bool
  ref_point_button_enabled : Bool
  easting_edit_enabled : Bool
  northing_edit_enabled : Bool
  lat_edit_enabled : Bool
  lon_edit_enabled : Bool
  link_label_enabled : Bool
  declination_edit_enabled : Bool
  declination_button_enabled : Bool
  grivation_edit_enabled : Bool
  aux_factor_edit_enabled : Bool
  combined_factor_edit_enabled : Bool
  reset_button_enabled : Bool
  ok_button_enabled : Bool

/-- The method `GeoreferencingDialog::updateDeclinationButton`, without the text. -/
def GeoreferencingDialog.updateDeclinationButton (d : GeoreferencingDialog F) :
    GeoreferencingDialog F :=
  let enabled := !d.declination_query_in_progress
    && (d.lat_edit_enabled
        || (decide (d.georef.getState = GeorefState.Geospatial) && d.grivation_edit_enabled))
  { d with declination_button_enabled := enabled }

/-- The method `GeoreferencingDialog::updateWidgets`, without the label texts. -/
def GeoreferencingDialog.updateWidgets (d : GeoreferencingDialog F) : GeoreferencingDialog F :=
  let geographic_aspect_enabled := d.control_geographic_radio_checked
  let projected_aspect_enabled := !geographic_aspect_enabled
  let geographic_coords_enabled := !d.crs_selector_item_is_local
  let d1 : GeoreferencingDialog F :=
    { d with
      ref_point_button_enabled := d.controller
      status_visible := geographic_coords_enabled
      easting_edit_enabled := projected_aspect_enabled
      northing_edit_enabled := projected_aspect_enabled
      lat_edit_enabled := geographic_aspect_enabled
      lon_edit_enabled := geographic_aspect_enabled
      link_label_enabled := geographic_coords_enabled
      declination_edit_enabled := geographic_aspect_enabled
      grivation_edit_enabled := projected_aspect_enabled }
  let d2 := d1.updateDeclinationButton
  { d2 with
    aux_factor_edit_enabled := geographic_aspect_enabled
    combined_factor_edit_enabled := projected_aspect_enabled
    ok_button_enabled := decide (d2.georef.getState ≠ GeorefState.BrokenGeospatial) }

/-- The slot `GeoreferencingDialog::projectionChanged`, as far as the selection in
the CRS selector goes: in `Geospatial` state the selector is set to the CRS of the
working copy. -/
def GeoreferencingDialog.projectionChanged (d : GeoreferencingDialog F) :
    GeoreferencingDialog F :=
  if d.georef.getState = GeorefState.Geospatial then { d with crs_selector_item_is_local := false }
  else d

/-- The slot `GeoreferencingDialog::georefStateChanged`. -/
def GeoreferencingDialog.georefStateChanged (d : GeoreferencingDialog F) :
    GeoreferencingDialog F :=
  let d1 : GeoreferencingDialog F :=
    match d.georef.getState with
    | GeorefState.Local =>
      { d with crs_selector_item_is_local := true, control_geographic_radio_checked := false }
    | _ =>
      let d0 := d.projectionChanged
      if !d0.control_projected_selected then { d0 with control_geographic_radio_checked := true }
      else d0
  d1.updateWidgets

/-- The constructor of `GeoreferencingDialog`, as far as the members, the radio
buttons, the reset button and the call of `georefStateChanged` go; the CRS selector
starts without the local item selected and the widgets start enabled. -/
def GeoreferencingDialog.construct (controller : Bool) (map_georef : Georeferencing F)
    (initial : Option (Georeferencing F)) (allow_no_georeferencing : Bool) :
    GeoreferencingDialog F :=
  let base := GeoDialogCommon.construct controller map_georef initial
  let d : GeoreferencingDialog F :=
    { toGeoDialogCommon := base
      allow_no_georeferencing := allow_no_georeferencing
      declination_query_in_progress := false
      control_projected_selected := false
      control_geographic_radio_checked := decide (base.georef.getState = GeorefState.Geospatial)
      crs_selector_item_is_local := false
      status_visible := true
      ref_point_button_enabled := controller
      easting_edit_enabled := true
      northing_edit_enabled := true
      lat_edit_enabled := true
      lon_edit_enabled := true
      link_label_enabled := true
      declination_edit_enabled := true
      declination_button_enabled := true
      grivation_edit_enabled := true
      aux_factor_edit_enabled := true
      combined_factor_edit_enabled := true
      reset_button_enabled := initial.isSome
      ok_button_enabled := true }
  d.georefStateChanged

/-- What every editing slot of `GeoreferencingDialog` does to the members: the
working copy gets a new value through one of its setters and the reset button is
enabled. -/
def GeoreferencingDialog.edited (d : GeoreferencingDialog F) (changed : Georeferencing F) :
    GeoreferencingDialog F :=
  { d with georef := changed, reset_button_enabled := true }

/-- The method `GeoreferencingDialog::reset`. -/
def GeoreferencingDialog.reset (d : GeoreferencingDialog F) : GeoreferencingDialog F :=
  { d with georef := d.initial_georef, reset_button_enabled := false }

/-- The state of a `MapAlignmentDialog`, as far as `updateWidgets` and `reset` use it. -/
structure MapAlignmentDialog (F : Type) extends GeoDialogCommon F where
  declination_query_in_progress : Bool
  scale_edit : Nat
  ref_point_button_enabled : Bool
  declination_edit_enabled : Bool
  declination_button_enabled : Bool
  aux_factor_edit_enabled : Bool
  adjust_symbols_check_enabled : Bool
  reset_button_enabled : Bool
  ok_button_enabled : Bool

/-- The method `MapAlignmentDialog::updateDeclinationButton`, without the text. -/
def MapAlignmentDialog.updateDeclinationButton (d : MapAlignmentDialog F) :
    MapAlignmentDialog F :=
  let enabled := decide (d.georef.getState = GeorefState.Geospatial)
    && d.georef.hasGeographicRefPoint && !d.declination_query_in_progress
  { d with declination_button_enabled := enabled }

/-- The method `MapAlignmentDialog::updateWidgets`. -/
def MapAlignmentDialog.updateWidgets (d : MapAlignmentDialog F) : MapAlignmentDialog F :=
  let d1 : MapAlignmentDialog F :=
    { d with
      ref_point_button_enabled := d.controller
      declination_edit_enabled :=
        decide (d.georef.getState = GeorefState.Geospatial) && d.georef.hasGeographicRefPoint }
  let d2 := d1.updateDeclinationButton
  { d2 with
    aux_factor_edit_enabled :=
      decide (d2.georef.getState = GeorefState.Geospatial) && d2.georef.hasGeographicRefPoint
    ok_button_enabled := d2.georef.isValid }

/-- The method `MapAlignmentDialog::reset`. -/
def MapAlignmentDialog.reset (d : MapAlignmentDialog F) : MapAlignmentDialog F :=
  { d with
    georef := d.initial_georef
    scale_edit := d.initial_georef.getScaleDenominator
    adjust_symbols_check_enabled := false
    reset_button_enabled := false }

/-- The state of a `ReferenceSystemDialog`, as far as `updateWidgets` and `reset` use
it. -/
structure ReferenceSystemDialog (F : Type) extends GeoDialogCommon F where
  is_geo : Bool
  ref_points_consistent : Bool
  CRS_edited : Bool
  map_x_edit_enabled : Bool
  ref_point_button_enabled : Bool
  reset_button_enabled : Bool
  ok_button_enabled : Bool

/-- The method `ReferenceSystemDialog::updateWidgets`, without the label text. -/
def ReferenceSystemDialog.updateWidgets (d : ReferenceSystemDialog F) :
    ReferenceSystemDialog F :=
  { d with
    ref_point_button_enabled := d.controller && d.map_x_edit_enabled
    ok_button_enabled := d.georef.isValid && d.ref_points_consistent }

/-- The method `ReferenceSystemDialog::reset`. -/
def ReferenceSystemDialog.reset (d : ReferenceSystemDialog F) : ReferenceSystemDialog F :=
  let d1 : ReferenceSystemDialog F :=
    { d with
      georef := d.initial_georef
      ref_points_consistent := true
      CRS_edited := false
      reset_button_enabled := false }
  d1.updateWidgets

/-- The slot `MapAlignmentDialog::declinationChanged`: it sets the value of the
declination field, which is not part of the state, and calls `updateWidgets`. -/
def MapAlignmentDialog.declinationChanged (d : MapAlignmentDialog F) : MapAlignmentDialog F :=
  d.updateWidgets

/-- The slot `MapAlignmentDialog::auxiliaryFactorChanged`: it sets the value of the
auxiliary factor field, which is not part of the state, and calls `updateWidgets`. -/
def MapAlignmentDialog.auxiliaryFactorChanged (d : MapAlignmentDialog F) :
    MapAlignmentDialog F :=
  d.updateWidgets

/-- The constructor of `MapAlignmentDialog`, as far as the members, the scale field,
the enabled flags and the calls at its end go.  The widgets start enabled; the scale
denominator of the map is that of its georeferencing; `transformationChanged`, the
first of the three calls at the end, sets only values of fields that are not part of
the state. -/
def MapAlignmentDialog.construct (controller : Bool) (map_georef : Georeferencing F)
    (initial : Option (Georeferencing F)) : MapAlignmentDialog F :=
  let base := GeoDialogCommon.construct controller map_georef initial
  let d : MapAlignmentDialog F :=
    { toGeoDialogCommon := base
      declination_query_in_progress := false
      scale_edit := map_georef.getScaleDenominator
      ref_point_button_enabled := controller
      declination_edit_enabled := true
      declination_button_enabled := true
      aux_factor_edit_enabled := true
      adjust_symbols_check_enabled := false
      reset_button_enabled := initial.isSome
      ok_button_enabled := true }
  d.declinationChanged.auxiliaryFactorChanged

/-- A model of the affine part of Qt's `QTransform`: the matrix entries `m11`, `m12`,
`m21`, `m22` and the translation `dx`, `dy`; a point `(x, y)` is mapped to
`(m11*x + m21*y + dx, m12*x + m22*y + dy)`. -/
structure QTransform (F : Type) where
  m11 : F
  m12 : F
  m21 : F
  m22 : F
  dx : F
  dy : F

/-- A default-constructed `QTransform`: the identity. -/
def QTransform.identity : QTransform F :=
  { m11 := 1, m12 := 0, m21 := 0, m22 := 1, dx := 0, dy := 0 }

/-- A model of `QTransform::rotate` about the z axis: the coordinate system is rotated
by `a` degrees, the rotation being applied before the transformation so far. -/
def QTransform.rotate (t : QTransform F) (a : F) : QTransform F :=
  let sina := CMath.sin (a * CMath.M_PI / 180)
  let cosa := CMath.cos (a * CMath.M_PI / 180)
  { m11 := cosa * t.m11 + sina * t.m21
    m12 := cosa * t.m12 + sina * t.m22
    m21 := -sina * t.m11 + cosa * t.m21
    m22 := -sina * t.m12 + cosa * t.m22
    dx := t.dx
    dy := t.dy }

/-- A model of `QTransform::scale`: the coordinate system is scaled by `sx`
horizontally and `sy` vertically, the scaling being applied before the
transformation so far. -/
def QTransform.scale (t : QTransform F) (sx sy : F) : QTransform F :=
  { m11 := t.m11 * sx, m12 := t.m12 * sx, m21 := t.m21 * sy, m22 := t.m22 * sy,
    dx := t.dx, dy := t.dy }

/-- A model of `QTransform::determinant` for an affine transformation. -/
def QTransform.determinant (t : QTransform F) : F := t.m11 * t.m22 - t.m12 * t.m21

/-- A model of `QTransform::inverted`: the inverse transformation, and the identity
when the matrix is singular. -/
def QTransform.inverted (t : QTransform F) : QTransform F :=
  let det := t.determinant
  if det = 0 then QTransform.identity
  else
    { m11 := t.m22 / det
      m12 := -t.m12 / det
      m21 := -t.m21 / det
      m22 := t.m11 / det
      dx := (t.m21 * t.dy - t.m22 * t.dx) / det
      dy := (t.m12 * t.dx - t.m11 * t.dy) / det }

/-- A model of `QTransform::map` on a point `QPointF(x, y)`. -/
def QTransform.map (t : QTransform F) (p : F × F) : F × F :=
  (t.m11 * p.1 + t.m21 * p.2 + t.dx, t.m12 * p.1 + t.m22 * p.2 + t.dy)

/-- The state of a `ShiftMapDialog`: the values of the four spin boxes (taken without
the rounding and the range of a spin box), the enabled flags of the easting and
northing boxes, the two check boxes, and the two transformations. -/
structure ShiftMapDialog (F : Type) where
  rightward_adjust_edit : F
  upward_adjust_edit : F
  easting_adjust_edit : F
  northing_adjust_edit : F
  easting_adjust_enabled : Bool
  northing_adjust_enabled : Bool
  adjust_ref_point_checked : Bool
  adjust_ref_point_enabled : Bool
  adjust_templates_checked : Bool
  map_to_projected : QTransform F
  projected_to_map : QTransform F

/-- The slot `ShiftMapDialog::rightwardLeftwardEdited`. -/
def ShiftMapDialog.rightwardLeftwardEdited (d : ShiftMapDialog F) : ShiftMapDialog F :=
  let rightward := d.rightward_adjust_edit
  let upward := -1 * d.upward_adjust_edit
  let projected_vector := d.map_to_projected.map (rightward, upward)
  { d with easting_adjust_edit := projected_vector.1, northing_adjust_edit := projected_vector.2 }

/-- The slot `ShiftMapDialog::eastingNorthingEdited`. -/
def ShiftMapDialog.eastingNorthingEdited (d : ShiftMapDialog F) : ShiftMapDialog F :=
  let adjust_ref_point := d.adjust_ref_point_checked
  if !adjust_ref_point then
    let easting := d.easting_adjust_edit
    let northing := d.northing_adjust_edit
    let map_vector := d.projected_to_map.map (easting, northing)
    { d with rightward_adjust_edit := map_vector.1, upward_adjust_edit := -1 * map_vector.2 }
  else d

/-- The slot `ShiftMapDialog::updateWidgets`. -/
def ShiftMapDialog.updateWidgets (d : ShiftMapDialog F) : ShiftMapDialog F :=
  let adjust_ref_point := d.adjust_ref_point_checked
  if adjust_ref_point then
    { d with
      easting_adjust_edit := 0.0
      northing_adjust_edit := 0.0
      easting_adjust_enabled := false
      northing_adjust_enabled := false }
  else
    let rightward := d.rightward_adjust_edit
    let upward := -1 * d.upward_adjust_edit
    let projected_vector := d.map_to_projected.map (rightward, upward)
    { d with
      easting_adjust_enabled := true
      northing_adjust_enabled := true
      easting_adjust_edit := projected_vector.1
      northing_adjust_edit := projected_vector.2 }

/-- The constructor `ShiftMapDialog::ShiftMapDialog` for a map with the given
georeferencing: the spin boxes start at 0, `updateWidgets` runs while
`map_to_projected` still is the identity, and the two transformations are set up
last. -/
def ShiftMapDialog.construct (georeferencing : Georeferencing F) : ShiftMapDialog F :=
  let not_local := decide (georeferencing.getState ≠ GeorefState.Local)
  let d0 : ShiftMapDialog F :=
    { rightward_adjust_edit := 0
      upward_adjust_edit := 0
      easting_adjust_edit := 0
      northing_adjust_edit := 0
      easting_adjust_enabled := true
      northing_adjust_enabled := true
      adjust_ref_point_checked := not_local
      adjust_ref_point_enabled := not_local
      adjust_templates_checked := true
      map_to_projected := QTransform.identity
      projected_to_map := QTransform.identity }
  let d1 := d0.updateWidgets
  let rotated := d1.map_to_projected.rotate (-georeferencing.getGrivation)
  let scale : F :=
    georeferencing.getCombinedScaleFactor * (georeferencing.getScaleDenominator : F) / 1000.0
  let map_to_projected := rotated.scale scale (-scale)
  { d1 with map_to_projected := map_to_projected, projected_to_map := map_to_projected.inverted }

/-- The user enters a value in the rightward spin box: the value changes and the
connected slot `rightwardLeftwardEdited` runs. -/
def ShiftMapDialog.enterRightward (d : ShiftMapDialog F) (value : F) : ShiftMapDialog F :=
  ShiftMapDialog.rightwardLeftwardEdited { d with rightward_adjust_edit := value }

/-- The user enters a value in the upward spin box: the value changes and the
connected slot `rightwardLeftwardEdited` runs. -/
def ShiftMapDialog.enterUpward (d : ShiftMapDialog F) (value : F) : ShiftMapDialog F :=
  ShiftMapDialog.rightwardLeftwardEdited { d with upward_adjust_edit := value }

end Defs

end Mapper

namespace Mapper

/-! ## The `<cmath>` functions over the reals -/

@[simp] theorem cmath_sin_real (x : ℝ) : CMath.sin x = Real.sin x := rfl

@[simp] theorem cmath_cos_real (x : ℝ) : CMath.cos x = Real.cos x := rfl

@[simp] theorem cmath_acos_real (x : ℝ) : CMath.acos x = Real.arccos x := rfl

@[simp] theorem cmath_sqrt_real (x : ℝ) : CMath.sqrt x = Real.sqrt x := rfl

@[simp] theorem cmath_pow_real (x y : ℝ) : CMath.pow x y = x ^ y := rfl

@[simp] theorem cmath_pi_real : (CMath.M_PI : ℝ) = Real.pi := rfl

/-! ## Forward projection -/

section Forward

variable {F : Type} [LinearOrderedField F] [CMath F]

@[simp] theorem update_a (p0 : GPSProjectionParameters F) : p0.update.a = p0.a := rfl

@[simp] theorem update_b (p0 : GPSProjectionParameters F) : p0.update.b = p0.b := rfl

@[simp] theorem update_center_latitude (p0 : GPSProjectionParameters F) :
    p0.update.center_latitude = p0.center_latitude := rfl

@[simp] theorem update_center_longitude (p0 : GPSProjectionParameters F) :
    p0.update.center_longitude = p0.center_longitude := rfl

@[simp] theorem update_cos (p0 : GPSProjectionParameters F) :
    p0.update.cos_center_latitude = CMath.cos p0.center_latitude := rfl

@[simp] theorem update_sin (p0 : GPSProjectionParameters F) :
    p0.update.sin_center_latitude = CMath.sin p0.center_latitude := rfl

theorem update_v0 (p0 : GPSProjectionParameters F) :
    p0.update.v0 = p0.a / CMath.sqrt (1 - p0.update.e_sq * CMath.sin p0.center_latitude
      * CMath.sin p0.center_latitude) := rfl

/-- `update` leaves the ellipsoid and the tangent point as they are. -/
theorem update_keeps_inputs (p0 : GPSProjectionParameters F) :
    p0.update.a = p0.a ∧ p0.update.b = p0.b
      ∧ p0.update.center_latitude = p0.center_latitude
      ∧ p0.update.center_longitude = p0.center_longitude :=
  ⟨rfl, rfl, rfl, rfl⟩

/-- C1: with the derived constants computed by `update`, `toMapCoordF` returns the
point `(x, y)` with `v = a / sqrt(1 - e_sq*sin(lat)^2)`,
`x = v*cos(lat)*sin(lon - center_longitude)` and
`y = -[v*(sin(lat)*cos(center_latitude) - cos(lat)*sin(center_latitude)*cos(lon - center_longitude))
+ e_sq*(v0*sin(center_latitude) - v*sin(lat))*cos(center_latitude)]`. -/
theorem toMapCoordF_formula (p0 : GPSProjectionParameters F) (lat lon : F) :
    (LatLon.mk lat lon).toMapCoordF p0.update =
      { x := p0.update.a / CMath.sqrt (1 - p0.update.e_sq * CMath.sin lat ^ 2)
              * CMath.cos lat * CMath.sin (lon - p0.center_longitude)
        y := -(p0.update.a / CMath.sqrt (1 - p0.update.e_sq * CMath.sin lat ^ 2)
                * (CMath.sin lat * CMath.cos p0.center_latitude
                   - CMath.cos lat * CMath.sin p0.center_latitude
                       * CMath.cos (lon - p0.center_longitude))
              + p0.update.e_sq
                  * (p0.update.v0 * CMath.sin p0.center_latitude
                     - p0.update.a / CMath.sqrt (1 - p0.update.e_sq * CMath.sin lat ^ 2)
                         * CMath.sin lat)
                  * CMath.cos p0.center_latitude) } := by
  simp only [LatLon.toMapCoordF, GPSProjectionParameters.update, neg_one_mul, pow_two, mul_assoc]

end Forward

/-! ## Ellipsoid model over the reals -/

/-- The eccentricity squared written with the axis ratio. -/
theorem e_sq_eq (p0 : GPSProjectionParameters ℝ) (ha : 0 < p0.a) :
    p0.update.e_sq = 1 - p0.b ^ 2 / p0.a ^ 2 := by
  have h : p0.a ^ 2 ≠ 0 := pow_ne_zero 2 ha.ne'
  simp only [GPSProjectionParameters.update]
  field_simp
  ring

/-- The radicand of the radius of curvature is at least `b^2/a^2`. -/
theorem radicand_ge (p0 : GPSProjectionParameters ℝ) (hab : p0.b ≤ p0.a) (hb : 0 < p0.b)
    (x : ℝ) :
    p0.b ^ 2 / p0.a ^ 2 ≤ 1 - p0.update.e_sq * Real.sin x * Real.sin x := by
  have ha : 0 < p0.a := lt_of_lt_of_le hb hab
  have hq : p0.b ^ 2 / p0.a ^ 2 ≤ 1 := by
    rw [div_le_one (pow_pos ha 2)]
    exact pow_le_pow_left₀ hb.le hab 2
  have hs : Real.sin x ^ 2 ≤ 1 := Real.sin_sq_le_one x
  rw [e_sq_eq p0 ha]
  nlinarith [mul_nonneg (sub_nonneg.mpr hq) (sub_nonneg.mpr hs)]

/-- The axis ratio squared is positive. -/
theorem ratio_pos (p0 : GPSProjectionParameters ℝ) (hab : p0.b ≤ p0.a) (hb : 0 < p0.b) :
    0 < p0.b ^ 2 / p0.a ^ 2 :=
  div_pos (pow_pos hb 2) (pow_pos (lt_of_lt_of_le hb hab) 2)

/-- The radicand of the radius of curvature is positive. -/
theorem radicand_pos (p0 : GPSProjectionParameters ℝ) (hab : p0.b ≤ p0.a) (hb : 0 < p0.b)
    (x : ℝ) : 0 < 1 - p0.update.e_sq * Real.sin x * Real.sin x :=
  lt_of_lt_of_le (ratio_pos p0 hab hb) (radicand_ge p0 hab hb x)

/-- C6: for `a >= b > 0`, `update` sets `e_sq = (a^2 - b^2)/a^2`, the cosine and sine
of the tangent latitude and `v0 = a / sqrt(1 - e_sq*sin(center_latitude)^2)`; then
`0 <= e_sq < 1` and for every angle `x` the radicand `1 - e_sq*sin(x)^2` is at least
`b^2/a^2 > 0`, so the square root that `v0` and the `v` of `toMapCoordF` divide by is
taken of a positive number and is not zero. -/
theorem update_well_defined (p0 : GPSProjectionParameters ℝ) (hab : p0.b ≤ p0.a)
    (hb : 0 < p0.b) :
    p0.update.e_sq = (p0.a ^ 2 - p0.b ^ 2) / p0.a ^ 2
      ∧ p0.update.cos_center_latitude = Real.cos p0.center_latitude
      ∧ p0.update.sin_center_latitude = Real.sin p0.center_latitude
      ∧ p0.update.v0
          = p0.a / Real.sqrt (1 - p0.update.e_sq * Real.sin p0.center_latitude ^ 2)
      ∧ 0 ≤ p0.update.e_sq ∧ p0.update.e_sq < 1
      ∧ 0 < p0.b ^ 2 / p0.a ^ 2
      ∧ ∀ x : ℝ,
          p0.b ^ 2 / p0.a ^ 2 ≤ 1 - p0.update.e_sq * Real.sin x ^ 2
          ∧ 0 < 1 - p0.update.e_sq * Real.sin x * Real.sin x
          ∧ Real.sqrt (1 - p0.update.e_sq * Real.sin x * Real.sin x) ≠ 0 := by
  have ha : 0 < p0.a := lt_of_lt_of_le hb hab
  have hq := ratio_pos p0 hab hb
  have hq1 : p0.b ^ 2 / p0.a ^ 2 ≤ 1 := by
    rw [div_le_one (pow_pos ha 2)]
    exact pow_le_pow_left₀ hb.le hab 2
  refine ⟨?_, rfl, rfl, ?_, ?_, ?_, hq, fun x => ⟨?_, radicand_pos p0 hab hb x, ?_⟩⟩
  · simp only [GPSProjectionParameters.update, pow_two]
  · simp only [GPSProjectionParameters.update, pow_two, mul_assoc, cmath_sin_real,
      cmath_sqrt_real]
  · rw [e_sq_eq p0 ha]; linarith
  · rw [e_sq_eq p0 ha]; linarith
  · have h := radicand_ge p0 hab hb x
    have e : p0.update.e_sq * Real.sin x ^ 2 = p0.update.e_sq * Real.sin x * Real.sin x := by
      ring
    rw [e]; exact h
  · exact (Real.sqrt_pos.mpr (radicand_pos p0 hab hb x)).ne'

/-- C6 at the default ellipsoid: its hypotheses hold there. -/
theorem update_well_defined_witness :
    (6356752.3142 : ℝ) ≤ 6378137.0 ∧ (0 : ℝ) < 6356752.3142
      ∧ 0 ≤ (wgs84 : GPSProjectionParameters ℝ).update.e_sq
      ∧ (wgs84 : GPSProjectionParameters ℝ).update.e_sq < 1 := by
  have h := update_well_defined (wgs84 : GPSProjectionParameters ℝ)
    (by norm_num [wgs84, GPSProjectionParameters.init])
    (by norm_num [wgs84, GPSProjectionParameters.init])
  exact ⟨by norm_num, by norm_num, h.2.2.2.2.1, h.2.2.2.2.2.1⟩

/-! ## The loop of the inverse transform -/

section Loop

variable {F : Type} [LinearOrderedField F] [CMath F]

omit [CMath F] in
/-- Qt's `qAbs` is the absolute value. -/
theorem qAbs_eq_abs (t : F) : qAbs t = |t| := by
  unfold qAbs
  split_ifs with h
  · exact (abs_of_nonneg h).symm
  · exact (abs_of_neg (not_le.mp h)).symm

omit [CMath F] in
/-- Qt's `qMax` is the maximum. -/
theorem qMax_eq_max (a b : F) : qMax a b = max a b := by
  unfold qMax
  split_ifs with h
  · exact (max_eq_right h.le).symm
  · exact (max_eq_left (not_lt.mp h)).symm

/-- The loop test in terms of the corrections of a pass. -/
theorem passIsSmall_iff (params : GPSProjectionParameters F) (map_coord : MapCoordF F)
    (k : Nat) :
    passIsSmall params map_coord k = true ↔
      max |(passLocals params map_coord k).d_latitude|
          |(passLocals params map_coord k).d_longitude| < INSIGNIFICANT_CHANGE := by
  simp only [passIsSmall, newtonSmall, passLocals, qAbs_eq_abs, qMax_eq_max, decide_eq_true_eq]

/-- What the loop does, for any number of remaining passes: it makes `n` passes,
none but the last with corrections below the tolerance, and stops short of the
bound only after a pass whose corrections are below the tolerance. -/
theorem inverseLoop_spec (params : GPSProjectionParameters F) (start_E start_N : F)
    (fuel : Nat) :
    ∀ (i : Nat) (self : LatLon F),
      ∃ n, (inverseLoop params start_E start_N fuel i self).2 = i + n ∧ n ≤ fuel
        ∧ (inverseLoop params start_E start_N fuel i self).1
            = (newtonNext params start_E start_N)^[n] self
        ∧ (∀ j, j + 1 < n →
            newtonSmall params start_E start_N
              ((newtonNext params start_E start_N)^[j] self) = false)
        ∧ (n < fuel → ∃ m, n = m + 1 ∧
            newtonSmall params start_E start_N
              ((newtonNext params start_E start_N)^[m] self) = true) := by
  induction fuel with
  | zero =>
    intro i self
    exact ⟨0, rfl, le_refl 0, rfl, fun j hj => absurd hj (Nat.not_lt_zero _),
      fun h => absurd h (Nat.lt_irrefl 0)⟩
  | succ fuel ih =>
    intro i self
    by_cases hs : newtonSmall params start_E start_N self = true
    · refine ⟨1, ?_, Nat.succ_le_succ (Nat.zero_le fuel), ?_, ?_, ?_⟩
      · simp only [inverseLoop, hs, if_true]
      · simp only [inverseLoop, hs, if_true, Function.iterate_one]
      · intro j hj
        omega
      · intro _
        exact ⟨0, rfl, hs⟩
    · obtain ⟨n, h1, h2, h3, h4, h5⟩ := ih (i + 1) (newtonNext params start_E start_N self)
      have hs' : newtonSmall params start_E start_N self = false := by
        simpa using hs
      refine ⟨n + 1, ?_, Nat.succ_le_succ h2, ?_, ?_, ?_⟩
      · simp only [inverseLoop, hs', Bool.false_eq_true, if_false, h1]
        omega
      · simp only [inverseLoop, hs', Bool.false_eq_true, if_false, h3,
          Function.iterate_succ_apply]
      · intro j hj
        cases j with
        | zero => simpa using hs'
        | succ j =>
          rw [Function.iterate_succ_apply]
          exact h4 j (by omega)
      · intro hn
        obtain ⟨m, hm, hsm⟩ := h5 (by omega)
        refine ⟨m + 1, by omega, ?_⟩
        rw [Function.iterate_succ_apply]
        exact hsm

/-- The loop specification read for the constructor: passes are counted from zero
and the iterates are those of `newtonIterate`. -/
theorem ofMapCoordFCounted_spec (map_coord : MapCoordF F)
    (params : GPSProjectionParameters F) :
    (LatLon.ofMapCoordFCounted map_coord params).2 ≤ 20
      ∧ (LatLon.ofMapCoordFCounted map_coord params).1
          = newtonIterate params map_coord (LatLon.ofMapCoordFCounted map_coord params).2
      ∧ (∀ j, j + 1 < (LatLon.ofMapCoordFCounted map_coord params).2 →
            passIsSmall params map_coord j = false)
      ∧ ((LatLon.ofMapCoordFCounted map_coord params).2 < 20 →
            ∃ m, (LatLon.ofMapCoordFCounted map_coord params).2 = m + 1
              ∧ passIsSmall params map_coord m = true) := by
  obtain ⟨n, h1, h2, h3, h4, h5⟩ :=
    inverseLoop_spec params map_coord.getX ((-1) * map_coord.getY) MAX_ITERATIONS 0
      { latitude := params.center_latitude, longitude := params.center_longitude }
  have hn : (LatLon.ofMapCoordFCounted map_coord params).2 = n := by
    simp only [LatLon.ofMapCoordFCounted, h1, Nat.zero_add]
  rw [hn]
  refine ⟨h2, ?_, ?_, ?_⟩
  · simp only [LatLon.ofMapCoordFCounted, newtonIterate, h3]
  · intro j hj
    exact h4 j hj
  · intro hlt
    exact h5 hlt

/-- C4: the inverse transform is a total function that makes at most 20 passes
through the Newton step and returns the iterate reached after the passes it made;
when no pass meets the tolerance it makes all 20 and returns the iterate reached
after the 20th. -/
theorem inverse_at_most_20_passes (map_coord : MapCoordF F)
    (params : GPSProjectionParameters F) :
    (LatLon.ofMapCoordFCounted map_coord params).2 ≤ 20
      ∧ LatLon.ofMapCoordF map_coord params
          = newtonIterate params map_coord (LatLon.ofMapCoordFCounted map_coord params).2
      ∧ ((∀ k, k < 20 →
            ¬ max |(passLocals params map_coord k).d_latitude|
                  |(passLocals params map_coord k).d_longitude| < INSIGNIFICANT_CHANGE) →
          (LatLon.ofMapCoordFCounted map_coord params).2 = 20
            ∧ LatLon.ofMapCoordF map_coord params = newtonIterate params map_coord 20) := by
  obtain ⟨h1, h2, _, h4⟩ := ofMapCoordFCounted_spec map_coord params
  refine ⟨h1, h2, fun hno => ?_⟩
  have h20 : (LatLon.ofMapCoordFCounted map_coord params).2 = 20 := by
    by_contra hne
    obtain ⟨m, hm, hsm⟩ := h4 (lt_of_le_of_ne h1 hne)
    exact hno m (by omega) ((passIsSmall_iff params map_coord m).mp hsm)
  refine ⟨h20, ?_⟩
  have h2' := h2
  rw [h20] at h2'
  exact h2'

/-- One pass more: the iterate after `j + 1` passes is `newtonNext` of the iterate
after `j` passes. -/
theorem newtonIterate_succ (params : GPSProjectionParameters F) (map_coord : MapCoordF F)
    (j : Nat) :
    newtonIterate params map_coord (j + 1)
      = newtonNext params map_coord.getX ((-1) * map_coord.getY)
          (newtonIterate params map_coord j) := by
  simp only [newtonIterate, Function.iterate_succ_apply']

/-- The iterate after `j + 1` passes is the iterate after `j` passes plus the two
corrections that pass `j + 1` computes (`latitude = latitude + d_latitude`,
`longitude = longitude + d_longitude`). -/
theorem newtonIterate_succ_eq (params : GPSProjectionParameters F) (map_coord : MapCoordF F)
    (j : Nat) :
    newtonIterate params map_coord (j + 1)
      = { latitude := (newtonIterate params map_coord j).latitude
                        + (passLocals params map_coord j).d_latitude
          longitude := (newtonIterate params map_coord j).longitude
                        + (passLocals params map_coord j).d_longitude } := by
  rw [newtonIterate_succ]
  rfl

/-- C5: the iterate starts at the tangent point and each pass adds its corrections
`d_latitude`, `d_longitude` to it.  If pass `k + 1 <= 20` is the first whose
corrections satisfy `max(|d_latitude|, |d_longitude|) < 1e-9`, exactly `k + 1` passes
are made and the result is the iterate before pass `k + 1` plus the corrections of
pass `k + 1`; and a pass before the 20th whose corrections are at least `1e-9` is
never the last one. -/
theorem inverse_early_stop (map_coord : MapCoordF F) (params : GPSProjectionParameters F) :
    newtonIterate params map_coord 0
        = { latitude := params.center_latitude, longitude := params.center_longitude }
      ∧ (∀ j,
          (newtonIterate params map_coord (j + 1)).latitude
              = (newtonIterate params map_coord j).latitude
                + (passLocals params map_coord j).d_latitude
            ∧ (newtonIterate params map_coord (j + 1)).longitude
              = (newtonIterate params map_coord j).longitude
                + (passLocals params map_coord j).d_longitude)
      ∧ (∀ k, k < 20 →
        max |(passLocals params map_coord k).d_latitude|
            |(passLocals params map_coord k).d_longitude| < INSIGNIFICANT_CHANGE →
        (∀ j, j < k →
          ¬ max |(passLocals params map_coord j).d_latitude|
                |(passLocals params map_coord j).d_longitude| < INSIGNIFICANT_CHANGE) →
        (LatLon.ofMapCoordFCounted map_coord params).2 = k + 1
          ∧ LatLon.ofMapCoordF map_coord params = newtonIterate params map_coord (k + 1)
          ∧ (LatLon.ofMapCoordF map_coord params).latitude
              = (newtonIterate params map_coord k).latitude
                + (passLocals params map_coord k).d_latitude
          ∧ (LatLon.ofMapCoordF map_coord params).longitude
              = (newtonIterate params map_coord k).longitude
                + (passLocals params map_coord k).d_longitude)
      ∧ (∀ j, j + 1 < 20 →
          INSIGNIFICANT_CHANGE ≤ max |(passLocals params map_coord j).d_latitude|
                                     |(passLocals params map_coord j).d_longitude| →
          (LatLon.ofMapCoordFCounted map_coord params).2 ≠ j + 1) := by
  obtain ⟨h1, h2, h3, h4⟩ := ofMapCoordFCounted_spec map_coord params
  refine ⟨rfl, fun j => ?_, ?_, ?_⟩
  · rw [newtonIterate_succ_eq]
    exact ⟨rfl, rfl⟩
  · intro k hk hsmall hfirst
    have hcount : (LatLon.ofMapCoordFCounted map_coord params).2 = k + 1 := by
      rcases Nat.lt_trichotomy (LatLon.ofMapCoordFCounted map_coord params).2 (k + 1)
        with hlt | heq | hgt
      · obtain ⟨m, hm, hsm⟩ := h4 (by omega)
        exact absurd ((passIsSmall_iff params map_coord m).mp hsm) (hfirst m (by omega))
      · exact heq
      · have hf := h3 k hgt
        rw [(passIsSmall_iff params map_coord k).mpr hsmall] at hf
        exact absurd hf (by decide)
    have hres : LatLon.ofMapCoordF map_coord params = newtonIterate params map_coord (k + 1) := by
      have h2' := h2
      rw [hcount] at h2'
      exact h2'
    refine ⟨hcount, hres, ?_, ?_⟩
    · rw [hres, newtonIterate_succ_eq]
    · rw [hres, newtonIterate_succ_eq]
  · intro j hj hbig hcount
    obtain ⟨m, hm, hsm⟩ := h4 (by omega)
    have hmj : m = j := by omega
    rw [hmj] at hsm
    exact absurd ((passIsSmall_iff params map_coord j).mp hsm) (not_lt.mpr hbig)

end Loop

/-! ## The inverse transform at the map origin -/

/-- At the map origin the first pass finds both residuals equal to zero. -/
theorem origin_residuals (p0 : GPSProjectionParameters ℝ) :
    (newtonLocals p0.update 0 ((-1) * 0) p0.center_latitude p0.center_longitude).dE = 0
      ∧ (newtonLocals p0.update 0 ((-1) * 0) p0.center_latitude p0.center_longitude).dN = 0 := by
  constructor
  · simp only [newtonLocals, update_center_longitude, sub_self, cmath_sin_real, Real.sin_zero,
      mul_zero]
  · simp only [newtonLocals, update_center_longitude, update_a, update_cos, update_sin,
      update_v0, sub_self, cmath_sin_real, cmath_cos_real, cmath_sqrt_real, Real.cos_zero,
      mul_zero, mul_one]
    ring

/-- At the tangent point of an ellipsoid with `a >= b > 0` that is not a pole, the
determinant of the Newton step is not zero. -/
theorem origin_D_ne_zero (p0 : GPSProjectionParameters ℝ) (hab : p0.b ≤ p0.a) (hb : 0 < p0.b)
    (hcos : Real.cos p0.center_latitude ≠ 0) :
    (newtonLocals p0.update 0 ((-1) * 0) p0.center_latitude p0.center_longitude).D ≠ 0 := by
  have ha : 0 < p0.a := lt_of_lt_of_le hb hab
  have hden := radicand_pos p0 hab hb p0.center_latitude
  have he : 0 < 1 - p0.update.e_sq := by
    rw [e_sq_eq p0 ha]
    have := ratio_pos p0 hab hb
    linarith
  have hsq := Real.sqrt_pos.mpr hden
  have hpow := Real.rpow_pos_of_pos hden 1.5
  simp only [newtonLocals, update_center_longitude, update_a, update_cos, update_sin,
    cmath_sin_real, cmath_cos_real, cmath_sqrt_real, cmath_pow_real, sub_self, Real.sin_zero,
    Real.cos_zero, mul_zero, mul_one, zero_mul, zero_sub]
  have hcs : Real.cos p0.center_latitude * Real.cos p0.center_latitude
      + Real.sin p0.center_latitude * Real.sin p0.center_latitude = 1 := by
    have := Real.sin_sq_add_cos_sq p0.center_latitude
    nlinarith
  rw [hcs, mul_one]
  have hv : 0 < p0.a / √(1 - p0.update.e_sq * Real.sin p0.center_latitude
      * Real.sin p0.center_latitude) := div_pos ha hsq
  have hp : 0 < p0.a * (1 - p0.update.e_sq) / (1 - p0.update.e_sq
      * Real.sin p0.center_latitude * Real.sin p0.center_latitude) ^ (1.5 : ℝ) :=
    div_pos (mul_pos ha he) hpow
  exact neg_ne_zero.mpr (mul_ne_zero (mul_ne_zero hv.ne' hcos) hp.ne')

/-- At the map origin the first pass computes two zero corrections. -/
theorem origin_corrections (p0 : GPSProjectionParameters ℝ) :
    (newtonLocals p0.update 0 ((-1) * 0) p0.center_latitude p0.center_longitude).d_latitude = 0
      ∧ (newtonLocals p0.update 0 ((-1) * 0) p0.center_latitude
          p0.center_longitude).d_longitude = 0 := by
  obtain ⟨hE, hN⟩ := origin_residuals p0
  have h1 : (newtonLocals p0.update 0 ((-1) * 0) p0.center_latitude
      p0.center_longitude).d_latitude
      = ((newtonLocals p0.update 0 ((-1) * 0) p0.center_latitude p0.center_longitude).J22
          * (newtonLocals p0.update 0 ((-1) * 0) p0.center_latitude p0.center_longitude).dE
         - (newtonLocals p0.update 0 ((-1) * 0) p0.center_latitude p0.center_longitude).J12
          * (newtonLocals p0.update 0 ((-1) * 0) p0.center_latitude p0.center_longitude).dN)
        / (newtonLocals p0.update 0 ((-1) * 0) p0.center_latitude p0.center_longitude).D :=
    rfl
  have h2 : (newtonLocals p0.update 0 ((-1) * 0) p0.center_latitude
      p0.center_longitude).d_longitude
      = (-(newtonLocals p0.update 0 ((-1) * 0) p0.center_latitude p0.center_longitude).J21
          * (newtonLocals p0.update 0 ((-1) * 0) p0.center_latitude p0.center_longitude).dE
         + (newtonLocals p0.update 0 ((-1) * 0) p0.center_latitude p0.center_longitude).J11
          * (newtonLocals p0.update 0 ((-1) * 0) p0.center_latitude p0.center_longitude).dN)
        / (newtonLocals p0.update 0 ((-1) * 0) p0.center_latitude p0.center_longitude).D :=
    rfl
  rw [h1, h2, hE, hN]
  simp only [mul_zero, sub_self, add_zero, zero_div, and_self]

/-- The tolerance is positive. -/
theorem insignificant_change_pos : (0 : ℝ) < INSIGNIFICANT_CHANGE := by
  unfold INSIGNIFICANT_CHANGE
  norm_num

/-- C2: for `a >= b > 0` and a tangent point with `cos(center_latitude) != 0`, the
inverse transform of the map point `(0, 0)` returns exactly
`(center_latitude, center_longitude)`: the first pass divides by a non-zero
determinant, computes two zero corrections, and is the only pass. -/
theorem inverse_of_origin (p0 : GPSProjectionParameters ℝ) (hab : p0.b ≤ p0.a)
    (hb : 0 < p0.b) (hcos : Real.cos p0.center_latitude ≠ 0) :
    LatLon.ofMapCoordF (⟨0, 0⟩ : MapCoordF ℝ) p0.update
        = (⟨p0.center_latitude, p0.center_longitude⟩ : LatLon ℝ)
      ∧ (LatLon.ofMapCoordFCounted (⟨0, 0⟩ : MapCoordF ℝ) p0.update).2 = 1
      ∧ (passLocals p0.update (⟨0, 0⟩ : MapCoordF ℝ) 0).D ≠ 0
      ∧ (passLocals p0.update (⟨0, 0⟩ : MapCoordF ℝ) 0).d_latitude = 0
      ∧ (passLocals p0.update (⟨0, 0⟩ : MapCoordF ℝ) 0).d_longitude = 0 := by
  obtain ⟨hlat, hlon⟩ := origin_corrections p0
  have hD := origin_D_ne_zero p0 hab hb hcos
  have hsmall : newtonSmall p0.update 0 ((-1) * 0)
      (⟨p0.center_latitude, p0.center_longitude⟩ : LatLon ℝ) = true := by
    simp only [newtonSmall, hlat, hlon, qAbs_eq_abs, qMax_eq_max, abs_zero, max_self,
      insignificant_change_pos, decide_True]
  have hnext : newtonNext p0.update 0 ((-1) * 0)
      (⟨p0.center_latitude, p0.center_longitude⟩ : LatLon ℝ)
      = (⟨p0.center_latitude, p0.center_longitude⟩ : LatLon ℝ) := by
    simp only [newtonNext, hlat, hlon, add_zero]
  have hrun : LatLon.ofMapCoordFCounted (⟨0, 0⟩ : MapCoordF ℝ) p0.update
      = ((⟨p0.center_latitude, p0.center_longitude⟩ : LatLon ℝ), 1) := by
    show inverseLoop p0.update 0 ((-1) * 0) (19 + 1) 0
      (⟨p0.center_latitude, p0.center_longitude⟩ : LatLon ℝ) = _
    rw [inverseLoop]
    simp only [hsmall, hnext, if_true]
  refine ⟨?_, ?_, hD, hlat, hlon⟩
  · simp only [LatLon.ofMapCoordF, hrun]
  · simp only [hrun]

/-- C2 at the default ellipsoid `a = 6378137.0`, `b = 6356752.3142` with tangent
point `(0, 0)`: the map point `(0, 0)` inverts to latitude 0 and longitude 0. -/
theorem inverse_of_origin_default :
    (6356752.3142 : ℝ) ≤ 6378137.0 ∧ (0 : ℝ) < 6356752.3142 ∧ Real.cos 0 ≠ 0
      ∧ LatLon.ofMapCoordF (⟨0, 0⟩ : MapCoordF ℝ)
            (wgs84 : GPSProjectionParameters ℝ).update
          = (⟨0, 0⟩ : LatLon ℝ) :=
  ⟨by norm_num, by norm_num, by simp,
    (inverse_of_origin (wgs84 : GPSProjectionParameters ℝ)
      (by norm_num [wgs84, GPSProjectionParameters.init])
      (by norm_num [wgs84, GPSProjectionParameters.init])
      (by simp [wgs84, GPSProjectionParameters.init])).1⟩

/-! ## A run of the inverse transform that never meets the tolerance

On the unit sphere with tangent point `(0, 0)` the map point `(π, 0)` makes the
iterate alternate between the longitudes `0` and `π`, with corrections `±π`. -/

/-- The unit sphere has eccentricity zero. -/
theorem sphere_e_sq : (unitSphere : GPSProjectionParameters ℝ).update.e_sq = 0 := by
  simp [GPSProjectionParameters.update, unitSphere]

/-- The corrections on the unit sphere at latitude 0 and a longitude with sine zero. -/
theorem sphere_locals (L : ℝ) (hs : Real.sin L = 0) :
    (newtonLocals (unitSphere : GPSProjectionParameters ℝ).update Real.pi ((-1) * 0) 0
        L).d_latitude = 0
      ∧ (newtonLocals (unitSphere : GPSProjectionParameters ℝ).update Real.pi ((-1) * 0) 0
        L).d_longitude = Real.pi / Real.cos L := by
  have h1 : (unitSphere : GPSProjectionParameters ℝ).a = 1 := rfl
  have h2 : (unitSphere : GPSProjectionParameters ℝ).center_latitude = 0 := rfl
  have h3 : (unitSphere : GPSProjectionParameters ℝ).center_longitude = 0 := rfl
  simp [newtonLocals, sphere_e_sq, update_v0, h1, h2, h3, hs]

/-- The iterates of the run: longitude `0` after an even number of passes, `π` after
an odd number. -/
theorem sphere_iterate (k : Nat) :
    newtonIterate (unitSphere : GPSProjectionParameters ℝ).update
        (⟨Real.pi, 0⟩ : MapCoordF ℝ) k
      = (⟨0, if k % 2 = 0 then 0 else Real.pi⟩ : LatLon ℝ) := by
  induction k with
  | zero => rfl
  | succ k ih =>
    have hstep : newtonIterate (unitSphere : GPSProjectionParameters ℝ).update
        (⟨Real.pi, 0⟩ : MapCoordF ℝ) (k + 1)
        = newtonNext (unitSphere : GPSProjectionParameters ℝ).update Real.pi ((-1) * 0)
            (newtonIterate (unitSphere : GPSProjectionParameters ℝ).update
              (⟨Real.pi, 0⟩ : MapCoordF ℝ) k) := by
      simp only [newtonIterate, MapCoordF.getX, MapCoordF.getY, Function.iterate_succ_apply']
    rw [hstep, ih]
    by_cases hk : k % 2 = 0
    · have hk' : ¬ (k + 1) % 2 = 0 := by omega
      obtain ⟨h1, h2⟩ := sphere_locals 0 Real.sin_zero
      simp only [newtonNext, hk, hk', if_true, if_false, h1, h2, Real.cos_zero, div_one,
        add_zero, zero_add]
    · have hk' : (k + 1) % 2 = 0 := by omega
      obtain ⟨h1, h2⟩ := sphere_locals Real.pi Real.sin_pi
      simp only [newtonNext, hk, hk', if_true, if_false, h1, h2, Real.cos_pi, add_zero]
      congr 1
      ring

/-- No pass of the run has corrections below the tolerance. -/
theorem sphere_never_small (k : Nat) :
    INSIGNIFICANT_CHANGE
      ≤ max |(passLocals (unitSphere : GPSProjectionParameters ℝ).update
                (⟨Real.pi, 0⟩ : MapCoordF ℝ) k).d_latitude|
            |(passLocals (unitSphere : GPSProjectionParameters ℝ).update
                (⟨Real.pi, 0⟩ : MapCoordF ℝ) k).d_longitude| := by
  have hpi : (0.000000001 : ℝ) ≤ Real.pi := by
    have := Real.pi_gt_three
    norm_num
    linarith
  refine le_trans ?_ (le_max_right _ _)
  simp only [passLocals, sphere_iterate, MapCoordF.getX, MapCoordF.getY, INSIGNIFICANT_CHANGE]
  by_cases hk : k % 2 = 0
  · obtain ⟨_, h2⟩ := sphere_locals 0 Real.sin_zero
    simp only [hk, if_true, h2, Real.cos_zero, div_one, abs_of_pos Real.pi_pos]
    exact hpi
  · obtain ⟨_, h2⟩ := sphere_locals Real.pi Real.sin_pi
    simp only [hk, if_false, h2, Real.cos_pi, div_neg, div_one, abs_neg,
      abs_of_pos Real.pi_pos]
    exact hpi

/-- C4 on the unit sphere: for the map point `(π, 0)` no pass meets the tolerance,
all 20 passes are made and the 20th iterate `(0, 0)` is returned. -/
theorem inverse_at_most_20_passes_witness :
    (LatLon.ofMapCoordFCounted (⟨Real.pi, 0⟩ : MapCoordF ℝ)
        (unitSphere : GPSProjectionParameters ℝ).update).2 = 20
      ∧ LatLon.ofMapCoordF (⟨Real.pi, 0⟩ : MapCoordF ℝ)
          (unitSphere : GPSProjectionParameters ℝ).update = (⟨0, 0⟩ : LatLon ℝ) := by
  have h := (inverse_at_most_20_passes (⟨Real.pi, 0⟩ : MapCoordF ℝ)
    (unitSphere : GPSProjectionParameters ℝ).update).2.2
    (fun k _ => not_lt.mpr (sphere_never_small k))
  refine ⟨h.1, ?_⟩
  rw [h.2, sphere_iterate]
  rfl

/-! ## A run of the inverse transform that stops at its second pass

On the unit sphere with tangent point `(0, 0)` the map point `(0.001, 0)` makes the
first pass correct the longitude by `0.001` and the second by
`(0.001 - sin 0.001) / cos 0.001`, which is positive and below the tolerance. -/

/-- The corrections on the unit sphere at latitude 0 for a map point `(E, 0)`. -/
theorem sphere_east_locals (E L : ℝ) :
    (newtonLocals (unitSphere : GPSProjectionParameters ℝ).update E ((-1) * 0) 0
        L).d_latitude = 0
      ∧ (newtonLocals (unitSphere : GPSProjectionParameters ℝ).update E ((-1) * 0) 0
        L).d_longitude = (E - Real.sin L) / Real.cos L := by
  have h1 : (unitSphere : GPSProjectionParameters ℝ).a = 1 := rfl
  have h2 : (unitSphere : GPSProjectionParameters ℝ).center_latitude = 0 := rfl
  have h3 : (unitSphere : GPSProjectionParameters ℝ).center_longitude = 0 := rfl
  constructor
  · simp [newtonLocals, sphere_e_sq, update_v0, h1, h2, h3]
  · simp [newtonLocals, sphere_e_sq, update_v0, h1, h2, h3]
    rw [div_neg, ← neg_div, neg_sub]

/-- The first pass of the run: the corrections are `0` and `E`. -/
theorem sphere_east_first_pass (E : ℝ) :
    (passLocals (unitSphere : GPSProjectionParameters ℝ).update
        (⟨E, 0⟩ : MapCoordF ℝ) 0).d_latitude = 0
      ∧ (passLocals (unitSphere : GPSProjectionParameters ℝ).update
        (⟨E, 0⟩ : MapCoordF ℝ) 0).d_longitude = E := by
  obtain ⟨h1, h2⟩ := sphere_east_locals E 0
  refine ⟨h1, ?_⟩
  have h : (passLocals (unitSphere : GPSProjectionParameters ℝ).update
      (⟨E, 0⟩ : MapCoordF ℝ) 0).d_longitude
      = (E - Real.sin 0) / Real.cos 0 := h2
  rw [h, Real.sin_zero, Real.cos_zero, sub_zero, div_one]

/-- The iterate of the run after the first pass. -/
theorem sphere_east_iterate_one (E : ℝ) :
    newtonIterate (unitSphere : GPSProjectionParameters ℝ).update (⟨E, 0⟩ : MapCoordF ℝ) 1
      = (⟨0, E⟩ : LatLon ℝ) := by
  obtain ⟨h1, h2⟩ := sphere_east_first_pass E
  rw [newtonIterate_succ_eq, h1, h2]
  show (⟨0 + 0, 0 + E⟩ : LatLon ℝ) = _
  rw [zero_add, zero_add]

/-- The second pass of the run: the corrections are `0` and `(E - sin E) / cos E`. -/
theorem sphere_east_second_pass (E : ℝ) :
    (passLocals (unitSphere : GPSProjectionParameters ℝ).update
        (⟨E, 0⟩ : MapCoordF ℝ) 1).d_latitude = 0
      ∧ (passLocals (unitSphere : GPSProjectionParameters ℝ).update
        (⟨E, 0⟩ : MapCoordF ℝ) 1).d_longitude = (E - Real.sin E) / Real.cos E := by
  have h : passLocals (unitSphere : GPSProjectionParameters ℝ).update
      (⟨E, 0⟩ : MapCoordF ℝ) 1
      = newtonLocals (unitSphere : GPSProjectionParameters ℝ).update E ((-1) * 0) 0 E := by
    unfold passLocals
    rw [sphere_east_iterate_one]
    rfl
  rw [h]
  exact sphere_east_locals E E

/-- The second correction for `E = 0.001` is positive and below the tolerance. -/
theorem sphere_east_small :
    0 < ((0.001 : ℝ) - Real.sin 0.001) / Real.cos 0.001
      ∧ ((0.001 : ℝ) - Real.sin 0.001) / Real.cos 0.001 < INSIGNIFICANT_CHANGE := by
  have hpos : (0 : ℝ) < 0.001 := by norm_num
  have hle : (0.001 : ℝ) ≤ 1 := by norm_num
  have h1 := Real.sin_lt hpos
  have h2 := Real.sin_gt_sub_cube hpos hle
  have h3 := Real.one_sub_sq_div_two_le_cos (x := (0.001 : ℝ))
  have hcos : (1 / 2 : ℝ) < Real.cos 0.001 := by
    have : (1 / 2 : ℝ) < 1 - (0.001 : ℝ) ^ 2 / 2 := by norm_num
    linarith
  have hcos0 : (0 : ℝ) < Real.cos 0.001 := by linarith
  have hnum : (0.001 : ℝ) - Real.sin 0.001 < (0.001 : ℝ) ^ 3 / 4 := by linarith
  refine ⟨div_pos (by linarith) hcos0, ?_⟩
  rw [div_lt_iff₀ hcos0]
  unfold INSIGNIFICANT_CHANGE
  have hb : (0.001 : ℝ) ^ 3 / 4 < 0.000000001 * (1 / 2) := by norm_num
  have hc : (0.000000001 : ℝ) * (1 / 2) < 0.000000001 * Real.cos 0.001 := by
    apply mul_lt_mul_of_pos_left hcos
    norm_num
  linarith

/-- C5 at work on the unit sphere with tangent point `(0, 0)` and map point
`(0.001, 0)`: the first pass corrects the longitude by `0.001`, which is not below
the tolerance, so it is not the last; the second pass is the first below the
tolerance, with a positive correction; exactly two passes are made and the result
has the longitude `0.001` plus the correction of the second pass. -/
theorem inverse_early_stop_witness :
    (1 : Nat) < 20
      ∧ max |(passLocals (unitSphere : GPSProjectionParameters ℝ).update
                (⟨0.001, 0⟩ : MapCoordF ℝ) 1).d_latitude|
            |(passLocals (unitSphere : GPSProjectionParameters ℝ).update
                (⟨0.001, 0⟩ : MapCoordF ℝ) 1).d_longitude| < INSIGNIFICANT_CHANGE
      ∧ INSIGNIFICANT_CHANGE
          ≤ max |(passLocals (unitSphere : GPSProjectionParameters ℝ).update
                    (⟨0.001, 0⟩ : MapCoordF ℝ) 0).d_latitude|
                |(passLocals (unitSphere : GPSProjectionParameters ℝ).update
                    (⟨0.001, 0⟩ : MapCoordF ℝ) 0).d_longitude|
      ∧ (LatLon.ofMapCoordFCounted (⟨0.001, 0⟩ : MapCoordF ℝ)
          (unitSphere : GPSProjectionParameters ℝ).update).2 = 1 + 1
      ∧ (LatLon.ofMapCoordFCounted (⟨0.001, 0⟩ : MapCoordF ℝ)
          (unitSphere : GPSProjectionParameters ℝ).update).2 ≠ 0 + 1
      ∧ LatLon.ofMapCoordF (⟨0.001, 0⟩ : MapCoordF ℝ)
          (unitSphere : GPSProjectionParameters ℝ).update
        = (⟨0, 0.001 + (0.001 - Real.sin 0.001) / Real.cos 0.001⟩ : LatLon ℝ)
      ∧ (0 : ℝ) < (0.001 - Real.sin 0.001) / Real.cos 0.001 := by
  obtain ⟨f1, f2⟩ := sphere_east_first_pass 0.001
  obtain ⟨s1, s2⟩ := sphere_east_second_pass 0.001
  obtain ⟨hpos, hlt⟩ := sphere_east_small
  have hsmall : max |(passLocals (unitSphere : GPSProjectionParameters ℝ).update
        (⟨0.001, 0⟩ : MapCoordF ℝ) 1).d_latitude|
      |(passLocals (unitSphere : GPSProjectionParameters ℝ).update
        (⟨0.001, 0⟩ : MapCoordF ℝ) 1).d_longitude| < INSIGNIFICANT_CHANGE := by
    rw [s1, s2, abs_zero, abs_of_pos hpos, max_eq_right hpos.le]
    exact hlt
  have hbig : INSIGNIFICANT_CHANGE
      ≤ max |(passLocals (unitSphere : GPSProjectionParameters ℝ).update
                (⟨0.001, 0⟩ : MapCoordF ℝ) 0).d_latitude|
            |(passLocals (unitSphere : GPSProjectionParameters ℝ).update
                (⟨0.001, 0⟩ : MapCoordF ℝ) 0).d_longitude| := by
    rw [f1, f2, abs_zero]
    refine le_trans ?_ (le_max_right _ _)
    unfold INSIGNIFICANT_CHANGE
    rw [abs_of_pos (by norm_num)]
    norm_num
  have hfirst : ∀ j, j < 1 →
      ¬ max |(passLocals (unitSphere : GPSProjectionParameters ℝ).update
                (⟨0.001, 0⟩ : MapCoordF ℝ) j).d_latitude|
            |(passLocals (unitSphere : GPSProjectionParameters ℝ).update
                (⟨0.001, 0⟩ : MapCoordF ℝ) j).d_longitude| < INSIGNIFICANT_CHANGE := by
    intro j hj
    have hj0 : j = 0 := by omega
    rw [hj0]
    exact not_lt.mpr hbig
  have h := inverse_early_stop (⟨0.001, 0⟩ : MapCoordF ℝ)
    (unitSphere : GPSProjectionParameters ℝ).update
  obtain ⟨hcount, _, hlat, hlon⟩ := h.2.2.1 1 (by norm_num) hsmall hfirst
  refine ⟨by norm_num, hsmall, hbig, hcount, h.2.2.2 0 (by norm_num) hbig, ?_, hpos⟩
  rw [sphere_east_iterate_one, s1] at hlat
  rw [sphere_east_iterate_one, s2] at hlon
  calc LatLon.ofMapCoordF (⟨0.001, 0⟩ : MapCoordF ℝ)
        (unitSphere : GPSProjectionParameters ℝ).update
      = (⟨(LatLon.ofMapCoordF (⟨0.001, 0⟩ : MapCoordF ℝ)
            (unitSphere : GPSProjectionParameters ℝ).update).latitude,
          (LatLon.ofMapCoordF (⟨0.001, 0⟩ : MapCoordF ℝ)
            (unitSphere : GPSProjectionParameters ℝ).update).longitude⟩ : LatLon ℝ) := rfl
    _ = (⟨0, 0.001 + (0.001 - Real.sin 0.001) / Real.cos 0.001⟩ : LatLon ℝ) := by
      rw [hlat, hlon]
      simp

/-! ## Geocentric coordinates -/

section Cartesian

variable {F : Type} [LinearOrderedField F] [CMath F]

/-- C7: `toCartesianCoordinates` outputs `x = (N+h)*cos(lat)*cos(lon)`,
`y = (N+h)*cos(lat)*sin(lon)`, `z = (cos(alpha)^2*N + h)*sin(lat)` with
`alpha = acos(b/a)` and `N = a / sqrt(1 - (sin(lat)*sin(alpha))^2)`; replacing the
tangent point and the derived constants of the parameter set by any other values
does not change the result. -/
theorem toCartesianCoordinates_formula (params : GPSProjectionParameters F)
    (lat lon h : F) (clat clon e c s v : F) :
    (LatLon.mk lat lon).toCartesianCoordinates params h
        = ((params.a / CMath.sqrt
                (1 - (CMath.sin lat * CMath.sin (CMath.acos (params.b / params.a))) ^ 2)
              + h) * CMath.cos lat * CMath.cos lon,
           (params.a / CMath.sqrt
                (1 - (CMath.sin lat * CMath.sin (CMath.acos (params.b / params.a))) ^ 2)
              + h) * CMath.cos lat * CMath.sin lon,
           (CMath.cos (CMath.acos (params.b / params.a)) ^ 2
              * (params.a / CMath.sqrt
                  (1 - (CMath.sin lat * CMath.sin (CMath.acos (params.b / params.a))) ^ 2))
              + h) * CMath.sin lat)
      ∧ (LatLon.mk lat lon).toCartesianCoordinates
            { a := params.a, b := params.b, center_latitude := clat, center_longitude := clon,
              e_sq := e, cos_center_latitude := c, sin_center_latitude := s, v0 := v } h
          = (LatLon.mk lat lon).toCartesianCoordinates params h := by
  refine ⟨?_, rfl⟩
  simp only [LatLon.toCartesianCoordinates, pow_two]

end Cartesian

/-! ## Coordinate text parser -/

section Parser

variable {F : Type} [LinearOrderedField F] [CMath F]

/-- A character is determined by its code. -/
theorem char_eq_of_toNat (c : Char) (n : Nat) (h : c.toNat = n) : c = Char.ofNat n := by
  rw [← h, Char.ofNat_toNat]

omit [CMath F] in
/-- The loop body returns `false` exactly on the characters it has no branch for. -/
theorem fromStringBody_eq_none_iff (Q : QtText F) (c : Char) (la : Bool) (st : ParseState F) :
    fromStringBody Q c la st = none ↔ ¬ acceptedChar c := by
  unfold fromStringBody acceptedChar
  by_cases h1 : ('0' ≤ c ∧ c ≤ '9') ∨ c = '.' ∨ c = '-'
  · rw [if_pos h1]
    exact ⟨fun h => absurd h (by simp), fun h => absurd (Or.inl h1) h⟩
  · rw [if_neg h1]
    by_cases h2 : c.toNat = 176
    · rw [if_pos h2]
      exact ⟨fun h => absurd h (by simp),
        fun h => absurd (Or.inr (Or.inl (char_eq_of_toNat c 176 h2))) h⟩
    · rw [if_neg h2]
      by_cases h3 : c.toNat = 194
      · rw [if_pos h3]
        exact ⟨fun h => absurd h (by simp),
          fun h => absurd (Or.inr (Or.inr (Or.inl (char_eq_of_toNat c 194 h3)))) h⟩
      · rw [if_neg h3]
        by_cases h4 : c = doubleQuote ∨ (c = apostrophe ∧ la = true)
        · rw [if_pos h4]
          refine ⟨fun h => absurd h (by simp), fun h => absurd ?_ h⟩
          rcases h4 with h | h
          · exact Or.inr (Or.inr (Or.inr (Or.inl h)))
          · exact Or.inr (Or.inr (Or.inr (Or.inr (Or.inl h.1))))
        · rw [if_neg h4]
          by_cases h5 : c = apostrophe
          · rw [if_pos h5]
            exact ⟨fun h => absurd h (by simp),
              fun h => absurd (Or.inr (Or.inr (Or.inr (Or.inr (Or.inl h5))))) h⟩
          · rw [if_neg h5]
            by_cases h6 : c = 'N' ∨ c = 'E' ∨ c = 'S' ∨ c = 'W'
            · rw [if_pos h6]
              exact ⟨fun h => absurd h (by simp),
                fun h => absurd (Or.inr (Or.inr (Or.inr (Or.inr (Or.inr (Or.inl h6)))))) h⟩
            · rw [if_neg h6]
              by_cases h7 : c = ' ' ∨ c = tab ∨ c = carriageReturn ∨ c = lineFeed
              · rw [if_pos h7]
                exact ⟨fun h => absurd h (by simp),
                  fun h => absurd (Or.inr (Or.inr (Or.inr (Or.inr (Or.inr (Or.inr h7)))))) h⟩
              · rw [if_neg h7]
                refine ⟨fun _ h => ?_, fun _ => rfl⟩
                rcases h with h | h | h | h | h | h | h
                · exact h1 h
                · exact h2 (by rw [h]; decide)
                · exact h3 (by rw [h]; decide)
                · exact h4 (Or.inl h)
                · exact h5 h
                · exact h6 h
                · exact h7 h

omit [CMath F] in
/-- The loop returns `false` exactly when some character of the text, upper-cased,
has no branch in the loop body. -/
theorem fromStringLoop_eq_none_iff (Q : QtText F) (str : List Char) :
    ∀ st : ParseState F,
      fromStringLoop Q str st = none ↔ ∃ c ∈ str, ¬ acceptedChar (Q.toUpper c) := by
  induction str with
  | nil =>
    intro st
    simp only [fromStringLoop, List.not_mem_nil, false_and, exists_false, iff_false]
    rw [fromStringBody_eq_none_iff]
    exact not_not.mpr (Or.inr (Or.inr (Or.inr (Or.inr (Or.inr (Or.inr (Or.inl rfl)))))))
  | cons ch rest ih =>
    intro st
    rw [fromStringLoop]
    cases hb : fromStringBody Q (Q.toUpper ch) (decide (rest.head? = some apostrophe)) st with
    | none =>
      have := (fromStringBody_eq_none_iff Q _ _ _).mp hb
      simp only [true_iff]
      exact ⟨ch, List.mem_cons_self _ _, this⟩
    | some st' =>
      have hacc : ¬ ¬ acceptedChar (Q.toUpper ch) := by
        intro h
        rw [(fromStringBody_eq_none_iff Q _ _ _).mpr h] at hb
        exact absurd hb (by simp)
      simp only [ih st', List.mem_cons, exists_eq_or_imp, hacc, false_or]

omit [CMath F] in
/-- One pass of the loop followed by the remaining passes. -/
theorem fromStringLoop_cons (Q : QtText F) (ch : Char) (rest : List Char) (st : ParseState F) :
    fromStringLoop Q (ch :: rest) st
      = (fromStringBody Q (Q.toUpper ch) (decide (rest.head? = some apostrophe)) st).bind
          (fromStringLoop Q rest) := by
  rw [fromStringLoop]
  cases fromStringBody Q (Q.toUpper ch) (decide (rest.head? = some apostrophe)) st <;> rfl

/-- The characters of the numeric buffer have a branch in the loop body. -/
theorem acceptedChar_of_isNumberChar (c : Char) (h : isNumberChar c = true) : acceptedChar c :=
  Or.inl (of_decide_eq_true h)

/-- A character of the numeric buffer is not an apostrophe. -/
theorem ne_apostrophe_of_isNumberChar (c : Char) (h : isNumberChar c = true) :
    c ≠ apostrophe := by
  intro hc
  rw [hc] at h
  exact absurd h (by decide)

omit [CMath F] in
/-- The loop body appends a digit, point or minus sign to the buffer. -/
theorem fromStringBody_numberChar (Q : QtText F) (c : Char) (la : Bool) (st : ParseState F)
    (h : isNumberChar c = true) :
    fromStringBody Q c la st = some { st with temp := st.temp ++ [c] } := by
  unfold fromStringBody
  rw [if_pos (of_decide_eq_true h)]

omit [CMath F] in
/-- A run of digits, points and minus signs is appended to the buffer. -/
theorem fromStringLoop_numberChars (Q : QtText F) (hup : UpperFixesAccepted Q)
    (s rest : List Char) :
    ∀ st : ParseState F, (∀ c ∈ s, isNumberChar c = true) →
      fromStringLoop Q (s ++ rest) st = fromStringLoop Q rest { st with temp := st.temp ++ s } := by
  induction s with
  | nil =>
    intro st _
    simp only [List.nil_append, List.append_nil]
  | cons c s ih =>
    intro st hs
    have hc : isNumberChar c = true := hs c (List.mem_cons_self _ _)
    rw [List.cons_append, fromStringLoop_cons, hup c (acceptedChar_of_isNumberChar c hc),
      fromStringBody_numberChar Q c _ st hc, Option.some_bind,
      ih _ (fun d hd => hs d (List.mem_cons_of_mem _ hd))]
    simp only [List.append_assoc, List.singleton_append]

omit [CMath F] in
/-- The degree sign stores the buffer as degrees. -/
theorem fromStringBody_degreeSign (Q : QtText F) (la : Bool) (st : ParseState F) :
    fromStringBody Q degreeSign la st
      = some { st with degrees := Q.toDouble st.temp, degrees_set := true, temp := [] } := by
  unfold fromStringBody
  rw [if_neg (by decide), if_pos (by decide)]

omit [CMath F] in
/-- An apostrophe that is not followed by another adds the buffer as minutes. -/
theorem fromStringBody_apostrophe (Q : QtText F) (st : ParseState F) :
    fromStringBody Q apostrophe false st
      = some { st with degrees := st.degrees + Q.toDouble st.temp / 60.0, minutes_set := true,
                       temp := [] } := by
  unfold fromStringBody
  rw [if_neg (by decide), if_neg (by decide), if_neg (by decide), if_neg (by decide),
    if_pos (by decide)]

omit [CMath F] in
/-- An apostrophe followed by another adds the buffer as seconds. -/
theorem fromStringBody_apostrophe_pair (Q : QtText F) (st : ParseState F) :
    fromStringBody Q apostrophe true st
      = some { st with degrees := st.degrees + Q.toDouble st.temp / (60.0 * 60.0),
                       temp := [] } := by
  unfold fromStringBody
  rw [if_neg (by decide), if_neg (by decide), if_neg (by decide), if_pos (by decide)]

omit [CMath F] in
/-- The double quote adds the buffer as seconds. -/
theorem fromStringBody_doubleQuote (Q : QtText F) (la : Bool) (st : ParseState F) :
    fromStringBody Q doubleQuote la st
      = some { st with degrees := st.degrees + Q.toDouble st.temp / (60.0 * 60.0),
                       temp := [] } := by
  unfold fromStringBody
  rw [if_neg (by decide), if_neg (by decide), if_neg (by decide), if_pos (Or.inl rfl)]

omit [CMath F] in
/-- A hemisphere letter is stored in `letter`. -/
theorem fromStringBody_letter (Q : QtText F) (c : Char) (la : Bool) (st : ParseState F)
    (h : c = 'N' ∨ c = 'E' ∨ c = 'S' ∨ c = 'W') :
    fromStringBody Q c la st = some { st with letter := c } := by
  unfold fromStringBody
  rcases h with h | h | h | h <;> subst h <;>
    rw [if_neg (by decide), if_neg (by decide), if_neg (by decide),
      if_neg (not_or.mpr ⟨by decide, fun h2 => absurd h2.1 (by decide)⟩),
      if_neg (by decide), if_pos (by decide)]

omit [CMath F] in
/-- A whitespace character finalizes the field. -/
theorem fromStringBody_fieldEnd (Q : QtText F) (c : Char) (la : Bool) (st : ParseState F)
    (h : isFieldEnd c = true) :
    fromStringBody Q c la st = some (finalizeField Q st) := by
  have h' := of_decide_eq_true h
  unfold fromStringBody
  rcases h' with h | h | h | h <;> subst h <;>
    rw [if_neg (by decide), if_neg (by decide), if_neg (by decide),
      if_neg (not_or.mpr ⟨by decide, fun h2 => absurd h2.1 (by decide)⟩),
      if_neg (by decide), if_neg (by decide), if_pos (by decide)]

omit [CMath F] in
/-- The last pass of the loop finalizes the field. -/
theorem fromStringLoop_nil (Q : QtText F) (st : ParseState F) :
    fromStringLoop Q [] st = some (finalizeField Q st) := by
  rw [fromStringLoop, fromStringBody_fieldEnd Q ' ' false st (by decide)]

omit [CMath F] in
/-- A pass at the degree sign. -/
theorem fromStringLoop_degreeSign (Q : QtText F) (hup : UpperFixesAccepted Q)
    (rest : List Char) (st : ParseState F) :
    fromStringLoop Q (degreeSign :: rest) st
      = fromStringLoop Q rest
          { st with degrees := Q.toDouble st.temp, degrees_set := true, temp := [] } := by
  rw [fromStringLoop_cons, hup degreeSign (Or.inr (Or.inl rfl)), fromStringBody_degreeSign,
    Option.some_bind]

omit [CMath F] in
/-- A pass at an apostrophe that is not followed by another. -/
theorem fromStringLoop_apostrophe (Q : QtText F) (hup : UpperFixesAccepted Q)
    (rest : List Char) (st : ParseState F) (hrest : rest.head? ≠ some apostrophe) :
    fromStringLoop Q (apostrophe :: rest) st
      = fromStringLoop Q rest
          { st with degrees := st.degrees + Q.toDouble st.temp / 60.0, minutes_set := true,
                    temp := [] } := by
  rw [fromStringLoop_cons, hup apostrophe (Or.inr (Or.inr (Or.inr (Or.inr (Or.inl rfl))))),
    decide_eq_false hrest, fromStringBody_apostrophe, Option.some_bind]

omit [CMath F] in
/-- A pass at the double quote. -/
theorem fromStringLoop_doubleQuote (Q : QtText F) (hup : UpperFixesAccepted Q)
    (rest : List Char) (st : ParseState F) :
    fromStringLoop Q (doubleQuote :: rest) st
      = fromStringLoop Q rest
          { st with degrees := st.degrees + Q.toDouble st.temp / (60.0 * 60.0), temp := [] } := by
  rw [fromStringLoop_cons, hup doubleQuote (Or.inr (Or.inr (Or.inr (Or.inl rfl)))),
    fromStringBody_doubleQuote, Option.some_bind]

omit [CMath F] in
/-- A pass at a hemisphere letter. -/
theorem fromStringLoop_letter (Q : QtText F) (hup : UpperFixesAccepted Q) (c : Char)
    (rest : List Char) (st : ParseState F) (h : c = 'N' ∨ c = 'E' ∨ c = 'S' ∨ c = 'W') :
    fromStringLoop Q (c :: rest) st = fromStringLoop Q rest { st with letter := c } := by
  rw [fromStringLoop_cons, hup c (Or.inr (Or.inr (Or.inr (Or.inr (Or.inr (Or.inl h)))))),
    fromStringBody_letter Q c _ st h, Option.some_bind]

omit [CMath F] in
/-- A pass at a whitespace character. -/
theorem fromStringLoop_fieldEnd (Q : QtText F) (hup : UpperFixesAccepted Q) (c : Char)
    (rest : List Char) (st : ParseState F) (h : isFieldEnd c = true) :
    fromStringLoop Q (c :: rest) st = fromStringLoop Q rest (finalizeField Q st) := by
  rw [fromStringLoop_cons,
    hup c (Or.inr (Or.inr (Or.inr (Or.inr (Or.inr (Or.inr (of_decide_eq_true h))))))),
    fromStringBody_fieldEnd Q c _ st h, Option.some_bind]

omit [CMath F] in
/-- Whitespace with an empty buffer and no degrees changes nothing. -/
theorem finalizeField_idle (Q : QtText F) (st : ParseState F) (ht : st.temp = [])
    (hd : st.degrees_set = false) : finalizeField Q st = st := by
  unfold finalizeField
  rw [ht, hd]
  rfl

omit [CMath F] in
/-- A run of whitespace after a finalized field changes nothing. -/
theorem fromStringLoop_idle (Q : QtText F) (hup : UpperFixesAccepted Q) (ws rest : List Char) :
    ∀ st : ParseState F, (∀ c ∈ ws, isFieldEnd c = true) → st.temp = [] →
      st.degrees_set = false →
      fromStringLoop Q (ws ++ rest) st = fromStringLoop Q rest st := by
  induction ws with
  | nil =>
    intro st _ _ _
    rfl
  | cons c ws ih =>
    intro st hws ht hd
    rw [List.cons_append, fromStringLoop_fieldEnd Q hup c _ st (hws c (List.mem_cons_self _ _)),
      finalizeField_idle Q st ht hd]
    exact ih st (fun d hd' => hws d (List.mem_cons_of_mem _ hd')) ht hd

omit [CMath F] in
/-- The passes over `D°M'S"`: the buffer is folded into degrees, minutes and seconds. -/
theorem fromStringLoop_dms (Q : QtText F) (hup : UpperFixesAccepted Q)
    (D M S rest : List Char) (st : ParseState F)
    (hD : ∀ c ∈ D, isNumberChar c = true) (hM : ∀ c ∈ M, isNumberChar c = true)
    (hS : ∀ c ∈ S, isNumberChar c = true) (ht : st.temp = []) :
    fromStringLoop Q (D ++ degreeSign :: (M ++ apostrophe :: (S ++ doubleQuote :: rest))) st
      = fromStringLoop Q rest
          { st with
            temp := []
            degrees := Q.toDouble D + Q.toDouble M / 60.0 + Q.toDouble S / (60.0 * 60.0)
            degrees_set := true
            minutes_set := true } := by
  have hhead : (S ++ doubleQuote :: rest).head? ≠ some apostrophe := by
    cases S with
    | nil => simp only [List.nil_append, List.head?_cons]; decide
    | cons c S =>
      simp only [List.cons_append, List.head?_cons, ne_eq, Option.some.injEq]
      exact ne_apostrophe_of_isNumberChar c (hS c (List.mem_cons_self _ _))
  rw [fromStringLoop_numberChars Q hup D _ st hD, fromStringLoop_degreeSign Q hup,
    fromStringLoop_numberChars Q hup M _ _ hM, fromStringLoop_apostrophe Q hup _ _ hhead,
    fromStringLoop_numberChars Q hup S _ _ hS, fromStringLoop_doubleQuote Q hup]
  simp only [ht, List.nil_append]

/-- The characters of a decimal numeral go to the numeric buffer. -/
theorem isNumberChar_of_isDecimalNumeral (s : List Char) (h : isDecimalNumeral s = true) :
    ∀ c ∈ s, isNumberChar c = true := by
  intro c hc
  simp only [isDecimalNumeral, Bool.and_eq_true, List.all_eq_true, decide_eq_true_eq] at h
  rcases h.1.1 c hc with h' | h'
  · exact decide_eq_true (Or.inl h')
  · exact decide_eq_true (Or.inr (Or.inl h'))

/-- The characters of a signed numeral go to the numeric buffer. -/
theorem isNumberChar_of_isSignedNumeral (s : List Char) (h : isSignedNumeral s = true) :
    ∀ c ∈ s, isNumberChar c = true := by
  unfold isSignedNumeral at h
  split at h
  · intro c hc
    rcases List.mem_cons.mp hc with hc' | hc'
    · rw [hc']; decide
    · exact isNumberChar_of_isDecimalNumeral _ h c hc'
  · exact isNumberChar_of_isDecimalNumeral s h

/-- A decimal numeral is not empty. -/
theorem ne_nil_of_isDecimalNumeral (s : List Char) (h : isDecimalNumeral s = true) : s ≠ [] := by
  intro hs
  rw [hs] at h
  exact absurd h (by decide)

/-- A signed numeral is not empty. -/
theorem ne_nil_of_isSignedNumeral (s : List Char) (h : isSignedNumeral s = true) : s ≠ [] := by
  intro hs
  rw [hs] at h
  exact absurd h (by decide)

omit [CMath F] in
/-- Lean's `Char.toUpper` leaves the characters of coordinate text as they are. -/
theorem decimalText_upper : UpperFixesAccepted (decimalText : QtText F) := by
  intro c hc
  show Char.toUpper c = c
  rcases hc with h | h | h | h | h | h | h
  · rcases h with h | h | h
    · unfold Char.toUpper
      have h2 : c.toNat ≤ 57 := h.2
      have h3 : ¬ (c.toNat ≥ 97 ∧ c.toNat ≤ 122) := by
        intro hh
        omega
      simp only [h3, if_false]
    · rw [h]; decide
    · rw [h]; decide
  · rw [h]; decide
  · rw [h]; decide
  · rw [h]; decide
  · rw [h]; decide
  · rcases h with h | h | h | h <;> rw [h] <;> decide
  · rcases h with h | h | h | h <;> rw [h] <;> decide

omit [CMath F] in
/-- Whitespace after a plain number without hemisphere letter: the number becomes the
latitude if none is assigned yet and the longitude otherwise. -/
theorem finalizeField_plain (Q : QtText F) (st : ParseState F) (ht : st.temp ≠ [])
    (hd : st.degrees_set = false) (hl : st.letter = nullChar) :
    finalizeField Q st
      = { temp := []
          temp_latitude := if st.temp_latitude_set then st.temp_latitude else Q.toDouble st.temp
          temp_longitude := if st.temp_latitude_set then Q.toDouble st.temp else st.temp_longitude
          temp_latitude_set := true
          letter := nullChar
          degrees := 0
          degrees_set := false
          minutes_set := false } := by
  have he : st.temp.isEmpty = false := by
    cases hst : st.temp with
    | nil => exact absurd hst ht
    | cons c t => rfl
  have h1 : ¬ (nullChar = 'S' ∨ nullChar = 'W') := by decide
  have h2 : ¬ (nullChar = 'N' ∨ nullChar = 'S') := by decide
  have h3 : ¬ (nullChar = 'W' ∨ nullChar = 'E') := by decide
  unfold finalizeField
  simp only [he, hd, hl, h1, h2, h3, Bool.false_and, Bool.not_false, if_true, if_false,
    Bool.false_eq_true]
  cases st.temp_latitude_set <;> simp

omit [CMath F] in
/-- Whitespace after `D°M'S"` with an empty buffer: the degrees become the latitude
when the letter is `N`, or when there is no letter and no latitude yet. -/
theorem finalizeField_dms (Q : QtText F) (st : ParseState F) (ht : st.temp = [])
    (hd : st.degrees_set = true)
    (hl : st.letter = 'N' ∨ (st.letter = nullChar ∧ st.temp_latitude_set = false)) :
    finalizeField Q st
      = { temp := []
          temp_latitude := st.degrees
          temp_longitude := st.temp_longitude
          temp_latitude_set := true
          letter := nullChar
          degrees := 0
          degrees_set := false
          minutes_set := false } := by
  have h1 : ¬ (nullChar = 'S' ∨ nullChar = 'W') := by decide
  have h2 : ¬ (nullChar = 'N' ∨ nullChar = 'S') := by decide
  have h3 : ¬ (nullChar = 'W' ∨ nullChar = 'E') := by decide
  have h4 : ¬ (('N' : Char) = 'S' ∨ ('N' : Char) = 'W') := by decide
  have h5 : (('N' : Char) = 'N' ∨ ('N' : Char) = 'S') := by decide
  unfold finalizeField
  rcases hl with hl | ⟨hl, hs⟩
  · simp only [ht, hd, hl, h4, h5, List.isEmpty_nil, Bool.not_true, Bool.and_false,
      Bool.false_eq_true, if_true, if_false, true_or]
  · simp only [ht, hd, hl, hs, h1, h2, h3, List.isEmpty_nil, Bool.not_true, Bool.and_false,
      Bool.false_eq_true, if_true, if_false]

/-- C8: for non-negative decimal numerals `D`, `M`, `S`, `fromString` applied to
`D°M'S"`, optionally followed by a space and `N` or directly by `N`, succeeds and
sets the latitude to `(D + M/60 + S/3600) * pi / 180`, the numerals being read by
`QString::toDouble`. -/
theorem fromString_dms_latitude (Q : QtText F) (hup : UpperFixesAccepted Q) (self : LatLon F)
    (D M S suffix : List Char) (hD : isDecimalNumeral D = true)
    (hM : isDecimalNumeral M = true) (hS : isDecimalNumeral S = true)
    (hsuffix : suffix = [] ∨ suffix = [' ', 'N'] ∨ suffix = ['N']) :
    (LatLon.fromString Q self
        (D ++ degreeSign :: (M ++ apostrophe :: (S ++ doubleQuote :: suffix)))).1 = true
      ∧ (LatLon.fromString Q self
          (D ++ degreeSign :: (M ++ apostrophe :: (S ++ doubleQuote :: suffix)))).2.latitude
        = (Q.toDouble D + Q.toDouble M / 60 + Q.toDouble S / 3600) * CMath.M_PI / 180 := by
  have h60 : (60.0 : F) = 60 := by norm_num
  have h3600 : (60.0 * 60.0 : F) = 3600 := by norm_num
  have hloop : ∃ st : ParseState F,
      fromStringLoop Q (D ++ degreeSign :: (M ++ apostrophe :: (S ++ doubleQuote :: suffix)))
        ParseState.initial = some st
      ∧ st.temp_latitude = Q.toDouble D + Q.toDouble M / 60 + Q.toDouble S / 3600 := by
    rw [fromStringLoop_dms Q hup D M S suffix ParseState.initial
      (isNumberChar_of_isDecimalNumeral D hD) (isNumberChar_of_isDecimalNumeral M hM)
      (isNumberChar_of_isDecimalNumeral S hS) rfl]
    rcases hsuffix with h | h | h
    · rw [h, fromStringLoop_nil, finalizeField_dms Q _ rfl rfl (Or.inr ⟨rfl, rfl⟩)]
      exact ⟨_, rfl, by rw [h3600, h60]⟩
    · rw [h, fromStringLoop_fieldEnd Q hup ' ' _ _ (by decide),
        finalizeField_dms Q _ rfl rfl (Or.inr ⟨rfl, rfl⟩),
        fromStringLoop_letter Q hup 'N' _ _ (Or.inl rfl), fromStringLoop_nil,
        finalizeField_idle Q _ rfl rfl]
      exact ⟨_, rfl, by rw [h3600, h60]⟩
    · rw [h, fromStringLoop_letter Q hup 'N' _ _ (Or.inl rfl), fromStringLoop_nil,
        finalizeField_dms Q _ rfl rfl (Or.inl rfl)]
      exact ⟨_, rfl, by rw [h3600, h60]⟩
  obtain ⟨st, hst, hlat⟩ := hloop
  simp only [LatLon.fromString, hst, hlat, and_self]

/-- C9: for decimal numerals `x` and `y`, each optionally with a leading minus sign,
`fromString` applied to `x`, whitespace, `y` succeeds and sets the latitude to
`x * pi / 180` and the longitude to `y * pi / 180`. -/
theorem fromString_two_fields (Q : QtText F) (hup : UpperFixesAccepted Q) (self : LatLon F)
    (x ws y : List Char) (hx : isSignedNumeral x = true) (hy : isSignedNumeral y = true)
    (hws : ws ≠ []) (hsep : ∀ c ∈ ws, isFieldEnd c = true) :
    LatLon.fromString Q self (x ++ (ws ++ y))
      = (true, { latitude := Q.toDouble x * CMath.M_PI / 180
                 longitude := Q.toDouble y * CMath.M_PI / 180 }) := by
  have hloop : ∃ st : ParseState F,
      fromStringLoop Q (x ++ (ws ++ y)) ParseState.initial = some st
      ∧ st.temp_latitude = Q.toDouble x ∧ st.temp_longitude = Q.toDouble y := by
    cases ws with
    | nil => exact absurd rfl hws
    | cons w ws =>
      rw [fromStringLoop_numberChars Q hup x _ _ (isNumberChar_of_isSignedNumeral x hx),
        List.cons_append,
        fromStringLoop_fieldEnd Q hup w _ _ (hsep w (List.mem_cons_self _ _)),
        finalizeField_plain Q _
          (by simpa [ParseState.initial] using ne_nil_of_isSignedNumeral x hx) rfl rfl,
        fromStringLoop_idle Q hup ws y _ (fun c hc => hsep c (List.mem_cons_of_mem _ hc))
          rfl rfl,
        ← List.append_nil y,
        fromStringLoop_numberChars Q hup y _ _ (isNumberChar_of_isSignedNumeral y hy),
        fromStringLoop_nil,
        finalizeField_plain Q _
          (by simpa [ParseState.initial] using ne_nil_of_isSignedNumeral y hy) rfl rfl]
      refine ⟨_, rfl, ?_, ?_⟩ <;> simp [ParseState.initial]
  obtain ⟨st, hst, hlat, hlon⟩ := hloop
  simp only [LatLon.fromString, hst, hlat, hlon]

/-- C10: `fromString` returns `false` if and only if the text contains a character
whose upper-case form is not a digit, `.`, `-`, the degree sign, code 194, the double
quote, the apostrophe, one of `N`, `E`, `S`, `W`, or a space, tab, CR or LF; so no
text of accepted characters is rejected, and `48X31` is rejected. -/
theorem fromString_false_iff (Q : QtText F) (self : LatLon F) (str : List Char) :
    ((LatLon.fromString Q self str).1 = false ↔ ∃ c ∈ str, ¬ acceptedChar (Q.toUpper c))
      ∧ (LatLon.fromString (decimalText : QtText F) self ['4', '8', 'X', '3', '1']).1
          = false := by
  have key : ∀ (Q' : QtText F) (s : List Char),
      (LatLon.fromString Q' self s).1 = false ↔ ∃ c ∈ s, ¬ acceptedChar (Q'.toUpper c) := by
    intro Q' s
    rw [← fromStringLoop_eq_none_iff Q' s ParseState.initial]
    unfold LatLon.fromString
    cases fromStringLoop Q' s ParseState.initial <;> simp
  refine ⟨key Q str, (key decimalText _).mpr ⟨'X', by simp, ?_⟩⟩
  show ¬ acceptedChar (Char.toUpper 'X')
  unfold acceptedChar
  decide

end Parser

/-! ## The parser on concrete texts -/

/-- The value of the text `48`. -/
theorem decimalValue_48 : (decimalValue ['4', '8'] : ℝ) = 48 := by
  have h : decimalParts ['4', '8'] = some (false, ['4', '8'], []) := by decide
  have h1 : digitsValue ['4', '8'] = 48 := by decide
  have h2 : digitsValue [] = 0 := by decide
  simp only [decimalValue, h, h1, h2]
  norm_num

/-- The value of the text `31`. -/
theorem decimalValue_31 : (decimalValue ['3', '1'] : ℝ) = 31 := by
  have h : decimalParts ['3', '1'] = some (false, ['3', '1'], []) := by decide
  have h1 : digitsValue ['3', '1'] = 31 := by decide
  have h2 : digitsValue [] = 0 := by decide
  simp only [decimalValue, h, h1, h2]
  norm_num

/-- The value of the text `43.932`. -/
theorem decimalValue_43_932 : (decimalValue ['4', '3', '.', '9', '3', '2'] : ℝ) = 43.932 := by
  have h : decimalParts ['4', '3', '.', '9', '3', '2']
      = some (false, ['4', '3'], ['9', '3', '2']) := by
    decide
  have h1 : digitsValue ['4', '3'] = 43 := by decide
  have h2 : digitsValue ['9', '3', '2'] = 932 := by decide
  simp only [decimalValue, h, h1, h2]
  norm_num

/-- The value of the text `48.5`. -/
theorem decimalValue_48_5 : (decimalValue ['4', '8', '.', '5'] : ℝ) = 48.5 := by
  have h : decimalParts ['4', '8', '.', '5'] = some (false, ['4', '8'], ['5']) := by decide
  have h1 : digitsValue ['4', '8'] = 48 := by decide
  have h2 : digitsValue ['5'] = 5 := by decide
  simp only [decimalValue, h, h1, h2]
  norm_num

/-- The value of the text `-12.25`. -/
theorem decimalValue_neg_12_25 : (decimalValue ['-', '1', '2', '.', '2', '5'] : ℝ) = -12.25 := by
  have h : decimalParts ['-', '1', '2', '.', '2', '5'] = some (true, ['1', '2'], ['2', '5']) := by
    decide
  have h1 : digitsValue ['1', '2'] = 12 := by decide
  have h2 : digitsValue ['2', '5'] = 25 := by decide
  simp only [decimalValue, h, h1, h2]
  norm_num

/-- C8 on the text `48°31'43.932" N`: the latitude is `48 + 31/60 + 43.932/3600`
degrees, in radians. -/
theorem fromString_dms_latitude_witness :
    isDecimalNumeral ['4', '8'] = true ∧ isDecimalNumeral ['3', '1'] = true
      ∧ isDecimalNumeral ['4', '3', '.', '9', '3', '2'] = true
      ∧ (LatLon.fromString (decimalText : QtText ℝ) (⟨0, 0⟩ : LatLon ℝ)
          (['4', '8'] ++ degreeSign :: (['3', '1'] ++ apostrophe
            :: (['4', '3', '.', '9', '3', '2'] ++ doubleQuote :: [' ', 'N'])))).1 = true
      ∧ (LatLon.fromString (decimalText : QtText ℝ) (⟨0, 0⟩ : LatLon ℝ)
          (['4', '8'] ++ degreeSign :: (['3', '1'] ++ apostrophe
            :: (['4', '3', '.', '9', '3', '2'] ++ doubleQuote :: [' ', 'N'])))).2.latitude
        = (48 + 31 / 60 + 43.932 / 3600) * Real.pi / 180 := by
  have h := fromString_dms_latitude (decimalText : QtText ℝ) decimalText_upper
    (⟨0, 0⟩ : LatLon ℝ) ['4', '8'] ['3', '1'] ['4', '3', '.', '9', '3', '2'] [' ', 'N']
    (by decide) (by decide) (by decide) (Or.inr (Or.inl rfl))
  refine ⟨by decide, by decide, by decide, h.1, ?_⟩
  rw [h.2]
  show (decimalValue ['4', '8'] + decimalValue ['3', '1'] / 60
    + decimalValue ['4', '3', '.', '9', '3', '2'] / 3600) * Real.pi / 180 = _
  rw [decimalValue_48, decimalValue_31, decimalValue_43_932]

/-- C9 on the text `48.5 -12.25`: latitude `48.5` and longitude `-12.25` degrees, in
radians. -/
theorem fromString_two_fields_witness :
    isSignedNumeral ['4', '8', '.', '5'] = true
      ∧ isSignedNumeral ['-', '1', '2', '.', '2', '5'] = true
      ∧ LatLon.fromString (decimalText : QtText ℝ) (⟨0, 0⟩ : LatLon ℝ)
          (['4', '8', '.', '5'] ++ ([' '] ++ ['-', '1', '2', '.', '2', '5']))
        = (true, (⟨48.5 * Real.pi / 180, -12.25 * Real.pi / 180⟩ : LatLon ℝ)) := by
  have h := fromString_two_fields (decimalText : QtText ℝ) decimalText_upper
    (⟨0, 0⟩ : LatLon ℝ) ['4', '8', '.', '5'] [' '] ['-', '1', '2', '.', '2', '5']
    (by decide) (by decide) (by simp) (by decide)
  refine ⟨by decide, by decide, ?_⟩
  rw [h]
  show (true, (⟨decimalValue ['4', '8', '.', '5'] * Real.pi / 180,
    decimalValue ['-', '1', '2', '.', '2', '5'] * Real.pi / 180⟩ : LatLon ℝ)) = _
  rw [decimalValue_48_5, decimalValue_neg_12_25]

section Fields

variable {F : Type} [LinearOrderedField F] [CMath F]

omit [CMath F] in
/-- The whitespace branch when a field is pending: the variables after it, in terms
of the degree value of the field. -/
theorem finalizeField_active (Q : QtText F) (st : ParseState F)
    (h : (st.temp.isEmpty && !st.degrees_set) = false) :
    finalizeField Q st
      = { temp := []
          temp_latitude :=
            if st.letter = 'N' ∨ st.letter = 'S' then fieldDegrees Q st
            else if st.letter = 'W' ∨ st.letter = 'E' then st.temp_latitude
            else if st.temp_latitude_set then st.temp_latitude
            else fieldDegrees Q st
          temp_longitude :=
            if st.letter = 'N' ∨ st.letter = 'S' then st.temp_longitude
            else if st.letter = 'W' ∨ st.letter = 'E' then fieldDegrees Q st
            else if st.temp_latitude_set then fieldDegrees Q st
            else st.temp_longitude
          temp_latitude_set :=
            if st.letter = 'N' ∨ st.letter = 'S' then true
            else if st.letter = 'W' ∨ st.letter = 'E' then st.temp_latitude_set
            else true
          letter := nullChar
          degrees := 0
          degrees_set := false
          minutes_set := false } := by
  unfold finalizeField
  rw [h]
  simp only [Bool.false_eq_true, if_false, fieldDegrees, fieldMagnitude]
  by_cases h1 : st.letter = 'N' ∨ st.letter = 'S'
  · simp only [h1, if_true]
  · by_cases h2 : st.letter = 'W' ∨ st.letter = 'E'
    · simp only [h1, h2, if_true, if_false]
    · cases hs : st.temp_latitude_set <;> simp [h1, h2, hs]

/-- C11: when `fromString` returns `false`, the latitude and longitude of the object
are exactly the values they had before the call. -/
theorem fromString_failure_keeps_object (Q : QtText F) (self : LatLon F) (str : List Char)
    (h : (LatLon.fromString Q self str).1 = false) :
    (LatLon.fromString Q self str).2 = self := by
  unfold LatLon.fromString at h ⊢
  cases hl : fromStringLoop Q str ParseState.initial with
  | none => rfl
  | some st =>
    rw [hl] at h
    exact absurd h (by simp)

omit [CMath F] in
/-- A pass at a character whose upper-case form is a hemisphere letter. -/
theorem fromStringLoop_letter_up (Q : QtText F) (c L : Char) (rest : List Char)
    (st : ParseState F) (hc : Q.toUpper c = L) (h : L = 'N' ∨ L = 'E' ∨ L = 'S' ∨ L = 'W') :
    fromStringLoop Q (c :: rest) st = fromStringLoop Q rest { st with letter := L } := by
  rw [fromStringLoop_cons, hc, fromStringBody_letter Q L _ st h, Option.some_bind]

/-- A text with a character that has no branch in the loop body is rejected and the
object is returned as it was. -/
theorem fromString_rejects (Q : QtText F) (self : LatLon F) (str : List Char)
    (h : ∃ c ∈ str, ¬ acceptedChar (Q.toUpper c)) :
    LatLon.fromString Q self str = (false, self) := by
  unfold LatLon.fromString
  rw [(fromStringLoop_eq_none_iff Q str ParseState.initial).mpr h]

/-- The result of `fromString` when the loop runs to its end. -/
theorem fromString_of_loop (Q : QtText F) (self : LatLon F) (str : List Char)
    (st : ParseState F) (h : fromStringLoop Q str ParseState.initial = some st) :
    LatLon.fromString Q self str
      = (true, { latitude := st.temp_latitude * CMath.M_PI / 180
                 longitude := st.temp_longitude * CMath.M_PI / 180 }) := by
  unfold LatLon.fromString
  rw [h]

omit [CMath F] in
/-- The loop on a single number followed by one character that upper-cases to a
hemisphere letter. -/
theorem fromStringLoop_number_letter (Q : QtText F) (hup : UpperFixesAccepted Q)
    (x : List Char) (c L : Char) (hx : ∀ d ∈ x, isNumberChar d = true)
    (hc : Q.toUpper c = L) (h : L = 'N' ∨ L = 'E' ∨ L = 'S' ∨ L = 'W') :
    fromStringLoop Q (x ++ [c]) ParseState.initial
      = some (finalizeField Q { (ParseState.initial : ParseState F) with
                                temp := x, letter := L }) := by
  rw [fromStringLoop_numberChars Q hup x _ _ hx, fromStringLoop_letter_up Q c L _ _ hc h,
    fromStringLoop_nil]
  rfl

omit [CMath F] in
/-- The loop on a single number. -/
theorem fromStringLoop_number (Q : QtText F) (hup : UpperFixesAccepted Q)
    (x : List Char) (hx : ∀ d ∈ x, isNumberChar d = true) :
    fromStringLoop Q x ParseState.initial
      = some (finalizeField Q { (ParseState.initial : ParseState F) with temp := x }) := by
  have h := fromStringLoop_numberChars Q hup x [] ParseState.initial hx
  rw [List.append_nil] at h
  rw [h, fromStringLoop_nil]
  rfl

omit [CMath F] in
/-- C12, as the code has it: a field finalized at whitespace is assigned to latitude
when its hemisphere letter is `N` or `S`, to longitude when its letter is `E` or `W`,
and without a letter to latitude if no latitude has been assigned yet and to
longitude otherwise; the other coordinate keeps its value. -/
theorem field_assignment (Q : QtText F) (st : ParseState F)
    (h : (st.temp.isEmpty && !st.degrees_set) = false) :
    ((st.letter = 'N' ∨ st.letter = 'S') →
        (finalizeField Q st).temp_latitude = fieldDegrees Q st
          ∧ (finalizeField Q st).temp_longitude = st.temp_longitude)
      ∧ ((st.letter = 'W' ∨ st.letter = 'E') →
        (finalizeField Q st).temp_longitude = fieldDegrees Q st
          ∧ (finalizeField Q st).temp_latitude = st.temp_latitude)
      ∧ (¬ (st.letter = 'N' ∨ st.letter = 'S') → ¬ (st.letter = 'W' ∨ st.letter = 'E') →
          st.temp_latitude_set = false →
        (finalizeField Q st).temp_latitude = fieldDegrees Q st
          ∧ (finalizeField Q st).temp_longitude = st.temp_longitude)
      ∧ (¬ (st.letter = 'N' ∨ st.letter = 'S') → ¬ (st.letter = 'W' ∨ st.letter = 'E') →
          st.temp_latitude_set = true →
        (finalizeField Q st).temp_longitude = fieldDegrees Q st
          ∧ (finalizeField Q st).temp_latitude = st.temp_latitude) := by
  rw [finalizeField_active Q st h]
  refine ⟨fun h1 => ?_, fun h2 => ?_, fun h1 h2 hs => ?_, fun h1 h2 hs => ?_⟩
  · simp only [h1, if_true, and_self]
  · have h1 : ¬ (st.letter = 'N' ∨ st.letter = 'S') := by
      rintro (hn | hn) <;> rcases h2 with hw | hw <;> rw [hn] at hw <;>
        exact absurd hw (by decide)
    simp only [h1, h2, if_true, if_false, and_self]
  · simp [h1, h2, hs]
  · simp [h1, h2, hs]

end Fields

/-! ## Field assignment and range on concrete texts -/

/-- The value of the text `12.5`. -/
theorem decimalValue_12_5 : (decimalValue ['1', '2', '.', '5'] : ℝ) = 12.5 := by
  have h : decimalParts ['1', '2', '.', '5'] = some (false, ['1', '2'], ['5']) := by decide
  have h1 : digitsValue ['1', '2'] = 12 := by decide
  have h2 : digitsValue ['5'] = 5 := by decide
  simp only [decimalValue, h, h1, h2]
  norm_num

/-- The value of the text `100`. -/
theorem decimalValue_100 : (decimalValue ['1', '0', '0'] : ℝ) = 100 := by
  have h : decimalParts ['1', '0', '0'] = some (false, ['1', '0', '0'], []) := by decide
  have h1 : digitsValue ['1', '0', '0'] = 100 := by decide
  have h2 : digitsValue [] = 0 := by decide
  simp only [decimalValue, h, h1, h2]
  norm_num

/-- C11 on the text `12 X` with the object at `(1, 2)`: the parse fails after a valid
field and the object still is `(1, 2)`. -/
theorem fromString_failure_keeps_object_witness :
    (LatLon.fromString (decimalText : QtText ℝ) (⟨1, 2⟩ : LatLon ℝ) ['1', '2', ' ', 'X']).1
        = false
      ∧ (LatLon.fromString (decimalText : QtText ℝ) (⟨1, 2⟩ : LatLon ℝ)
          ['1', '2', ' ', 'X']).2 = (⟨1, 2⟩ : LatLon ℝ) := by
  have h : (LatLon.fromString (decimalText : QtText ℝ) (⟨1, 2⟩ : LatLon ℝ)
      ['1', '2', ' ', 'X']).1 = false := by
    rw [fromString_rejects (decimalText : QtText ℝ) _ _ ⟨'X', by simp, by
      show ¬ acceptedChar (Char.toUpper 'X')
      unfold acceptedChar
      decide⟩]
  exact ⟨h, fromString_failure_keeps_object _ _ _ h⟩

/-- C12 refuted as stated: the first field `12.5E` is assigned to longitude, the
latitude stays 0 and is not 12.5 degrees. -/
theorem first_field_east_is_longitude :
    LatLon.fromString (decimalText : QtText ℝ) (⟨0, 0⟩ : LatLon ℝ) ['1', '2', '.', '5', 'E']
        = (true, (⟨0, 12.5 * Real.pi / 180⟩ : LatLon ℝ))
      ∧ (LatLon.fromString (decimalText : QtText ℝ) (⟨0, 0⟩ : LatLon ℝ)
          ['1', '2', '.', '5', 'E']).2.latitude ≠ 12.5 * Real.pi / 180 := by
  have hloop := fromStringLoop_number_letter (decimalText : QtText ℝ) decimalText_upper
    ['1', '2', '.', '5'] 'E' 'E' (by decide) rfl (by decide)
  have hE : ¬ (('E' : Char) = 'N' ∨ ('E' : Char) = 'S') := by decide
  have hE' : (('E' : Char) = 'W' ∨ ('E' : Char) = 'E') := by decide
  have hE'' : ¬ (('E' : Char) = 'S' ∨ ('E' : Char) = 'W') := by decide
  have hres : LatLon.fromString (decimalText : QtText ℝ) (⟨0, 0⟩ : LatLon ℝ)
      ['1', '2', '.', '5', 'E'] = (true, (⟨0, 12.5 * Real.pi / 180⟩ : LatLon ℝ)) := by
    rw [show (['1', '2', '.', '5', 'E'] : List Char) = ['1', '2', '.', '5'] ++ ['E'] from rfl,
      fromString_of_loop _ _ _ _ hloop,
      finalizeField_active (decimalText : QtText ℝ)
        { (ParseState.initial : ParseState ℝ) with temp := ['1', '2', '.', '5'], letter := 'E' }
        rfl]
    simp only [hE, hE', hE'', if_true, if_false, fieldDegrees, fieldMagnitude,
      ParseState.initial, List.isEmpty_cons, Bool.not_false, Bool.not_true]
    show (true, (⟨0 * Real.pi / 180, decimalValue ['1', '2', '.', '5'] * Real.pi / 180⟩
      : LatLon ℝ)) = _
    rw [decimalValue_12_5, zero_mul, zero_div]
  refine ⟨hres, ?_⟩
  rw [hres]
  show (0 : ℝ) ≠ 12.5 * Real.pi / 180
  have := Real.pi_pos
  intro h0
  linarith

/-- C12 on the pending field `12.5` with letter `E` and no latitude assigned yet: the
field goes to longitude and the latitude keeps its value 0. -/
theorem field_assignment_witness :
    (finalizeField (decimalText : QtText ℝ)
        { (ParseState.initial : ParseState ℝ) with
          temp := ['1', '2', '.', '5'], letter := 'E' }).temp_longitude = 12.5
      ∧ (finalizeField (decimalText : QtText ℝ)
        { (ParseState.initial : ParseState ℝ) with
          temp := ['1', '2', '.', '5'], letter := 'E' }).temp_latitude = 0 := by
  have h := (field_assignment (decimalText : QtText ℝ)
    { (ParseState.initial : ParseState ℝ) with temp := ['1', '2', '.', '5'], letter := 'E' }
    rfl).2.1 (Or.inr rfl)
  have hE : ¬ (('E' : Char) = 'S' ∨ ('E' : Char) = 'W') := by decide
  refine ⟨?_, h.2⟩
  rw [h.1]
  simp only [fieldDegrees, fieldMagnitude, hE, if_false, ParseState.initial,
    List.isEmpty_cons, Bool.not_false, Bool.not_true, if_true]
  exact decimalValue_12_5

/-- The loop on the text `100`. -/
theorem loop_100 :
    fromStringLoop (decimalText : QtText ℝ) ['1', '0', '0'] ParseState.initial
      = some { (ParseState.initial : ParseState ℝ) with
               temp_latitude := 100, temp_latitude_set := true } := by
  rw [fromStringLoop_number (decimalText : QtText ℝ) decimalText_upper ['1', '0', '0']
    (by decide),
    finalizeField_plain (decimalText : QtText ℝ)
      { (ParseState.initial : ParseState ℝ) with temp := ['1', '0', '0'] }
      (by simp) rfl rfl]
  have hv : (decimalText : QtText ℝ).toDouble ['1', '0', '0'] = 100 := decimalValue_100
  simp only [ParseState.initial, Bool.false_eq_true, if_false, hv]

/-- C15 refuted as stated: the text `100` is parsed successfully and gives the
latitude 100 degrees, which is above `pi/2`. -/
theorem latitude_out_of_range :
    LatLon.fromString (decimalText : QtText ℝ) (⟨0, 0⟩ : LatLon ℝ) ['1', '0', '0']
        = (true, (⟨100 * Real.pi / 180, 0⟩ : LatLon ℝ))
      ∧ ¬ ((LatLon.fromString (decimalText : QtText ℝ) (⟨0, 0⟩ : LatLon ℝ)
          ['1', '0', '0']).2.latitude ≤ Real.pi / 2) := by
  have hres : LatLon.fromString (decimalText : QtText ℝ) (⟨0, 0⟩ : LatLon ℝ) ['1', '0', '0']
      = (true, (⟨100 * Real.pi / 180, 0⟩ : LatLon ℝ)) := by
    rw [fromString_of_loop _ _ _ _ loop_100]
    simp only [ParseState.initial, zero_mul, zero_div, cmath_pi_real]
  refine ⟨hres, ?_⟩
  rw [hres]
  show ¬ (100 * Real.pi / 180 ≤ Real.pi / 2)
  have := Real.pi_pos
  intro h0
  linarith

/-- C15, as the code has it: `fromString` makes no range check; after a successful
parse the latitude is the degree value last assigned to latitude times `pi/180`,
and it lies in `[-pi/2, pi/2]` exactly when that degree value lies in `[-90, 90]`. -/
theorem fromString_latitude_range (Q : QtText ℝ) (self : LatLon ℝ) (str : List Char)
    (st : ParseState ℝ) (h : fromStringLoop Q str ParseState.initial = some st) :
    (LatLon.fromString Q self str).1 = true
      ∧ (LatLon.fromString Q self str).2.latitude = st.temp_latitude * Real.pi / 180
      ∧ ((-(Real.pi / 2) ≤ (LatLon.fromString Q self str).2.latitude
            ∧ (LatLon.fromString Q self str).2.latitude ≤ Real.pi / 2)
          ↔ (-90 ≤ st.temp_latitude ∧ st.temp_latitude ≤ 90)) := by
  rw [fromString_of_loop Q self str st h]
  refine ⟨rfl, rfl, ?_⟩
  show (-(Real.pi / 2) ≤ st.temp_latitude * Real.pi / 180
    ∧ st.temp_latitude * Real.pi / 180 ≤ Real.pi / 2) ↔ _
  have hpi := Real.pi_pos
  constructor
  · rintro ⟨h1, h2⟩
    constructor
    · by_contra hc
      have hc' : st.temp_latitude < -90 := not_le.mp hc
      nlinarith
    · by_contra hc
      have hc' : 90 < st.temp_latitude := not_le.mp hc
      nlinarith
  · rintro ⟨h1, h2⟩
    constructor <;> nlinarith

/-- C15 on the text `100`: the degree value 100 is outside `[-90, 90]`, so the
latitude is outside `[-pi/2, pi/2]`. -/
theorem fromString_latitude_range_witness :
    (LatLon.fromString (decimalText : QtText ℝ) (⟨0, 0⟩ : LatLon ℝ) ['1', '0', '0']).1 = true
      ∧ ¬ (-(Real.pi / 2) ≤ (LatLon.fromString (decimalText : QtText ℝ) (⟨0, 0⟩ : LatLon ℝ)
              ['1', '0', '0']).2.latitude
            ∧ (LatLon.fromString (decimalText : QtText ℝ) (⟨0, 0⟩ : LatLon ℝ)
              ['1', '0', '0']).2.latitude ≤ Real.pi / 2) := by
  have h := fromString_latitude_range (decimalText : QtText ℝ) (⟨0, 0⟩ : LatLon ℝ)
    ['1', '0', '0'] _ loop_100
  refine ⟨h.1, fun hr => ?_⟩
  have h90 := (h.2.2.mp hr).2
  simp only [ParseState.initial] at h90
  norm_num at h90

section Hemisphere

variable {F : Type} [LinearOrderedField F] [CMath F]

omit [CMath F] in
/-- The coordinates after the whitespace branch when a field is pending, as a
function of the value put into `letter`. -/
theorem finalizeField_letter_active (Q : QtText F) (st : ParseState F) (L : Char)
    (h : (st.temp.isEmpty && !st.degrees_set) = false) :
    (finalizeField Q { st with letter := L }).temp_latitude
        = (if L = 'N' ∨ L = 'S' then
            (if L = 'S' ∨ L = 'W' then -fieldMagnitude Q st else fieldMagnitude Q st)
          else if L = 'W' ∨ L = 'E' then st.temp_latitude
          else if st.temp_latitude_set then st.temp_latitude
          else (if L = 'S' ∨ L = 'W' then -fieldMagnitude Q st else fieldMagnitude Q st))
      ∧ (finalizeField Q { st with letter := L }).temp_longitude
        = (if L = 'N' ∨ L = 'S' then st.temp_longitude
          else if L = 'W' ∨ L = 'E' then
            (if L = 'S' ∨ L = 'W' then -fieldMagnitude Q st else fieldMagnitude Q st)
          else if st.temp_latitude_set then
            (if L = 'S' ∨ L = 'W' then -fieldMagnitude Q st else fieldMagnitude Q st)
          else st.temp_longitude) := by
  have h' : (({ st with letter := L } : ParseState F).temp.isEmpty
      && !({ st with letter := L } : ParseState F).degrees_set) = false := h
  rw [finalizeField_active Q _ h']
  exact ⟨rfl, rfl⟩

end Hemisphere

section Seconds

variable {F : Type} [LinearOrderedField F] [CMath F]

omit [CMath F] in
/-- A pass at an apostrophe that is followed by another. -/
theorem fromStringLoop_apostrophe_pair (Q : QtText F) (hup : UpperFixesAccepted Q)
    (rest : List Char) (st : ParseState F) (hrest : rest.head? = some apostrophe) :
    fromStringLoop Q (apostrophe :: rest) st
      = fromStringLoop Q rest
          { st with degrees := st.degrees + Q.toDouble st.temp / (60.0 * 60.0), temp := [] } := by
  rw [fromStringLoop_cons, hup apostrophe (Or.inr (Or.inr (Or.inr (Or.inr (Or.inl rfl))))),
    decide_eq_true hrest, fromStringBody_apostrophe_pair, Option.some_bind]

omit [CMath F] in
/-- The passes over `D°M'S''`, the seconds marked by two apostrophes: the state after
them is the one after `D°M'S"`, provided `QString::toDouble` gives 0 for the empty
text. -/
theorem fromStringLoop_dms_pair (Q : QtText F) (hup : UpperFixesAccepted Q)
    (h0 : Q.toDouble [] = 0) (D M S rest : List Char) (st : ParseState F)
    (hD : ∀ c ∈ D, isNumberChar c = true) (hM : ∀ c ∈ M, isNumberChar c = true)
    (hS : ∀ c ∈ S, isNumberChar c = true) (hSne : S ≠ []) (ht : st.temp = [])
    (hrest : rest.head? ≠ some apostrophe) :
    fromStringLoop Q
        (D ++ degreeSign :: (M ++ apostrophe :: (S ++ apostrophe :: apostrophe :: rest))) st
      = fromStringLoop Q rest
          { st with
            temp := []
            degrees := Q.toDouble D + Q.toDouble M / 60.0 + Q.toDouble S / (60.0 * 60.0)
            degrees_set := true
            minutes_set := true } := by
  have hhead : (S ++ apostrophe :: apostrophe :: rest).head? ≠ some apostrophe := by
    cases S with
    | nil => exact absurd rfl hSne
    | cons c S =>
      simp only [List.cons_append, List.head?_cons, ne_eq, Option.some.injEq]
      exact ne_apostrophe_of_isNumberChar c (hS c (List.mem_cons_self _ _))
  rw [fromStringLoop_numberChars Q hup D _ st hD, fromStringLoop_degreeSign Q hup,
    fromStringLoop_numberChars Q hup M _ _ hM, fromStringLoop_apostrophe Q hup _ _ hhead,
    fromStringLoop_numberChars Q hup S _ _ hS,
    fromStringLoop_apostrophe_pair Q hup (apostrophe :: rest) _ rfl,
    fromStringLoop_apostrophe Q hup _ _ hrest]
  simp only [ht, List.nil_append, h0, zero_div, add_zero]

omit [CMath F] in
/-- The whitespace branch after `D°M'S"`: the degrees go to latitude or longitude
with the sign of the letter. -/
theorem finalizeField_dms_letter (Q : QtText F) (d : F) (L : Char) :
    (finalizeField Q
        { (ParseState.initial : ParseState F) with
          temp := [], degrees := d, degrees_set := true, minutes_set := true,
          letter := L }).temp_latitude
        = (if L = 'N' ∨ L = 'S' then (if L = 'S' ∨ L = 'W' then -d else d)
          else if L = 'W' ∨ L = 'E' then 0
          else (if L = 'S' ∨ L = 'W' then -d else d))
      ∧ (finalizeField Q
        { (ParseState.initial : ParseState F) with
          temp := [], degrees := d, degrees_set := true, minutes_set := true,
          letter := L }).temp_longitude
        = (if L = 'N' ∨ L = 'S' then 0
          else if L = 'W' ∨ L = 'E' then (if L = 'S' ∨ L = 'W' then -d else d)
          else 0) := by
  obtain ⟨a, b⟩ := finalizeField_letter_active Q
    { (ParseState.initial : ParseState F) with
      temp := [], degrees := d, degrees_set := true, minutes_set := true } L rfl
  refine ⟨a.trans ?_, b.trans ?_⟩
  · simp [fieldMagnitude, ParseState.initial]
  · simp [fieldMagnitude, ParseState.initial]

omit [CMath F] in
/-- The rest of the loop after `D°M'S"` when the text ends there or with one
hemisphere letter: the coordinates assigned. -/
theorem fromStringLoop_after_dms (Q : QtText F) (hup : UpperFixesAccepted Q) (d : F)
    (suffix : List Char)
    (hsuffix : suffix = [] ∨ suffix = ['N'] ∨ suffix = ['E'] ∨ suffix = ['S']
      ∨ suffix = ['W']) :
    ∃ st : ParseState F,
      fromStringLoop Q suffix
          { (ParseState.initial : ParseState F) with
            temp := [], degrees := d, degrees_set := true, minutes_set := true } = some st
        ∧ st.temp_latitude
            = (if suffix = ['S'] then -d else if suffix = ['E'] then 0
               else if suffix = ['W'] then 0 else d)
        ∧ st.temp_longitude
            = (if suffix = ['S'] then 0 else if suffix = ['E'] then d
               else if suffix = ['W'] then -d else 0) := by
  rcases hsuffix with h | h | h | h | h
  · obtain ⟨a, b⟩ := finalizeField_dms_letter Q d nullChar
    have d1 : ¬ (nullChar = 'S' ∨ nullChar = 'W') := by decide
    have d2 : ¬ (nullChar = 'N' ∨ nullChar = 'S') := by decide
    have d3 : ¬ (nullChar = 'W' ∨ nullChar = 'E') := by decide
    rw [if_neg d2, if_neg d3, if_neg d1] at a
    rw [if_neg d2, if_neg d3] at b
    refine ⟨_, by rw [h, fromStringLoop_nil], ?_, ?_⟩
    · rw [h]
      exact a.trans (by simp)
    · rw [h]
      exact b.trans (by simp)
  · obtain ⟨a, b⟩ := finalizeField_dms_letter Q d 'N'
    refine ⟨_, by rw [h, fromStringLoop_letter Q hup 'N' _ _ (by decide), fromStringLoop_nil],
      ?_, ?_⟩
    · rw [h]
      exact a.trans (by simp)
    · rw [h]
      exact b.trans (by simp)
  · obtain ⟨a, b⟩ := finalizeField_dms_letter Q d 'E'
    refine ⟨_, by rw [h, fromStringLoop_letter Q hup 'E' _ _ (by decide), fromStringLoop_nil],
      ?_, ?_⟩
    · rw [h]
      exact a.trans (by simp)
    · rw [h]
      exact b.trans (by simp)
  · obtain ⟨a, b⟩ := finalizeField_dms_letter Q d 'S'
    refine ⟨_, by rw [h, fromStringLoop_letter Q hup 'S' _ _ (by decide), fromStringLoop_nil],
      ?_, ?_⟩
    · rw [h]
      exact a.trans (by simp)
    · rw [h]
      exact b.trans (by simp)
  · obtain ⟨a, b⟩ := finalizeField_dms_letter Q d 'W'
    refine ⟨_, by rw [h, fromStringLoop_letter Q hup 'W' _ _ (by decide), fromStringLoop_nil],
      ?_, ?_⟩
    · rw [h]
      exact a.trans (by simp)
    · rw [h]
      exact b.trans (by simp)

/-- C14: for decimal numerals `D`, `M`, `S` and a text that ends after the seconds
marker or with one hemisphere letter `L`, `D°M'S''L` (two apostrophes) parses to the
same result as `D°M'S"L`: the angle `D + M/60 + S/3600` degrees, negated for `S` and
`W`, stored as latitude for `N`, `S` and no letter and as longitude for `E` and `W`.
`QString::toDouble` is taken to give 0 for the empty text. -/
theorem seconds_marker (Q : QtText F) (hup : UpperFixesAccepted Q) (h0 : Q.toDouble [] = 0)
    (self : LatLon F) (D M S suffix : List Char) (hD : isDecimalNumeral D = true)
    (hM : isDecimalNumeral M = true) (hS : isDecimalNumeral S = true)
    (hsuffix : suffix = [] ∨ suffix = ['N'] ∨ suffix = ['E'] ∨ suffix = ['S']
      ∨ suffix = ['W']) :
    LatLon.fromString Q self
        (D ++ degreeSign :: (M ++ apostrophe :: (S ++ apostrophe :: apostrophe :: suffix)))
      = LatLon.fromString Q self
          (D ++ degreeSign :: (M ++ apostrophe :: (S ++ doubleQuote :: suffix)))
    ∧ LatLon.fromString Q self
          (D ++ degreeSign :: (M ++ apostrophe :: (S ++ doubleQuote :: suffix)))
      = (true,
          { latitude :=
              (if suffix = ['S'] then -(Q.toDouble D + Q.toDouble M / 60 + Q.toDouble S / 3600)
               else if suffix = ['E'] then 0
               else if suffix = ['W'] then 0
               else Q.toDouble D + Q.toDouble M / 60 + Q.toDouble S / 3600)
                * CMath.M_PI / 180
            longitude :=
              (if suffix = ['S'] then 0
               else if suffix = ['E'] then
                 Q.toDouble D + Q.toDouble M / 60 + Q.toDouble S / 3600
               else if suffix = ['W'] then
                 -(Q.toDouble D + Q.toDouble M / 60 + Q.toDouble S / 3600)
               else 0) * CMath.M_PI / 180 }) := by
  have h60 : (60.0 : F) = 60 := by norm_num
  have h3600 : (60.0 * 60.0 : F) = 3600 := by norm_num
  have hrest : suffix.head? ≠ some apostrophe := by
    rcases hsuffix with h | h | h | h | h <;> rw [h] <;> decide
  obtain ⟨st, hst, hlat, hlon⟩ := fromStringLoop_after_dms Q hup
    (Q.toDouble D + Q.toDouble M / 60.0 + Q.toDouble S / (60.0 * 60.0)) suffix hsuffix
  have hquote : fromStringLoop Q
      (D ++ degreeSign :: (M ++ apostrophe :: (S ++ doubleQuote :: suffix)))
      ParseState.initial = some st := by
    rw [fromStringLoop_dms Q hup D M S suffix ParseState.initial
      (isNumberChar_of_isDecimalNumeral D hD) (isNumberChar_of_isDecimalNumeral M hM)
      (isNumberChar_of_isDecimalNumeral S hS) rfl]
    exact hst
  have hpair : fromStringLoop Q
      (D ++ degreeSign :: (M ++ apostrophe :: (S ++ apostrophe :: apostrophe :: suffix)))
      ParseState.initial = some st := by
    rw [fromStringLoop_dms_pair Q hup h0 D M S suffix ParseState.initial
      (isNumberChar_of_isDecimalNumeral D hD) (isNumberChar_of_isDecimalNumeral M hM)
      (isNumberChar_of_isDecimalNumeral S hS) (ne_nil_of_isDecimalNumeral S hS) rfl hrest]
    exact hst
  rw [fromString_of_loop Q self _ st hpair, fromString_of_loop Q self _ st hquote, hlat, hlon,
    h3600, h60]
  exact ⟨rfl, rfl⟩

end Seconds

/-- C14 on the texts `48°31'43.932''S` and `48°31'43.932"S`: both give the latitude
`-(48 + 31/60 + 43.932/3600)` degrees and the longitude 0. -/
theorem seconds_marker_witness :
    (decimalText : QtText ℝ).toDouble [] = 0
      ∧ LatLon.fromString (decimalText : QtText ℝ) (⟨0, 0⟩ : LatLon ℝ)
          (['4', '8'] ++ degreeSign :: (['3', '1'] ++ apostrophe
            :: (['4', '3', '.', '9', '3', '2'] ++ apostrophe :: apostrophe :: ['S'])))
        = (true, (⟨-(48 + 31 / 60 + 43.932 / 3600) * Real.pi / 180, 0⟩ : LatLon ℝ)) := by
  have hz : (decimalText : QtText ℝ).toDouble [] = 0 := by
    show (decimalValue [] : ℝ) = 0
    have h : decimalParts [] = none := by decide
    simp only [decimalValue, h]
  have h := seconds_marker (decimalText : QtText ℝ) decimalText_upper hz
    (⟨0, 0⟩ : LatLon ℝ) ['4', '8'] ['3', '1'] ['4', '3', '.', '9', '3', '2'] ['S']
    (by decide) (by decide) (by decide) (by decide)
  have hD : (decimalText : QtText ℝ).toDouble ['4', '8'] = 48 := decimalValue_48
  have hM : (decimalText : QtText ℝ).toDouble ['3', '1'] = 31 := decimalValue_31
  have hS : (decimalText : QtText ℝ).toDouble ['4', '3', '.', '9', '3', '2'] = 43.932 :=
    decimalValue_43_932
  refine ⟨hz, ?_⟩
  rw [h.1, h.2, hD, hM, hS]
  simp

section Cramer

variable {F : Type} [LinearOrderedField F] [CMath F]

/-- C20: in every pass of the inverse transform in which `D = J11*J22 - J12*J21` is
not zero, the corrections `d_latitude = (J22*dE - J12*dN)/D` and
`d_longitude = (-J21*dE + J11*dN)/D` are the unique solution of
`J11*x + J12*y = dE`, `J21*x + J22*y = dN`, where `dE` is the map x coordinate minus
`E_test` and `dN` is minus the map y coordinate minus `N_test`. -/
theorem newton_step_cramer (params : GPSProjectionParameters F) (map_coord : MapCoordF F)
    (k : Nat) (s : NewtonLocals F) (hs : s = passLocals params map_coord k) (hD : s.D ≠ 0) :
    s.D = s.J11 * s.J22 - s.J12 * s.J21
      ∧ s.dE = map_coord.x - s.E_test
      ∧ s.dN = (-1) * map_coord.y - s.N_test
      ∧ s.d_latitude = (s.J22 * s.dE - s.J12 * s.dN) / s.D
      ∧ s.d_longitude = (-s.J21 * s.dE + s.J11 * s.dN) / s.D
      ∧ s.J11 * s.d_latitude + s.J12 * s.d_longitude = s.dE
      ∧ s.J21 * s.d_latitude + s.J22 * s.d_longitude = s.dN
      ∧ ∀ x y : F, s.J11 * x + s.J12 * y = s.dE → s.J21 * x + s.J22 * y = s.dN →
          x = s.d_latitude ∧ y = s.d_longitude := by
  have e1 : s.D = s.J11 * s.J22 - s.J12 * s.J21 := by rw [hs]; rfl
  have e2 : s.dE = map_coord.x - s.E_test := by rw [hs]; rfl
  have e3 : s.dN = (-1) * map_coord.y - s.N_test := by rw [hs]; rfl
  have e4 : s.d_latitude = (s.J22 * s.dE - s.J12 * s.dN) / s.D := by rw [hs]; rfl
  have e5 : s.d_longitude = (-s.J21 * s.dE + s.J11 * s.dN) / s.D := by rw [hs]; rfl
  refine ⟨e1, e2, e3, e4, e5, ?_, ?_, ?_⟩
  · rw [e4, e5]
    field_simp
    rw [e1]
    ring
  · rw [e4, e5]
    field_simp
    rw [e1]
    ring
  · intro x y hx hy
    rw [e4, e5]
    constructor
    · rw [eq_div_iff hD, ← hx, ← hy, e1]
      ring
    · rw [eq_div_iff hD, ← hx, ← hy, e1]
      ring

end Cramer

/-- C20 at the first pass for the map origin of the default ellipsoid, where the
determinant is not zero: the corrections solve the linear system. -/
theorem newton_step_cramer_witness :
    (passLocals (wgs84 : GPSProjectionParameters ℝ).update (⟨0, 0⟩ : MapCoordF ℝ) 0).D ≠ 0
      ∧ (passLocals (wgs84 : GPSProjectionParameters ℝ).update (⟨0, 0⟩ : MapCoordF ℝ) 0).J11
          * (passLocals (wgs84 : GPSProjectionParameters ℝ).update
              (⟨0, 0⟩ : MapCoordF ℝ) 0).d_latitude
        + (passLocals (wgs84 : GPSProjectionParameters ℝ).update (⟨0, 0⟩ : MapCoordF ℝ) 0).J12
          * (passLocals (wgs84 : GPSProjectionParameters ℝ).update
              (⟨0, 0⟩ : MapCoordF ℝ) 0).d_longitude
        = (passLocals (wgs84 : GPSProjectionParameters ℝ).update
            (⟨0, 0⟩ : MapCoordF ℝ) 0).dE := by
  have hD : (passLocals (wgs84 : GPSProjectionParameters ℝ).update
      (⟨0, 0⟩ : MapCoordF ℝ) 0).D ≠ 0 :=
    origin_D_ne_zero (wgs84 : GPSProjectionParameters ℝ)
      (by norm_num [wgs84, GPSProjectionParameters.init])
      (by norm_num [wgs84, GPSProjectionParameters.init])
      (by simp [wgs84, GPSProjectionParameters.init])
  exact ⟨hD, (newton_step_cramer (wgs84 : GPSProjectionParameters ℝ).update
    (⟨0, 0⟩ : MapCoordF ℝ) 0 _ rfl hD).2.2.2.2.2.1⟩

/-! ## Georeferencing dialogs -/

section Dialogs

variable {F : Type} [LinearOrderedField F] [CMath F]

omit [LinearOrderedField F] [CMath F] in
/-- Validity of a georeferencing in terms of its state. -/
theorem isValid_iff (g : Georeferencing F) :
    g.isValid = true ↔ (g.state = GeorefState.Local ∨ g.state = GeorefState.Geospatial) := by
  unfold Georeferencing.isValid
  cases g.state <;> simp

omit [LinearOrderedField F] [CMath F] in
/-- What `updateWidgets` does to the OK button: `isValid` is true exactly in `Local`
and `Geospatial` state, and in each of the three georeferencing dialogs
`updateWidgets` leaves the working copy as it is and enables the OK button only if
the working copy is not in `BrokenGeospatial` state. -/
theorem ok_button_requires_valid (dg : GeoreferencingDialog F) (da : MapAlignmentDialog F)
    (dr : ReferenceSystemDialog F) :
    (∀ g : Georeferencing F,
        g.isValid = true ↔ (g.state = GeorefState.Local ∨ g.state = GeorefState.Geospatial))
      ∧ (dg.updateWidgets.georef = dg.georef
          ∧ (dg.updateWidgets.ok_button_enabled = true →
              dg.georef.state ≠ GeorefState.BrokenGeospatial))
      ∧ (da.updateWidgets.georef = da.georef
          ∧ (da.updateWidgets.ok_button_enabled = true →
              da.georef.state ≠ GeorefState.BrokenGeospatial))
      ∧ (dr.updateWidgets.georef = dr.georef
          ∧ (dr.updateWidgets.ok_button_enabled = true →
              dr.georef.state ≠ GeorefState.BrokenGeospatial)) := by
  refine ⟨isValid_iff, ⟨rfl, fun h => ?_⟩, ⟨rfl, fun h => ?_⟩, ⟨rfl, fun h => ?_⟩⟩
  · exact of_decide_eq_true h
  · have hv : da.georef.isValid = true := h
    rcases (isValid_iff da.georef).mp hv with hs | hs <;> rw [hs] <;> decide
  · have hv : (dr.georef.isValid && dr.ref_points_consistent) = true := h
    have hv' : dr.georef.isValid = true := (Bool.and_eq_true_iff.mp hv).1
    rcases (isValid_iff dr.georef).mp hv' with hs | hs <;> rw [hs] <;> decide

end Dialogs

/-- C17, the code at work: a `GeoreferencingDialog` constructed with
`allow_no_georeferencing = false` for a map in `Local` state has the OK button
enabled, and `updateWidgets` gives the OK button the same state whatever the value
of `allow_no_georeferencing` is. -/
theorem ok_enabled_while_local_disallowed :
    (GeoreferencingDialog.construct true (Georeferencing.localDefault 15000 : Georeferencing ℝ)
        none false).allow_no_georeferencing = false
      ∧ (GeoreferencingDialog.construct true
          (Georeferencing.localDefault 15000 : Georeferencing ℝ) none false).georef.state
        = GeorefState.Local
      ∧ (GeoreferencingDialog.construct true
          (Georeferencing.localDefault 15000 : Georeferencing ℝ) none false).ok_button_enabled
        = true
      ∧ ∀ d : GeoreferencingDialog ℝ,
          (GeoreferencingDialog.updateWidgets
              { d with allow_no_georeferencing := false }).ok_button_enabled
            = (GeoreferencingDialog.updateWidgets
              { d with allow_no_georeferencing := true }).ok_button_enabled :=
  ⟨rfl, rfl, rfl, fun _ => rfl⟩

/-- C18, the code at work: when an override `initial` was passed to the constructor,
`reset` of each of the three dialogs sets the working copy to that override, whatever
was edited before; for a map with scale 1:15000 and an override with scale 1:10000
the working copy after `reset` is not the georeferencing of the map. -/
theorem reset_restores_override :
    (∀ (controller allow : Bool) (m given changed : Georeferencing ℝ),
        ((GeoreferencingDialog.construct controller m (some given) allow).edited
          changed).reset.georef = given)
      ∧ (∀ d : MapAlignmentDialog ℝ, d.reset.georef = d.initial_georef)
      ∧ (∀ d : ReferenceSystemDialog ℝ, d.reset.georef = d.initial_georef)
      ∧ ((GeoreferencingDialog.construct true
            (Georeferencing.localDefault 15000 : Georeferencing ℝ)
            (some (Georeferencing.localDefault 10000)) true).reset.georef
          ≠ (Georeferencing.localDefault 15000 : Georeferencing ℝ)) := by
  refine ⟨fun controller allow m given changed => ?_, fun _ => rfl, fun _ => rfl, ?_⟩
  · cases hs : given.state <;>
      simp [GeoreferencingDialog.construct, GeoreferencingDialog.georefStateChanged,
        GeoreferencingDialog.projectionChanged, GeoreferencingDialog.updateWidgets,
        GeoreferencingDialog.updateDeclinationButton, GeoreferencingDialog.edited,
        GeoreferencingDialog.reset, GeoDialogCommon.construct, Georeferencing.getState, hs]
  · intro h
    have h2 : (GeoreferencingDialog.construct true
        (Georeferencing.localDefault 15000 : Georeferencing ℝ)
        (some (Georeferencing.localDefault 10000)) true).reset.georef.scale_denominator
        = (Georeferencing.localDefault 15000 : Georeferencing ℝ).scale_denominator := by
      rw [h]
    have h3 : (10000 : Nat) = 15000 := h2
    exact absurd h3 (by decide)

/-- Three dialogs for a map in `Local` state: the OK buttons are enabled after
`updateWidgets` and the working copies are not broken. -/
theorem ok_button_requires_valid_witness :
    (GeoreferencingDialog.construct true (Georeferencing.localDefault 15000 : Georeferencing ℝ)
        none true).updateWidgets.ok_button_enabled = true
      ∧ (GeoreferencingDialog.construct true
          (Georeferencing.localDefault 15000 : Georeferencing ℝ) none true).georef.state
        ≠ GeorefState.BrokenGeospatial
      ∧ (MapAlignmentDialog.updateWidgets
          { toGeoDialogCommon :=
              GeoDialogCommon.construct true
                (Georeferencing.localDefault 15000 : Georeferencing ℝ) none
            declination_query_in_progress := false
            scale_edit := 15000
            ref_point_button_enabled := true
            declination_edit_enabled := true
            declination_button_enabled := true
            aux_factor_edit_enabled := true
            adjust_symbols_check_enabled := false
            reset_button_enabled := false
            ok_button_enabled := false }).ok_button_enabled = true
      ∧ (ReferenceSystemDialog.updateWidgets
          { toGeoDialogCommon :=
              GeoDialogCommon.construct true
                (Georeferencing.localDefault 15000 : Georeferencing ℝ) none
            is_geo := false
            ref_points_consistent := true
            CRS_edited := false
            map_x_edit_enabled := true
            ref_point_button_enabled := true
            reset_button_enabled := false
            ok_button_enabled := false }).ok_button_enabled = true := by
  have h := ok_button_requires_valid
    (GeoreferencingDialog.construct true (Georeferencing.localDefault 15000 : Georeferencing ℝ)
      none true)
    { toGeoDialogCommon :=
        GeoDialogCommon.construct true (Georeferencing.localDefault 15000 : Georeferencing ℝ)
          none
      declination_query_in_progress := false
      scale_edit := 15000
      ref_point_button_enabled := true
      declination_edit_enabled := true
      declination_button_enabled := true
      aux_factor_edit_enabled := true
      adjust_symbols_check_enabled := false
      reset_button_enabled := false
      ok_button_enabled := false }
    { toGeoDialogCommon :=
        GeoDialogCommon.construct true (Georeferencing.localDefault 15000 : Georeferencing ℝ)
          none
      is_geo := false
      ref_points_consistent := true
      CRS_edited := false
      map_x_edit_enabled := true
      ref_point_button_enabled := true
      reset_button_enabled := false
      ok_button_enabled := false }
  exact ⟨rfl, h.2.1.2 rfl, rfl, rfl⟩

/-- The transformation `map_to_projected` that the constructor sets up. -/
theorem construct_map_to_projected (g : Georeferencing ℝ) :
    (ShiftMapDialog.construct g).map_to_projected
      = { m11 := Real.cos (g.grivation * Real.pi / 180)
                  * (g.combined_scale_factor * (g.scale_denominator : ℝ) / 1000)
          m12 := -Real.sin (g.grivation * Real.pi / 180)
                  * (g.combined_scale_factor * (g.scale_denominator : ℝ) / 1000)
          m21 := Real.sin (g.grivation * Real.pi / 180)
                  * -(g.combined_scale_factor * (g.scale_denominator : ℝ) / 1000)
          m22 := Real.cos (g.grivation * Real.pi / 180)
                  * -(g.combined_scale_factor * (g.scale_denominator : ℝ) / 1000)
          dx := 0
          dy := 0 } := by
  have hneg : -(g.grivation * Real.pi) / 180 = -(g.grivation * Real.pi / 180) := by ring
  have h1000 : (1000.0 : ℝ) = 1000 := by norm_num
  cases hs : decide (g.getState ≠ GeorefState.Local) <;>
    simp [ShiftMapDialog.construct, ShiftMapDialog.updateWidgets, QTransform.rotate,
      QTransform.scale, QTransform.identity, QTransform.map, Georeferencing.getGrivation,
      Georeferencing.getCombinedScaleFactor, Georeferencing.getScaleDenominator, hs,
      h1000] <;>
    rw [hneg, Real.cos_neg, Real.sin_neg] <;>
    exact ⟨Or.inl rfl, by ring, Or.inl rfl⟩

/-- The inverse of a transformation with non-zero determinant undoes it. -/
theorem inverted_map_map (t : QTransform ℝ) (p : ℝ × ℝ) (h : t.determinant ≠ 0) :
    t.inverted.map (t.map p) = p := by
  have h' : t.m11 * t.m22 - t.m12 * t.m21 ≠ 0 := h
  unfold QTransform.inverted
  rw [if_neg h]
  simp only [QTransform.map, QTransform.determinant]
  apply Prod.ext
  · show t.m22 / (t.m11 * t.m22 - t.m12 * t.m21) * (t.m11 * p.1 + t.m21 * p.2 + t.dx)
        + -t.m21 / (t.m11 * t.m22 - t.m12 * t.m21) * (t.m12 * p.1 + t.m22 * p.2 + t.dy)
        + (t.m21 * t.dy - t.m22 * t.dx) / (t.m11 * t.m22 - t.m12 * t.m21) = p.1
    field_simp
    ring
  · show -t.m12 / (t.m11 * t.m22 - t.m12 * t.m21) * (t.m11 * p.1 + t.m21 * p.2 + t.dx)
        + t.m11 / (t.m11 * t.m22 - t.m12 * t.m21) * (t.m12 * p.1 + t.m22 * p.2 + t.dy)
        + (t.m12 * t.dx - t.m11 * t.dy) / (t.m11 * t.m22 - t.m12 * t.m21) = p.2
    field_simp
    ring

/-- The determinant of `map_to_projected` is minus the square of the scale. -/
theorem construct_determinant (g : Georeferencing ℝ) :
    (ShiftMapDialog.construct g).map_to_projected.determinant
      = -(g.combined_scale_factor * (g.scale_denominator : ℝ) / 1000) ^ 2 := by
  rw [construct_map_to_projected]
  simp only [QTransform.determinant]
  have h := Real.sin_sq_add_cos_sq (g.grivation * Real.pi / 180)
  linear_combination (-(g.combined_scale_factor * (g.scale_denominator : ℝ) / 1000) ^ 2) * h

/-- The constructor sets `projected_to_map` to the inverse of `map_to_projected`. -/
theorem construct_projected_to_map (g : Georeferencing ℝ) :
    (ShiftMapDialog.construct g).projected_to_map
      = (ShiftMapDialog.construct g).map_to_projected.inverted := by
  cases hs : decide (g.getState ≠ GeorefState.Local) <;>
    simp [ShiftMapDialog.construct, ShiftMapDialog.updateWidgets, hs]

/-- C19: after the constructor, a shift of `r` mm rightward and `u` mm upward entered
in the dialog is shown as easting `s*(r*cos g + u*sin g)` and northing
`s*(u*cos g - r*sin g)`, with `g` the grivation in degrees and
`s = combined_scale_factor * scale_denominator / 1000`; so its squared length is `s^2`
times the squared map length, for `s >= 0` its length is `s` times the map length,
with grivation 0 rightward maps to eastward and upward to northward, and for
`s != 0` `projected_to_map` undoes `map_to_projected`. -/
theorem shift_vector_conversion (g : Georeferencing ℝ) (r u s θ : ℝ) (d : ShiftMapDialog ℝ)
    (hd : d = ((ShiftMapDialog.construct g).enterRightward r).enterUpward u)
    (hs : s = g.combined_scale_factor * (g.scale_denominator : ℝ) / 1000)
    (hθ : θ = g.grivation * Real.pi / 180) :
    d.easting_adjust_edit = s * (r * Real.cos θ + u * Real.sin θ)
      ∧ d.northing_adjust_edit = s * (u * Real.cos θ - r * Real.sin θ)
      ∧ d.easting_adjust_edit ^ 2 + d.northing_adjust_edit ^ 2 = s ^ 2 * (r ^ 2 + u ^ 2)
      ∧ (0 ≤ s → Real.sqrt (d.easting_adjust_edit ^ 2 + d.northing_adjust_edit ^ 2)
            = s * Real.sqrt (r ^ 2 + u ^ 2))
      ∧ (g.grivation = 0 → d.easting_adjust_edit = s * r ∧ d.northing_adjust_edit = s * u)
      ∧ (s ≠ 0 → ∀ p : ℝ × ℝ, d.projected_to_map.map (d.map_to_projected.map p) = p) := by
  have hm : d.map_to_projected = (ShiftMapDialog.construct g).map_to_projected := by
    rw [hd]; rfl
  have hp : d.projected_to_map = (ShiftMapDialog.construct g).projected_to_map := by
    rw [hd]; rfl
  have he : d.easting_adjust_edit
      = ((ShiftMapDialog.construct g).map_to_projected.map (r, -1 * u)).1 := by
    rw [hd]; rfl
  have hn : d.northing_adjust_edit
      = ((ShiftMapDialog.construct g).map_to_projected.map (r, -1 * u)).2 := by
    rw [hd]; rfl
  have he' : d.easting_adjust_edit = s * (r * Real.cos θ + u * Real.sin θ) := by
    rw [he, construct_map_to_projected, hs, hθ]
    simp only [QTransform.map]
    ring
  have hn' : d.northing_adjust_edit = s * (u * Real.cos θ - r * Real.sin θ) := by
    rw [hn, construct_map_to_projected, hs, hθ]
    simp only [QTransform.map]
    ring
  have hsq : d.easting_adjust_edit ^ 2 + d.northing_adjust_edit ^ 2
      = s ^ 2 * (r ^ 2 + u ^ 2) := by
    rw [he', hn']
    have h := Real.sin_sq_add_cos_sq θ
    linear_combination (s ^ 2 * (r ^ 2 + u ^ 2)) * h
  refine ⟨he', hn', hsq, fun h0 => ?_, fun hg => ?_, fun hne p => ?_⟩
  · rw [hsq, Real.sqrt_mul (sq_nonneg s), Real.sqrt_sq h0]
  · have hθ0 : θ = 0 := by rw [hθ, hg]; simp
    rw [he', hn', hθ0, Real.cos_zero, Real.sin_zero]
    constructor <;> ring
  · rw [hm, hp, construct_projected_to_map]
    apply inverted_map_map
    rw [construct_determinant, ← hs]
    exact neg_ne_zero.mpr (pow_ne_zero 2 hne)

/-- C19 for a map at scale 1:15000 with combined scale factor 1 and grivation 0: a
shift of 1 mm rightward and 2 mm upward is shown as 15 m eastward and 30 m
northward. -/
theorem shift_vector_conversion_witness :
    (0 : ℝ) ≤ 15 ∧ (15 : ℝ) ≠ 0
      ∧ (((ShiftMapDialog.construct (Georeferencing.localDefault 15000 : Georeferencing ℝ)
          ).enterRightward 1).enterUpward 2).easting_adjust_edit = 15
      ∧ (((ShiftMapDialog.construct (Georeferencing.localDefault 15000 : Georeferencing ℝ)
          ).enterRightward 1).enterUpward 2).northing_adjust_edit = 30 := by
  have h := shift_vector_conversion (Georeferencing.localDefault 15000 : Georeferencing ℝ)
    1 2 15 0 _ rfl (by norm_num [Georeferencing.localDefault])
    (by norm_num [Georeferencing.localDefault])
  obtain ⟨h1, h2⟩ := h.2.2.2.2.1 rfl
  refine ⟨by norm_num, by norm_num, ?_, ?_⟩
  · rw [h1]; norm_num
  · rw [h2]; norm_num

/-! ## The Jacobian of the forward projection -/

/-- The power `W^1.5` of a positive number is `W*sqrt(W)`. -/
theorem rpow_three_halves (W : ℝ) (hW : 0 < W) : W ^ (1.5 : ℝ) = W * Real.sqrt W := by
  have h : (1.5 : ℝ) = 1 + 1 / 2 := by norm_num
  rw [h, Real.rpow_add hW, Real.rpow_one, Real.sqrt_eq_rpow]

/-- The derivative of the radicand `1 - e_sq*sin(t)^2`. -/
theorem hasDerivAt_radicand (e l : ℝ) :
    HasDerivAt (fun t => 1 - e * Real.sin t * Real.sin t)
      (-(2 * e * Real.sin l * Real.cos l)) l := by
  have h := (((Real.hasDerivAt_sin l).const_mul e).mul (Real.hasDerivAt_sin l)).const_sub 1
  convert h using 1
  ring

/-- The derivative of the radius of curvature `v = a/sqrt(1 - e_sq*sin(t)^2)`. -/
theorem hasDerivAt_curvature (a e l : ℝ) (hW : 0 < 1 - e * Real.sin l * Real.sin l) :
    HasDerivAt (fun t => a / Real.sqrt (1 - e * Real.sin t * Real.sin t))
      (a * e * Real.sin l * Real.cos l
        / ((1 - e * Real.sin l * Real.sin l) * Real.sqrt (1 - e * Real.sin l * Real.sin l))) l := by
  have hr := Real.sqrt_pos.mpr hW
  have hsq := Real.sq_sqrt hW.le
  have h := (hasDerivAt_const l a).div ((hasDerivAt_radicand e l).sqrt hW.ne') hr.ne'
  convert h using 1
  rw [hsq]
  field_simp
  ring


/-- The product rule for `v*cos` gives `-p*sin`, for any values of the locals that
satisfy the relations between them. -/
theorem v_cos_algebra (a e s c W r : ℝ) (hr : r ≠ 0) (hW0 : W ≠ 0) (hW : W = 1 - e * s * s)
    (hcs : s ^ 2 + c ^ 2 = 1) :
    a * e * s * c / (W * r) * c + a / r * -s = -(a * (1 - e) / (W * r)) * s := by
  have hnum : a * e * s * c ^ 2 - a * s * W = -(a * (1 - e)) * s := by
    rw [hW]
    linear_combination (a * e * s) * hcs
  calc a * e * s * c / (W * r) * c + a / r * -s
      = (a * e * s * c ^ 2 - a * s * W) / (W * r) := by
        field_simp
        ring
    _ = -(a * (1 - e) / (W * r)) * s := by
        rw [hnum]
        ring

/-- The product rule for `v*sin` gives `a/W^1.5*cos`, for any values of the locals
that satisfy the relations between them. -/
theorem v_sin_algebra (a e s c W r : ℝ) (hr : r ≠ 0) (hW0 : W ≠ 0) (hW : W = 1 - e * s * s) :
    a * e * s * c / (W * r) * s + a / r * c = a / (W * r) * c := by
  have hnum : a * e * s ^ 2 * c + a * c * W = a * c := by
    rw [hW]
    ring
  calc a * e * s * c / (W * r) * s + a / r * c
      = (a * e * s ^ 2 * c + a * c * W) / (W * r) := by
        field_simp
        ring
    _ = a / (W * r) * c := by
        rw [hnum]
        ring

/-- The derivative of `v*cos(t)` is `-p*sin(t)`, `p` being the meridian radius of
curvature. -/
theorem hasDerivAt_v_cos (a e l : ℝ) (hW : 0 < 1 - e * Real.sin l * Real.sin l) :
    HasDerivAt (fun t => a / Real.sqrt (1 - e * Real.sin t * Real.sin t) * Real.cos t)
      (-(a * (1 - e) / (1 - e * Real.sin l * Real.sin l) ^ (1.5 : ℝ)) * Real.sin l) l := by
  have hr := Real.sqrt_pos.mpr hW
  have h := (hasDerivAt_curvature a e l hW).mul (Real.hasDerivAt_cos l)
  convert h using 1
  rw [rpow_three_halves _ hW]
  exact (v_cos_algebra a e (Real.sin l) (Real.cos l) _ _ hr.ne' hW.ne' rfl
    (Real.sin_sq_add_cos_sq l)).symm

/-- The derivative of `v*sin(t)` is `a/(1 - e_sq*sin(t)^2)^1.5*cos(t)`. -/
theorem hasDerivAt_v_sin (a e l : ℝ) (hW : 0 < 1 - e * Real.sin l * Real.sin l) :
    HasDerivAt (fun t => a / Real.sqrt (1 - e * Real.sin t * Real.sin t) * Real.sin t)
      (a / (1 - e * Real.sin l * Real.sin l) ^ (1.5 : ℝ) * Real.cos l) l := by
  have hr := Real.sqrt_pos.mpr hW
  have h := (hasDerivAt_curvature a e l hW).mul (Real.hasDerivAt_sin l)
  convert h using 1
  rw [rpow_three_halves _ hW]
  exact (v_sin_algebra a e (Real.sin l) (Real.cos l) _ _ hr.ne' hW.ne' rfl).symm

/-- The radicand of the radius of curvature is positive when `e_sq < 1`. -/
theorem radicand_pos_of_lt_one (e x : ℝ) (he : e < 1) : 0 < 1 - e * Real.sin x * Real.sin x := by
  have hs : Real.sin x ^ 2 ≤ 1 := Real.sin_sq_le_one x
  have h0 : 0 ≤ Real.sin x ^ 2 := sq_nonneg _
  rcases le_or_lt e 0 with h | h
  · nlinarith [mul_nonneg (neg_nonneg.mpr h) h0]
  · nlinarith [mul_nonneg h.le (sub_nonneg.mpr hs)]

/-- The derivative of `E_test` with respect to the latitude is `J11`. -/
theorem hasDerivAt_E_test_latitude (params : GPSProjectionParameters ℝ)
    (start_E start_N lat lon : ℝ) (he1 : params.e_sq < 1) :
    HasDerivAt (fun l => (newtonLocals params start_E start_N l lon).E_test)
      (newtonLocals params start_E start_N lat lon).J11 lat := by
  have hW := radicand_pos_of_lt_one params.e_sq lat he1
  have h := (hasDerivAt_v_cos params.a params.e_sq lat hW).mul_const
    (Real.sin (lon - params.center_longitude))
  simp only [newtonLocals, cmath_sin_real, cmath_cos_real, cmath_sqrt_real, cmath_pow_real]
  convert h using 1

/-- The derivative of `E_test` with respect to the longitude is `J12`. -/
theorem hasDerivAt_E_test_longitude (params : GPSProjectionParameters ℝ)
    (start_E start_N lat lon : ℝ) :
    HasDerivAt (fun m => (newtonLocals params start_E start_N lat m).E_test)
      (newtonLocals params start_E start_N lat lon).J12 lon := by
  have h := (((hasDerivAt_id lon).sub_const params.center_longitude).sin).const_mul
    (params.a / Real.sqrt (1 - params.e_sq * Real.sin lat * Real.sin lat) * Real.cos lat)
  simp only [newtonLocals, cmath_sin_real, cmath_cos_real, cmath_sqrt_real, cmath_pow_real]
  convert h using 1
  simp only [id_eq, mul_one]

/-- The derivative of `N_test` with respect to the latitude is `J21`. -/
theorem hasDerivAt_N_test_latitude (params : GPSProjectionParameters ℝ)
    (start_E start_N lat lon : ℝ) (he1 : params.e_sq < 1) :
    HasDerivAt (fun l => (newtonLocals params start_E start_N l lon).N_test)
      (newtonLocals params start_E start_N lat lon).J21 lat := by
  have hW := radicand_pos_of_lt_one params.e_sq lat he1
  have hA := hasDerivAt_v_sin params.a params.e_sq lat hW
  have hB := hasDerivAt_v_cos params.a params.e_sq lat hW
  have h := (((hA.mul_const params.cos_center_latitude).sub
      ((hB.mul_const params.sin_center_latitude).mul_const
        (Real.cos (lon - params.center_longitude)))).add
    ((((hA.const_sub (params.v0 * params.sin_center_latitude)).const_mul params.e_sq).mul_const
      params.cos_center_latitude)))
  simp only [newtonLocals, cmath_sin_real, cmath_cos_real, cmath_sqrt_real, cmath_pow_real]
  convert h using 1
  · funext l
    ring
  · ring

/-- The derivative of `N_test` with respect to the longitude is `J22`. -/
theorem hasDerivAt_N_test_longitude (params : GPSProjectionParameters ℝ)
    (start_E start_N lat lon : ℝ) :
    HasDerivAt (fun m => (newtonLocals params start_E start_N lat m).N_test)
      (newtonLocals params start_E start_N lat lon).J22 lon := by
  have hc := (((hasDerivAt_id lon).sub_const params.center_longitude).cos).const_mul
    (Real.cos lat * params.sin_center_latitude)
  have h := (((hc.const_sub (Real.sin lat * params.cos_center_latitude)).const_mul
    (params.a / Real.sqrt (1 - params.e_sq * Real.sin lat * Real.sin lat))).add_const
    (params.e_sq * (params.v0 * params.sin_center_latitude
      - params.a / Real.sqrt (1 - params.e_sq * Real.sin lat * Real.sin lat) * Real.sin lat)
      * params.cos_center_latitude))
  simp only [newtonLocals, cmath_sin_real, cmath_cos_real, cmath_sqrt_real, cmath_pow_real]
  convert h using 1
  simp only [id_eq]
  ring

/-- C21: for parameters with `e_sq < 1` (in particular `0 <= e_sq < 1`), whatever the
other constants are, the Jacobian of the inverse transform is the Jacobian of the
forward projection.  `E_test` and `N_test` are the `x` coordinate and the negated `y`
coordinate that `toMapCoordF` returns; as functions of the latitude and of the
longitude they have the derivatives `J11 = dE/dlat`, `J12 = dE/dlon`, `J21 = dN/dlat`,
`J22 = dN/dlon`, where `J11 = -p*sin(lat)*sin(dlon)`, `J12 = v*cos(lat)*cos(dlon)`,
`J21 = p*(cos(lat)*cos_center_latitude + sin(lat)*sin_center_latitude*cos(dlon))`,
`J22 = v*sin_center_latitude*cos(lat)*sin(dlon)`, `dlon = lon - center_longitude`,
`p = a*(1-e_sq)/(1-e_sq*sin(lat)^2)^1.5` and `v = a/sqrt(1-e_sq*sin(lat)^2)`; after
`update` the two constants are the cosine and sine of the tangent latitude. -/
theorem jacobian_is_derivative (params : GPSProjectionParameters ℝ)
    (start_E start_N lat lon : ℝ) (he1 : params.e_sq < 1) :
    (∀ l m : ℝ,
        (newtonLocals params start_E start_N l m).E_test
            = ((LatLon.mk l m).toMapCoordF params).x
          ∧ (newtonLocals params start_E start_N l m).N_test
            = -((LatLon.mk l m).toMapCoordF params).y)
      ∧ HasDerivAt (fun l => (newtonLocals params start_E start_N l lon).E_test)
          (newtonLocals params start_E start_N lat lon).J11 lat
      ∧ HasDerivAt (fun m => (newtonLocals params start_E start_N lat m).E_test)
          (newtonLocals params start_E start_N lat lon).J12 lon
      ∧ HasDerivAt (fun l => (newtonLocals params start_E start_N l lon).N_test)
          (newtonLocals params start_E start_N lat lon).J21 lat
      ∧ HasDerivAt (fun m => (newtonLocals params start_E start_N lat m).N_test)
          (newtonLocals params start_E start_N lat lon).J22 lon
      ∧ (newtonLocals params start_E start_N lat lon).J11
          = -(newtonLocals params start_E start_N lat lon).p * Real.sin lat
              * Real.sin (lon - params.center_longitude)
      ∧ (newtonLocals params start_E start_N lat lon).J12
          = (newtonLocals params start_E start_N lat lon).v * Real.cos lat
              * Real.cos (lon - params.center_longitude)
      ∧ (newtonLocals params start_E start_N lat lon).J21
          = (newtonLocals params start_E start_N lat lon).p
              * (Real.cos lat * params.cos_center_latitude
                 + Real.sin lat * params.sin_center_latitude
                     * Real.cos (lon - params.center_longitude))
      ∧ (newtonLocals params start_E start_N lat lon).J22
          = (newtonLocals params start_E start_N lat lon).v * params.sin_center_latitude
              * Real.cos lat * Real.sin (lon - params.center_longitude)
      ∧ (newtonLocals params start_E start_N lat lon).p
          = params.a * (1 - params.e_sq) / (1 - params.e_sq * Real.sin lat ^ 2) ^ (1.5 : ℝ)
      ∧ (newtonLocals params start_E start_N lat lon).v
          = params.a / Real.sqrt (1 - params.e_sq * Real.sin lat ^ 2)
      ∧ (∀ p0 : GPSProjectionParameters ℝ,
          p0.update.cos_center_latitude = Real.cos p0.center_latitude
            ∧ p0.update.sin_center_latitude = Real.sin p0.center_latitude) := by
  have hsq : params.e_sq * Real.sin lat ^ 2 = params.e_sq * Real.sin lat * Real.sin lat := by
    ring
  refine ⟨fun l m => ⟨rfl, ?_⟩,
    hasDerivAt_E_test_latitude params start_E start_N lat lon he1,
    hasDerivAt_E_test_longitude params start_E start_N lat lon,
    hasDerivAt_N_test_latitude params start_E start_N lat lon he1,
    hasDerivAt_N_test_longitude params start_E start_N lat lon,
    rfl, rfl, rfl, rfl, ?_, ?_, fun p0 => ⟨rfl, rfl⟩⟩
  · simp only [newtonLocals, LatLon.toMapCoordF, neg_mul, one_mul, neg_neg]
  · rw [hsq]; rfl
  · rw [hsq]; rfl

/-- C21 at the default ellipsoid: `e_sq < 1` holds there, and at the tangent point
`(0, 0)` the four entries are the derivatives of `E_test` and `N_test`. -/
theorem jacobian_is_derivative_witness :
    (wgs84 : GPSProjectionParameters ℝ).update.e_sq < 1
      ∧ HasDerivAt
          (fun l => (newtonLocals (wgs84 : GPSProjectionParameters ℝ).update 0 0 l 0).E_test)
          (newtonLocals (wgs84 : GPSProjectionParameters ℝ).update 0 0 0 0).J11 0
      ∧ HasDerivAt
          (fun l => (newtonLocals (wgs84 : GPSProjectionParameters ℝ).update 0 0 l 0).N_test)
          (newtonLocals (wgs84 : GPSProjectionParameters ℝ).update 0 0 0 0).J21 0 := by
  have he : (wgs84 : GPSProjectionParameters ℝ).update.e_sq < 1 := by
    norm_num [GPSProjectionParameters.update, wgs84, GPSProjectionParameters.init]
  have h := jacobian_is_derivative (wgs84 : GPSProjectionParameters ℝ).update 0 0 0 0 he
  exact ⟨he, h.2.1, h.2.2.2.1⟩

/-! ## The determinant of the Newton step -/

/-- The determinant `J11*J22 - J12*J21` in closed form, for any values of the locals
with `sin_dlong^2 + cos_dlong^2 = 1`. -/
theorem determinant_algebra (p v s c sc cc sd cd : ℝ) (h : sd ^ 2 + cd ^ 2 = 1) :
    (-p * s * sd) * (v * sc * c * sd) - (v * c * cd) * (p * (c * cc + s * sc * cd))
      = -p * v * c * (s * sc + c * cc * cd) := by
  linear_combination (-(p * v * c * s * sc)) * h

/-- The closed form of the determinant `D` at any iterate. -/
theorem newtonLocals_D (params : GPSProjectionParameters ℝ) (start_E start_N lat lon : ℝ) :
    (newtonLocals params start_E start_N lat lon).D
      = -(newtonLocals params start_E start_N lat lon).p
          * (newtonLocals params start_E start_N lat lon).v * Real.cos lat
          * (Real.sin lat * params.sin_center_latitude
             + Real.cos lat * params.cos_center_latitude
                 * Real.cos (lon - params.center_longitude)) :=
  determinant_algebra _ _ _ _ _ _ _ _ (Real.sin_sq_add_cos_sq (lon - params.center_longitude))

/-- For `a >= b > 0` the radius of curvature `v` is positive at every iterate. -/
theorem newtonLocals_v_pos (p0 : GPSProjectionParameters ℝ) (hab : p0.b ≤ p0.a) (hb : 0 < p0.b)
    (start_E start_N lat lon : ℝ) :
    0 < (newtonLocals p0.update start_E start_N lat lon).v :=
  div_pos (lt_of_lt_of_le hb hab) (Real.sqrt_pos.mpr (radicand_pos p0 hab hb lat))

/-- For `a >= b > 0` the meridian radius of curvature `p` is positive at every iterate. -/
theorem newtonLocals_p_pos (p0 : GPSProjectionParameters ℝ) (hab : p0.b ≤ p0.a) (hb : 0 < p0.b)
    (start_E start_N lat lon : ℝ) :
    0 < (newtonLocals p0.update start_E start_N lat lon).p := by
  have ha : 0 < p0.a := lt_of_lt_of_le hb hab
  have he : 0 < 1 - p0.update.e_sq := by
    rw [e_sq_eq p0 ha]
    have := ratio_pos p0 hab hb
    linarith
  exact div_pos (mul_pos ha he) (Real.rpow_pos_of_pos (radicand_pos p0 hab hb lat) 1.5)

/-- For `a >= b > 0` the determinant vanishes exactly when `cos(lat) = 0` or the
cosine of the arc between the iterate and the tangent point is zero. -/
theorem newtonLocals_D_eq_zero_iff (p0 : GPSProjectionParameters ℝ) (hab : p0.b ≤ p0.a)
    (hb : 0 < p0.b) (start_E start_N lat lon : ℝ) :
    (newtonLocals p0.update start_E start_N lat lon).D = 0
      ↔ Real.cos lat = 0
        ∨ Real.sin lat * Real.sin p0.center_latitude
            + Real.cos lat * Real.cos p0.center_latitude
                * Real.cos (lon - p0.center_longitude) = 0 := by
  have hv := newtonLocals_v_pos p0 hab hb start_E start_N lat lon
  have hp := newtonLocals_p_pos p0 hab hb start_E start_N lat lon
  rw [newtonLocals_D]
  simp only [update_sin, update_cos, update_center_longitude, cmath_sin_real, cmath_cos_real,
    mul_eq_zero, neg_eq_zero, hv.ne', hp.ne', false_or]

/-- The determinant of the first pass: `-p*v0*cos(center_latitude)`. -/
theorem initial_D (p0 : GPSProjectionParameters ℝ) (map_coord : MapCoordF ℝ) :
    (passLocals p0.update map_coord 0).D
      = -(passLocals p0.update map_coord 0).p * p0.update.v0 * Real.cos p0.center_latitude := by
  have hv : (passLocals p0.update map_coord 0).v = p0.update.v0 := rfl
  have hcs := Real.sin_sq_add_cos_sq p0.center_latitude
  have h := newtonLocals_D p0.update map_coord.getX ((-1) * map_coord.getY)
    p0.center_latitude p0.center_longitude
  have hD : (passLocals p0.update map_coord 0).D
      = (newtonLocals p0.update map_coord.getX ((-1) * map_coord.getY)
          p0.center_latitude p0.center_longitude).D := rfl
  have hp : (passLocals p0.update map_coord 0).p
      = (newtonLocals p0.update map_coord.getX ((-1) * map_coord.getY)
          p0.center_latitude p0.center_longitude).p := rfl
  have hv2 : (newtonLocals p0.update map_coord.getX ((-1) * map_coord.getY)
          p0.center_latitude p0.center_longitude).v = p0.update.v0 := rfl
  rw [hD, hp, h, hv2]
  simp only [update_sin, update_cos, update_center_longitude, cmath_sin_real, cmath_cos_real,
    sub_self, Real.cos_zero, mul_one]
  linear_combination
    (-(newtonLocals p0.update map_coord.getX ((-1) * map_coord.getY)
        p0.center_latitude p0.center_longitude).p * p0.update.v0
      * Real.cos p0.center_latitude) * hcs

/-- C22: with the constants computed by `update`, at every point `(lat, lon)`, and so
at every iterate, the divisor `D = J11*J22 - J12*J21` of the inverse transform equals
`-p*v*cos(lat)*(sin(lat)*sin(lat0) + cos(lat)*cos(lat0)*cos(lon - lon0))`.  For
`a >= b > 0` the factors `p` and `v` are positive, so `D = 0` exactly when
`cos(lat) = 0` or the arc between the iterate and the tangent point, whose cosine is
the last factor, is a right angle.  At the initial iterate `v = v0` and
`D = -p*v0*cos(center_latitude)`, which is not zero iff `cos(center_latitude)` is not
zero, that is iff the tangent point is not a pole. -/
theorem newton_determinant (p0 : GPSProjectionParameters ℝ) (hab : p0.b ≤ p0.a)
    (hb : 0 < p0.b) (map_coord : MapCoordF ℝ) :
    (∀ start_E start_N lat lon : ℝ,
        (newtonLocals p0.update start_E start_N lat lon).D
            = (newtonLocals p0.update start_E start_N lat lon).J11
                * (newtonLocals p0.update start_E start_N lat lon).J22
              - (newtonLocals p0.update start_E start_N lat lon).J12
                * (newtonLocals p0.update start_E start_N lat lon).J21
          ∧ (newtonLocals p0.update start_E start_N lat lon).d_latitude
            = ((newtonLocals p0.update start_E start_N lat lon).J22
                  * (newtonLocals p0.update start_E start_N lat lon).dE
                - (newtonLocals p0.update start_E start_N lat lon).J12
                  * (newtonLocals p0.update start_E start_N lat lon).dN)
              / (newtonLocals p0.update start_E start_N lat lon).D
          ∧ (newtonLocals p0.update start_E start_N lat lon).d_longitude
            = (-(newtonLocals p0.update start_E start_N lat lon).J21
                  * (newtonLocals p0.update start_E start_N lat lon).dE
                + (newtonLocals p0.update start_E start_N lat lon).J11
                  * (newtonLocals p0.update start_E start_N lat lon).dN)
              / (newtonLocals p0.update start_E start_N lat lon).D
          ∧ (newtonLocals p0.update start_E start_N lat lon).D
            = -(newtonLocals p0.update start_E start_N lat lon).p
                * (newtonLocals p0.update start_E start_N lat lon).v * Real.cos lat
                * (Real.sin lat * Real.sin p0.center_latitude
                   + Real.cos lat * Real.cos p0.center_latitude
                       * Real.cos (lon - p0.center_longitude))
          ∧ 0 < (newtonLocals p0.update start_E start_N lat lon).p
          ∧ 0 < (newtonLocals p0.update start_E start_N lat lon).v
          ∧ ((newtonLocals p0.update start_E start_N lat lon).D = 0
              ↔ Real.cos lat = 0
                ∨ Real.sin lat * Real.sin p0.center_latitude
                    + Real.cos lat * Real.cos p0.center_latitude
                        * Real.cos (lon - p0.center_longitude) = 0)
          ∧ ((newtonLocals p0.update start_E start_N lat lon).D = 0
              ↔ Real.cos lat = 0
                ∨ Real.arccos (Real.sin lat * Real.sin p0.center_latitude
                    + Real.cos lat * Real.cos p0.center_latitude
                        * Real.cos (lon - p0.center_longitude)) = Real.pi / 2))
      ∧ (∀ k : Nat,
          (passLocals p0.update map_coord k).D
            = -(passLocals p0.update map_coord k).p * (passLocals p0.update map_coord k).v
                * Real.cos (newtonIterate p0.update map_coord k).latitude
                * (Real.sin (newtonIterate p0.update map_coord k).latitude
                     * Real.sin p0.center_latitude
                   + Real.cos (newtonIterate p0.update map_coord k).latitude
                       * Real.cos p0.center_latitude
                       * Real.cos ((newtonIterate p0.update map_coord k).longitude
                                    - p0.center_longitude))
          ∧ ((passLocals p0.update map_coord k).D = 0
              ↔ Real.cos (newtonIterate p0.update map_coord k).latitude = 0
                ∨ Real.sin (newtonIterate p0.update map_coord k).latitude
                      * Real.sin p0.center_latitude
                    + Real.cos (newtonIterate p0.update map_coord k).latitude
                        * Real.cos p0.center_latitude
                        * Real.cos ((newtonIterate p0.update map_coord k).longitude
                                     - p0.center_longitude) = 0))
      ∧ newtonIterate p0.update map_coord 0
          = (⟨p0.center_latitude, p0.center_longitude⟩ : LatLon ℝ)
      ∧ (passLocals p0.update map_coord 0).v = p0.update.v0
      ∧ (passLocals p0.update map_coord 0).D
          = -(passLocals p0.update map_coord 0).p * p0.update.v0
              * Real.cos p0.center_latitude
      ∧ ((passLocals p0.update map_coord 0).D ≠ 0 ↔ Real.cos p0.center_latitude ≠ 0) := by
  have hclosed : ∀ start_E start_N lat lon : ℝ,
      (newtonLocals p0.update start_E start_N lat lon).D
        = -(newtonLocals p0.update start_E start_N lat lon).p
            * (newtonLocals p0.update start_E start_N lat lon).v * Real.cos lat
            * (Real.sin lat * Real.sin p0.center_latitude
               + Real.cos lat * Real.cos p0.center_latitude
                   * Real.cos (lon - p0.center_longitude)) :=
    fun start_E start_N lat lon => newtonLocals_D p0.update start_E start_N lat lon
  refine ⟨fun start_E start_N lat lon => ⟨rfl, rfl, rfl, hclosed start_E start_N lat lon,
      newtonLocals_p_pos p0 hab hb start_E start_N lat lon,
      newtonLocals_v_pos p0 hab hb start_E start_N lat lon,
      newtonLocals_D_eq_zero_iff p0 hab hb start_E start_N lat lon, ?_⟩,
    fun k => ⟨hclosed _ _ _ _, newtonLocals_D_eq_zero_iff p0 hab hb _ _ _ _⟩,
    rfl, rfl, initial_D p0 map_coord, ?_⟩
  · rw [newtonLocals_D_eq_zero_iff p0 hab hb start_E start_N lat lon,
      Real.arccos_eq_pi_div_two]
  · have hp : 0 < (passLocals p0.update map_coord 0).p :=
      newtonLocals_p_pos p0 hab hb _ _ _ _
    have hv : 0 < p0.update.v0 :=
      newtonLocals_v_pos p0 hab hb 0 0 p0.center_latitude 0
    rw [initial_D p0 map_coord]
    simp only [ne_eq, mul_eq_zero, neg_eq_zero, hp.ne', hv.ne', false_or]

/-- C22 at the default ellipsoid with tangent point `(0, 0)` and the map point
`(0, 0)`: the hypotheses hold, and the first divisor is `-p*v0` and not zero. -/
theorem newton_determinant_witness :
    (6356752.3142 : ℝ) ≤ 6378137.0 ∧ (0 : ℝ) < 6356752.3142
      ∧ (passLocals (wgs84 : GPSProjectionParameters ℝ).update (⟨0, 0⟩ : MapCoordF ℝ) 0).D
          = -(passLocals (wgs84 : GPSProjectionParameters ℝ).update (⟨0, 0⟩ : MapCoordF ℝ) 0).p
              * (wgs84 : GPSProjectionParameters ℝ).update.v0
      ∧ (passLocals (wgs84 : GPSProjectionParameters ℝ).update (⟨0, 0⟩ : MapCoordF ℝ) 0).D
          ≠ 0 := by
  have h := newton_determinant (wgs84 : GPSProjectionParameters ℝ)
    (by norm_num [wgs84, GPSProjectionParameters.init])
    (by norm_num [wgs84, GPSProjectionParameters.init]) (⟨0, 0⟩ : MapCoordF ℝ)
  have hc : Real.cos (wgs84 : GPSProjectionParameters ℝ).center_latitude = 1 := by
    simp [wgs84, GPSProjectionParameters.init]
  refine ⟨by norm_num, by norm_num, ?_, ?_⟩
  · rw [h.2.2.2.2.1, hc, mul_one]
  · exact h.2.2.2.2.2.mpr (by rw [hc]; exact one_ne_zero)

/-! ## The tangent point and the reference ellipsoid -/

/-- C23: for `a >= b > 0` and the constants computed by `update`, `toMapCoordF` maps
the tangent point `(center_latitude, center_longitude)` to the map point `(0, 0)`;
the square root it divides by is not zero, and the radius of curvature `v` it
computes is `v0`. -/
theorem tangent_point_to_origin (p0 : GPSProjectionParameters ℝ) (hab : p0.b ≤ p0.a)
    (hb : 0 < p0.b) :
    (LatLon.mk p0.center_latitude p0.center_longitude).toMapCoordF p0.update
        = (⟨0, 0⟩ : MapCoordF ℝ)
      ∧ Real.sqrt (1 - p0.update.e_sq * Real.sin p0.center_latitude
          * Real.sin p0.center_latitude) ≠ 0
      ∧ p0.update.a / Real.sqrt (1 - p0.update.e_sq * Real.sin p0.center_latitude
          * Real.sin p0.center_latitude) = p0.update.v0 := by
  refine ⟨?_, (Real.sqrt_pos.mpr (radicand_pos p0 hab hb p0.center_latitude)).ne', rfl⟩
  have hx : ((LatLon.mk p0.center_latitude p0.center_longitude).toMapCoordF p0.update).x
      = 0 := by
    simp only [LatLon.toMapCoordF, update_center_longitude, sub_self, cmath_sin_real,
      Real.sin_zero, mul_zero]
  have hy : ((LatLon.mk p0.center_latitude p0.center_longitude).toMapCoordF p0.update).y
      = 0 := by
    simp only [LatLon.toMapCoordF, update_center_longitude, update_a, update_cos, update_sin,
      update_v0, sub_self, cmath_sin_real, cmath_cos_real, cmath_sqrt_real, Real.cos_zero,
      mul_one]
    ring
  calc (LatLon.mk p0.center_latitude p0.center_longitude).toMapCoordF p0.update
      = (⟨((LatLon.mk p0.center_latitude p0.center_longitude).toMapCoordF p0.update).x,
          ((LatLon.mk p0.center_latitude p0.center_longitude).toMapCoordF p0.update).y⟩ :
          MapCoordF ℝ) := rfl
    _ = (⟨0, 0⟩ : MapCoordF ℝ) := by rw [hx, hy]

/-- C23 at the default ellipsoid: the tangent point `(0, 0)` maps to the origin. -/
theorem tangent_point_to_origin_witness :
    (6356752.3142 : ℝ) ≤ 6378137.0 ∧ (0 : ℝ) < 6356752.3142
      ∧ (LatLon.mk 0 0 : LatLon ℝ).toMapCoordF (wgs84 : GPSProjectionParameters ℝ).update
          = (⟨0, 0⟩ : MapCoordF ℝ) :=
  ⟨by norm_num, by norm_num,
    (tangent_point_to_origin (wgs84 : GPSProjectionParameters ℝ)
      (by norm_num [wgs84, GPSProjectionParameters.init])
      (by norm_num [wgs84, GPSProjectionParameters.init])).1⟩

/-- The ellipsoid equation for the outputs of `toCartesianCoordinates` at height 0,
for any values of the locals that satisfy the relations between them. -/
theorem ellipsoid_algebra (a b r s c sl cl sa : ℝ) (ha : a ≠ 0) (hb : b ≠ 0) (hr0 : r ≠ 0)
    (hr : r ^ 2 = 1 - (s * sa) * (s * sa)) (hsa : sa ^ 2 = 1 - (b / a) ^ 2)
    (hcs : s ^ 2 + c ^ 2 = 1) (hl : sl ^ 2 + cl ^ 2 = 1) :
    ((a / r + 0) * c * cl) ^ 2 / a ^ 2 + ((a / r + 0) * c * sl) ^ 2 / a ^ 2
      + ((b / a * (b / a) * (a / r) + 0) * s) ^ 2 / b ^ 2 = 1 := by
  have h1 : ((a / r + 0) * c * cl) ^ 2 / a ^ 2 + ((a / r + 0) * c * sl) ^ 2 / a ^ 2
      + ((b / a * (b / a) * (a / r) + 0) * s) ^ 2 / b ^ 2
      = (c ^ 2 * (sl ^ 2 + cl ^ 2) + (b / a) ^ 2 * s ^ 2) / r ^ 2 := by
    field_simp
    ring
  have h2 : c ^ 2 + (b / a) ^ 2 * s ^ 2 = r ^ 2 := by
    rw [hr]
    linear_combination s ^ 2 * hsa + hcs
  rw [h1, hl, mul_one, h2, div_self (pow_ne_zero 2 hr0)]

/-- For `a >= b > 0` the quotient `b/a` lies in `(0, 1]`. -/
theorem axis_ratio_bounds (a b : ℝ) (hab : b ≤ a) (hb : 0 < b) : 0 < b / a ∧ b / a ≤ 1 :=
  ⟨div_pos hb (lt_of_lt_of_le hb hab), (div_le_one (lt_of_lt_of_le hb hab)).mpr hab⟩

/-- For `a >= b > 0` the radicand of `N` in `toCartesianCoordinates` is positive. -/
theorem cartesian_radicand_pos (a b : ℝ) (hab : b ≤ a) (hb : 0 < b) (lat : ℝ) :
    0 < 1 - (Real.sin lat * Real.sin (Real.arccos (b / a)))
          * (Real.sin lat * Real.sin (Real.arccos (b / a))) := by
  obtain ⟨hq0, hq1⟩ := axis_ratio_bounds a b hab hb
  have hcos : Real.cos (Real.arccos (b / a)) = b / a :=
    Real.cos_arccos (by linarith) hq1
  have hsa : Real.sin (Real.arccos (b / a)) ^ 2 = 1 - (b / a) ^ 2 := by
    rw [Real.sin_sq, hcos]
  have hs : Real.sin lat ^ 2 ≤ 1 := Real.sin_sq_le_one lat
  have h0 : 0 ≤ Real.sin lat ^ 2 := sq_nonneg _
  have hq : 0 < (b / a) ^ 2 := pow_pos hq0 2
  have e : (Real.sin lat * Real.sin (Real.arccos (b / a)))
          * (Real.sin lat * Real.sin (Real.arccos (b / a)))
      = Real.sin lat ^ 2 * (1 - (b / a) ^ 2) := by
    rw [← hsa]
    ring
  rw [e]
  nlinarith [mul_nonneg (sub_nonneg.mpr hs) hq.le]

/-- C24: for `a >= b > 0`, every latitude and longitude and height 0, the outputs
`(x, y, z)` of `toCartesianCoordinates` satisfy `x^2/a^2 + y^2/a^2 + z^2/b^2 = 1`,
the square root that `N` divides by being taken of a positive number; latitude 0 and
longitude 0 give `(a, 0, 0)`, and latitude `pi/2` gives `z = b`. -/
theorem cartesian_on_ellipsoid (params : GPSProjectionParameters ℝ)
    (hab : params.b ≤ params.a) (hb : 0 < params.b) (lat lon : ℝ) :
    ((LatLon.mk lat lon).toCartesianCoordinates params 0).1 ^ 2 / params.a ^ 2
        + ((LatLon.mk lat lon).toCartesianCoordinates params 0).2.1 ^ 2 / params.a ^ 2
        + ((LatLon.mk lat lon).toCartesianCoordinates params 0).2.2 ^ 2 / params.b ^ 2 = 1
      ∧ 0 < 1 - (Real.sin lat * Real.sin (Real.arccos (params.b / params.a)))
              * (Real.sin lat * Real.sin (Real.arccos (params.b / params.a)))
      ∧ (LatLon.mk 0 0 : LatLon ℝ).toCartesianCoordinates params 0 = (params.a, 0, 0)
      ∧ ((LatLon.mk (Real.pi / 2) lon).toCartesianCoordinates params 0).2.2 = params.b := by
  have ha : 0 < params.a := lt_of_lt_of_le hb hab
  obtain ⟨hq0, hq1⟩ := axis_ratio_bounds params.a params.b hab hb
  have hcos : Real.cos (Real.arccos (params.b / params.a)) = params.b / params.a :=
    Real.cos_arccos (by linarith) hq1
  have hsa : Real.sin (Real.arccos (params.b / params.a)) ^ 2
      = 1 - (params.b / params.a) ^ 2 := by
    rw [Real.sin_sq, hcos]
  have hW := cartesian_radicand_pos params.a params.b hab hb lat
  refine ⟨?_, hW, ?_, ?_⟩
  · simp only [LatLon.toCartesianCoordinates, cmath_sin_real, cmath_cos_real, cmath_acos_real,
      cmath_sqrt_real, hcos]
    exact ellipsoid_algebra params.a params.b _ (Real.sin lat) (Real.cos lat) (Real.sin lon)
      (Real.cos lon) (Real.sin (Real.arccos (params.b / params.a))) ha.ne' hb.ne'
      (Real.sqrt_pos.mpr hW).ne' (Real.sq_sqrt hW.le) hsa (Real.sin_sq_add_cos_sq lat)
      (Real.sin_sq_add_cos_sq lon)
  · simp only [LatLon.toCartesianCoordinates, cmath_sin_real, cmath_cos_real, cmath_acos_real,
      cmath_sqrt_real, Real.sin_zero, Real.cos_zero, zero_mul, mul_zero, sub_zero,
      Real.sqrt_one, div_one, add_zero, mul_one]
  · have hroot : Real.sqrt (1 - (1 * Real.sin (Real.arccos (params.b / params.a)))
          * (1 * Real.sin (Real.arccos (params.b / params.a)))) = params.b / params.a := by
      have e : 1 - (1 * Real.sin (Real.arccos (params.b / params.a)))
          * (1 * Real.sin (Real.arccos (params.b / params.a)))
          = (params.b / params.a) ^ 2 := by
        linear_combination (-1 : ℝ) * hsa
      rw [e, Real.sqrt_sq hq0.le]
    simp only [LatLon.toCartesianCoordinates, cmath_sin_real, cmath_cos_real, cmath_acos_real,
      cmath_sqrt_real, Real.sin_pi_div_two, hcos, hroot, add_zero, mul_one]
    field_simp

/-- C24 at the default ellipsoid, latitude 0 and longitude 0: the hypotheses hold and
the point `(a, 0, 0)` satisfies the equation. -/
theorem cartesian_on_ellipsoid_witness :
    (6356752.3142 : ℝ) ≤ 6378137.0 ∧ (0 : ℝ) < 6356752.3142
      ∧ ((LatLon.mk 0 0 : LatLon ℝ).toCartesianCoordinates
            (wgs84 : GPSProjectionParameters ℝ) 0).1 ^ 2 / (6378137.0 : ℝ) ^ 2
          + ((LatLon.mk 0 0 : LatLon ℝ).toCartesianCoordinates
            (wgs84 : GPSProjectionParameters ℝ) 0).2.1 ^ 2 / (6378137.0 : ℝ) ^ 2
          + ((LatLon.mk 0 0 : LatLon ℝ).toCartesianCoordinates
            (wgs84 : GPSProjectionParameters ℝ) 0).2.2 ^ 2 / (6356752.3142 : ℝ) ^ 2 = 1
      ∧ (LatLon.mk 0 0 : LatLon ℝ).toCartesianCoordinates (wgs84 : GPSProjectionParameters ℝ) 0
          = ((6378137.0 : ℝ), (0 : ℝ), (0 : ℝ)) := by
  have h := cartesian_on_ellipsoid (wgs84 : GPSProjectionParameters ℝ)
    (by norm_num [wgs84, GPSProjectionParameters.init])
    (by norm_num [wgs84, GPSProjectionParameters.init]) 0 0
  exact ⟨by norm_num, by norm_num, h.1, h.2.2.1⟩

/-! ## Fields separated from their hemisphere letter, signed degrees, blank text -/

section Detached

variable {F : Type} [LinearOrderedField F] [CMath F]

omit [CMath F] in
/-- Whitespace after a plain number whose pending letter is `S`: the negated number
becomes the latitude. -/
theorem finalizeField_south (Q : QtText F) (st : ParseState F) (ht : st.temp ≠ [])
    (hd : st.degrees_set = false) (hl : st.letter = 'S') :
    finalizeField Q st
      = { temp := []
          temp_latitude := -Q.toDouble st.temp
          temp_longitude := st.temp_longitude
          temp_latitude_set := true
          letter := nullChar
          degrees := 0
          degrees_set := false
          minutes_set := false } := by
  have he : st.temp.isEmpty = false := by
    cases hst : st.temp with
    | nil => exact absurd hst ht
    | cons c t => rfl
  unfold finalizeField
  simp only [he, hd, hl, Bool.false_and, Bool.not_false, if_true, if_false,
    Bool.false_eq_true, true_or, or_true]

omit [CMath F] in
/-- The loop on `x S y E` with single spaces: the first number is stored as latitude,
the letter `S` waits for the second number, whose negation replaces the latitude, and
the letter `E` finds no field. -/
theorem fromStringLoop_detached (Q : QtText F) (hup : UpperFixesAccepted Q)
    (x y : List Char) (hx : isSignedNumeral x = true) (hy : isSignedNumeral y = true) :
    fromStringLoop Q (x ++ ' ' :: 'S' :: ' ' :: (y ++ [' ', 'E'])) ParseState.initial
      = some { temp := [], temp_latitude := -Q.toDouble y, temp_longitude := 0,
               temp_latitude_set := true, letter := 'E', degrees := 0, degrees_set := false,
               minutes_set := false } := by
  rw [fromStringLoop_numberChars Q hup x _ _ (isNumberChar_of_isSignedNumeral x hx),
    fromStringLoop_fieldEnd Q hup ' ' _ _ (by decide),
    finalizeField_plain Q _
      (by simpa [ParseState.initial] using ne_nil_of_isSignedNumeral x hx) rfl rfl,
    fromStringLoop_letter Q hup 'S' _ _ (Or.inr (Or.inr (Or.inl rfl))),
    fromStringLoop_fieldEnd Q hup ' ' _ _ (by decide),
    finalizeField_idle Q _ rfl rfl,
    fromStringLoop_numberChars Q hup y _ _ (isNumberChar_of_isSignedNumeral y hy),
    fromStringLoop_fieldEnd Q hup ' ' _ _ (by decide),
    finalizeField_south Q _
      (by simpa using ne_nil_of_isSignedNumeral y hy) rfl rfl,
    fromStringLoop_letter Q hup 'E' _ _ (Or.inr (Or.inl rfl)),
    fromStringLoop_nil, finalizeField_idle Q _ rfl rfl]
  simp [ParseState.initial]

omit [CMath F] in
/-- The loop on `x S` with a single space: the number is stored as latitude before
the letter is read. -/
theorem fromStringLoop_trailing_letter (Q : QtText F) (hup : UpperFixesAccepted Q)
    (x : List Char) (hx : isSignedNumeral x = true) :
    fromStringLoop Q (x ++ [' ', 'S']) ParseState.initial
      = some { temp := [], temp_latitude := Q.toDouble x, temp_longitude := 0,
               temp_latitude_set := true, letter := 'S', degrees := 0, degrees_set := false,
               minutes_set := false } := by
  rw [fromStringLoop_numberChars Q hup x _ _ (isNumberChar_of_isSignedNumeral x hx),
    fromStringLoop_fieldEnd Q hup ' ' _ _ (by decide),
    finalizeField_plain Q _
      (by simpa [ParseState.initial] using ne_nil_of_isSignedNumeral x hx) rfl rfl,
    fromStringLoop_letter Q hup 'S' _ _ (Or.inr (Or.inr (Or.inl rfl))),
    fromStringLoop_nil, finalizeField_idle Q _ rfl rfl]
  simp [ParseState.initial]

/-- C25: for decimal numerals `x` and `y`, each optionally with a leading minus sign,
`fromString` applied to `x S y E` succeeds with the latitude `-y` degrees and the
longitude 0, and applied to `x S` it succeeds with the latitude `+x` degrees and the
longitude 0: a letter separated from its number by a space is applied to the next
field that is finalized, if there is one. -/
theorem detached_hemisphere_letter (Q : QtText F) (hup : UpperFixesAccepted Q)
    (self : LatLon F) (x y : List Char) (hx : isSignedNumeral x = true)
    (hy : isSignedNumeral y = true) :
    LatLon.fromString Q self (x ++ ' ' :: 'S' :: ' ' :: (y ++ [' ', 'E']))
        = (true, { latitude := -Q.toDouble y * CMath.M_PI / 180, longitude := 0 })
      ∧ LatLon.fromString Q self (x ++ [' ', 'S'])
        = (true, { latitude := Q.toDouble x * CMath.M_PI / 180, longitude := 0 }) := by
  constructor
  · rw [fromString_of_loop Q self _ _ (fromStringLoop_detached Q hup x y hx hy)]
    simp only [zero_mul, zero_div]
  · rw [fromString_of_loop Q self _ _ (fromStringLoop_trailing_letter Q hup x hx)]
    simp only [zero_mul, zero_div]

end Detached

/-- C25 on the texts `48 S 12.5 E` and `48 S`: the first gives the latitude `-12.5`
degrees and the longitude 0, not the latitude `-48` and the longitude `12.5` degrees;
the second gives the latitude `+48` degrees. -/
theorem detached_hemisphere_letter_witness :
    isSignedNumeral ['4', '8'] = true ∧ isSignedNumeral ['1', '2', '.', '5'] = true
      ∧ LatLon.fromString (decimalText : QtText ℝ) (⟨0, 0⟩ : LatLon ℝ)
          (['4', '8'] ++ ' ' :: 'S' :: ' ' :: (['1', '2', '.', '5'] ++ [' ', 'E']))
        = (true, (⟨-12.5 * Real.pi / 180, 0⟩ : LatLon ℝ))
      ∧ (⟨-12.5 * Real.pi / 180, 0⟩ : LatLon ℝ)
        ≠ (⟨-48 * Real.pi / 180, 12.5 * Real.pi / 180⟩ : LatLon ℝ)
      ∧ LatLon.fromString (decimalText : QtText ℝ) (⟨0, 0⟩ : LatLon ℝ) (['4', '8'] ++ [' ', 'S'])
        = (true, (⟨48 * Real.pi / 180, 0⟩ : LatLon ℝ)) := by
  have h := detached_hemisphere_letter (decimalText : QtText ℝ) decimalText_upper
    (⟨0, 0⟩ : LatLon ℝ) ['4', '8'] ['1', '2', '.', '5'] (by decide) (by decide)
  have hx : (decimalText : QtText ℝ).toDouble ['4', '8'] = 48 := decimalValue_48
  have hy : (decimalText : QtText ℝ).toDouble ['1', '2', '.', '5'] = 12.5 := decimalValue_12_5
  refine ⟨by decide, by decide, ?_, ?_, ?_⟩
  · rw [h.1, hy]
    rfl
  · intro hne
    have hlon : (0 : ℝ) = 12.5 * Real.pi / 180 := congrArg LatLon.longitude hne
    have hpi := Real.pi_pos
    linarith
  · rw [h.2, hx]
    rfl

section Signed

variable {F : Type} [LinearOrderedField F] [CMath F]

omit [CMath F] in
/-- The loop on `D°M'` at the end of the text: the buffer is folded into degrees and
minutes and the field is finalized as latitude. -/
theorem fromStringLoop_degrees_minutes (Q : QtText F) (hup : UpperFixesAccepted Q)
    (D M : List Char) (hD : ∀ c ∈ D, isNumberChar c = true)
    (hM : ∀ c ∈ M, isNumberChar c = true) :
    fromStringLoop Q (D ++ degreeSign :: (M ++ [apostrophe])) ParseState.initial
      = some { temp := [], temp_latitude := Q.toDouble D + Q.toDouble M / 60.0,
               temp_longitude := 0, temp_latitude_set := true, letter := nullChar,
               degrees := 0, degrees_set := false, minutes_set := false } := by
  rw [fromStringLoop_numberChars Q hup D _ _ hD, fromStringLoop_degreeSign Q hup,
    fromStringLoop_numberChars Q hup M _ _ hM,
    fromStringLoop_apostrophe Q hup [] _ (by simp),
    fromStringLoop_nil, finalizeField_dms Q _ rfl rfl (Or.inr ⟨rfl, rfl⟩)]
  simp [ParseState.initial]

omit [CMath F] in
/-- The loop on `D°M'S"` at the end of the text: the buffer is folded into degrees,
minutes and seconds and the field is finalized as latitude. -/
theorem fromStringLoop_degrees_minutes_seconds (Q : QtText F) (hup : UpperFixesAccepted Q)
    (D M S : List Char) (hD : ∀ c ∈ D, isNumberChar c = true)
    (hM : ∀ c ∈ M, isNumberChar c = true) (hS : ∀ c ∈ S, isNumberChar c = true) :
    fromStringLoop Q (D ++ degreeSign :: (M ++ apostrophe :: (S ++ [doubleQuote])))
        ParseState.initial
      = some { temp := []
               temp_latitude :=
                 Q.toDouble D + Q.toDouble M / 60.0 + Q.toDouble S / (60.0 * 60.0)
               temp_longitude := 0, temp_latitude_set := true, letter := nullChar,
               degrees := 0, degrees_set := false, minutes_set := false } := by
  rw [fromStringLoop_dms Q hup D M S [] ParseState.initial hD hM hS rfl,
    fromStringLoop_nil, finalizeField_dms Q _ rfl rfl (Or.inr ⟨rfl, rfl⟩)]
  simp [ParseState.initial]

omit [CMath F] in
/-- A minus sign followed by number characters is made of number characters. -/
theorem isNumberChar_minus_cons (D : List Char) (hD : ∀ c ∈ D, isNumberChar c = true) :
    ∀ c ∈ '-' :: D, isNumberChar c = true := by
  intro c hc
  rcases List.mem_cons.mp hc with h | h
  · rw [h]; decide
  · exact hD c h

omit [CMath F] in
/-- The model of `QString::toDouble` reads a minus sign before a non-negative decimal
numeral as the negation of its value. -/
theorem decimalValue_minus (D : List Char) (hD : isDecimalNumeral D = true) :
    (decimalValue ('-' :: D) : F) = -decimalValue D := by
  have hhead : D.head? ≠ some '-' := by
    cases D with
    | nil => simp
    | cons c t =>
      have hc : isNumberChar c = true ∧ c ≠ '-' := by
        unfold isDecimalNumeral at hD
        simp only [List.all_cons, Bool.and_eq_true, decide_eq_true_eq] at hD
        rcases hD.1.1.1 with h | h
        · refine ⟨decide_eq_true (Or.inl h), ?_⟩
          intro hm
          rw [hm] at h
          exact absurd h (by decide)
        · refine ⟨decide_eq_true (Or.inr (Or.inl h)), ?_⟩
          intro hm
          rw [hm] at h
          exact absurd h (by decide)
      simp only [List.head?_cons, ne_eq, Option.some.injEq]
      exact hc.2
  have hparts : decimalParts ('-' :: D)
      = (decimalParts D).map (fun r => (true, r.2.1, r.2.2)) := by
    unfold decimalParts
    simp only [List.head?_cons, decide_True, if_true, List.drop_succ_cons, List.drop_zero,
      decide_eq_false hhead, Bool.false_eq_true, if_false]
    split_ifs <;> rfl
  have hsign : ∀ r, decimalParts D = some r → r.1 = false := by
    intro r hr
    unfold decimalParts at hr
    simp only [decide_eq_false hhead, Bool.false_eq_true, if_false] at hr
    split_ifs at hr <;> rw [← Option.some.inj hr]
  unfold decimalValue
  rw [hparts]
  cases hp : decimalParts D with
  | none => simp
  | some r =>
    obtain ⟨n, w, f⟩ := r
    have hn : n = false := hsign _ hp
    subst hn
    simp

end Signed

section SignedDegrees

variable {F : Type} [LinearOrderedField F] [CMath F]

/-- C26: for non-negative decimal numerals `D`, `M`, `S`, `fromString` applied to
`-D°M'S"` succeeds with the latitude `(-D + M/60 + S/3600)` degrees, and applied to
`-D°M'` with the latitude `(-D + M/60)` degrees: the minutes and seconds are added to
the signed degree value.  `QString::toDouble` is taken to read `-D` as the negation
of `D`, as the model `decimalText` does for every numeral. -/
theorem signed_degrees_minutes_seconds (Q : QtText F) (hup : UpperFixesAccepted Q)
    (self : LatLon F) (D M S : List Char) (hD : isDecimalNumeral D = true)
    (hM : isDecimalNumeral M = true) (hS : isDecimalNumeral S = true)
    (hneg : Q.toDouble ('-' :: D) = -Q.toDouble D) :
    LatLon.fromString Q self
        (('-' :: D) ++ degreeSign :: (M ++ apostrophe :: (S ++ [doubleQuote])))
      = (true,
          { latitude :=
              (-Q.toDouble D + Q.toDouble M / 60 + Q.toDouble S / 3600) * CMath.M_PI / 180
            longitude := 0 })
    ∧ LatLon.fromString Q self (('-' :: D) ++ degreeSign :: (M ++ [apostrophe]))
      = (true,
          { latitude := (-Q.toDouble D + Q.toDouble M / 60) * CMath.M_PI / 180
            longitude := 0 })
    ∧ (∀ N : List Char, isDecimalNumeral N = true →
        (decimalText : QtText F).toDouble ('-' :: N) = -(decimalText : QtText F).toDouble N) := by
  have h60 : (60.0 : F) = 60 := by norm_num
  have h3600 : (60.0 * 60.0 : F) = 3600 := by norm_num
  have hD' := isNumberChar_minus_cons D (isNumberChar_of_isDecimalNumeral D hD)
  refine ⟨?_, ?_, fun N hN => decimalValue_minus N hN⟩
  · rw [fromString_of_loop Q self _ _
      (fromStringLoop_degrees_minutes_seconds Q hup ('-' :: D) M S hD'
        (isNumberChar_of_isDecimalNumeral M hM) (isNumberChar_of_isDecimalNumeral S hS)),
      hneg, h3600, h60]
    simp only [zero_mul, zero_div]
  · rw [fromString_of_loop Q self _ _
      (fromStringLoop_degrees_minutes Q hup ('-' :: D) M hD'
        (isNumberChar_of_isDecimalNumeral M hM)),
      hneg, h60]
    simp only [zero_mul, zero_div]

/-- C27: `fromString` succeeds on the empty text and on every text made of spaces,
tabs, carriage returns and line feeds only, and then sets the latitude and the
longitude of the object to 0, whatever they were before. -/
theorem fromString_blank (Q : QtText F) (hup : UpperFixesAccepted Q) (self : LatLon F)
    (ws : List Char) (hws : ∀ c ∈ ws, isFieldEnd c = true) :
    LatLon.fromString Q self ws = (true, { latitude := 0, longitude := 0 })
      ∧ LatLon.fromString Q self [] = (true, { latitude := 0, longitude := 0 }) := by
  have hnil : fromStringLoop Q [] (ParseState.initial : ParseState F)
      = some ParseState.initial := by
    rw [fromStringLoop_nil, finalizeField_idle Q _ rfl rfl]
  have hloop : fromStringLoop Q ws (ParseState.initial : ParseState F)
      = some ParseState.initial := by
    have h := fromStringLoop_idle Q hup ws [] ParseState.initial hws rfl rfl
    rw [List.append_nil] at h
    rw [h, hnil]
  constructor
  · rw [fromString_of_loop Q self _ _ hloop]
    simp only [ParseState.initial, zero_mul, zero_div]
  · rw [fromString_of_loop Q self _ _ hnil]
    simp only [ParseState.initial, zero_mul, zero_div]

end SignedDegrees

/-- The value of the text `30`. -/
theorem decimalValue_30 : (decimalValue ['3', '0'] : ℝ) = 30 := by
  have h : decimalParts ['3', '0'] = some (false, ['3', '0'], []) := by decide
  have h1 : digitsValue ['3', '0'] = 30 := by decide
  have h2 : digitsValue [] = 0 := by decide
  simp only [decimalValue, h, h1, h2]
  norm_num

/-- The value of the text `0`. -/
theorem decimalValue_0 : (decimalValue ['0'] : ℝ) = 0 := by
  have h : decimalParts ['0'] = some (false, ['0'], []) := by decide
  have h1 : digitsValue ['0'] = 0 := by decide
  have h2 : digitsValue [] = 0 := by decide
  simp only [decimalValue, h, h1, h2]
  norm_num

/-- C26 on the texts `-48°30'0"` and `-48°30'`: both give the latitude `-47.5`
degrees, not `-48.5` degrees. -/
theorem signed_degrees_minutes_seconds_witness :
    isDecimalNumeral ['4', '8'] = true ∧ isDecimalNumeral ['3', '0'] = true
      ∧ isDecimalNumeral ['0'] = true
      ∧ (decimalText : QtText ℝ).toDouble ['-', '4', '8']
          = -(decimalText : QtText ℝ).toDouble ['4', '8']
      ∧ LatLon.fromString (decimalText : QtText ℝ) (⟨0, 0⟩ : LatLon ℝ)
          (('-' :: ['4', '8']) ++ degreeSign :: (['3', '0'] ++ apostrophe
            :: (['0'] ++ [doubleQuote])))
        = (true, (⟨-47.5 * Real.pi / 180, 0⟩ : LatLon ℝ))
      ∧ LatLon.fromString (decimalText : QtText ℝ) (⟨0, 0⟩ : LatLon ℝ)
          (('-' :: ['4', '8']) ++ degreeSign :: (['3', '0'] ++ [apostrophe]))
        = (true, (⟨-47.5 * Real.pi / 180, 0⟩ : LatLon ℝ))
      ∧ (-47.5 * Real.pi / 180 : ℝ) ≠ -48.5 * Real.pi / 180 := by
  have hneg : (decimalText : QtText ℝ).toDouble ['-', '4', '8']
      = -(decimalText : QtText ℝ).toDouble ['4', '8'] :=
    decimalValue_minus ['4', '8'] (by decide)
  have h := signed_degrees_minutes_seconds (decimalText : QtText ℝ) decimalText_upper
    (⟨0, 0⟩ : LatLon ℝ) ['4', '8'] ['3', '0'] ['0'] (by decide) (by decide) (by decide) hneg
  have hD : (decimalText : QtText ℝ).toDouble ['4', '8'] = 48 := decimalValue_48
  have hM : (decimalText : QtText ℝ).toDouble ['3', '0'] = 30 := decimalValue_30
  have hS : (decimalText : QtText ℝ).toDouble ['0'] = 0 := decimalValue_0
  have hpi := Real.pi_pos
  refine ⟨by decide, by decide, by decide, hneg, ?_, ?_, ?_⟩
  · rw [h.1, hD, hM, hS]
    norm_num
  · rw [h.2.1, hD, hM]
    norm_num
  · intro hne
    linarith

/-- C27 on the text made of a space and a tab, for an object that held the latitude 1
and the longitude 2: the call succeeds and both become 0. -/
theorem fromString_blank_witness :
    (∀ c ∈ [' ', tab], isFieldEnd c = true)
      ∧ LatLon.fromString (decimalText : QtText ℝ) (⟨1, 2⟩ : LatLon ℝ) [' ', tab]
        = (true, (⟨0, 0⟩ : LatLon ℝ)) :=
  ⟨by decide,
    (fromString_blank (decimalText : QtText ℝ) decimalText_upper (⟨1, 2⟩ : LatLon ℝ)
      [' ', tab] (by decide)).1⟩

/-! ## The easting and northing fields of the shift dialog -/

/-- C28, the code at work: while "Adjust georeferencing reference point" is checked,
the constructor, `updateWidgets` and `eastingNorthingEdited` leave the easting and
northing fields at 0, but `rightwardLeftwardEdited` does not test the option and
writes the converted shift into them.  For a map in `Geospatial` state at scale
1:1000 with combined scale factor 1 and grivation 0 the option is checked after the
constructor, and entering 1 in the rightward field sets the easting field to 1. -/
theorem shift_fields_overwritten_while_adjusting :
    (∀ g : Georeferencing ℝ,
        (ShiftMapDialog.construct
            { g with state := GeorefState.Geospatial }).adjust_ref_point_checked = true
          ∧ (ShiftMapDialog.construct
              { g with state := GeorefState.Geospatial }).easting_adjust_edit = 0
          ∧ (ShiftMapDialog.construct
              { g with state := GeorefState.Geospatial }).northing_adjust_edit = 0)
      ∧ (∀ d : ShiftMapDialog ℝ,
          (ShiftMapDialog.updateWidgets
              { d with adjust_ref_point_checked := true }).easting_adjust_edit = 0
            ∧ (ShiftMapDialog.updateWidgets
                { d with adjust_ref_point_checked := true }).northing_adjust_edit = 0)
      ∧ (∀ d : ShiftMapDialog ℝ,
          ShiftMapDialog.eastingNorthingEdited { d with adjust_ref_point_checked := true }
            = { d with adjust_ref_point_checked := true })
      ∧ (∀ (d : ShiftMapDialog ℝ) (r : ℝ),
          (ShiftMapDialog.enterRightward
              { d with adjust_ref_point_checked := true } r).adjust_ref_point_checked = true
            ∧ (ShiftMapDialog.enterRightward
                { d with adjust_ref_point_checked := true } r).easting_adjust_edit
              = (d.map_to_projected.map (r, -1 * d.upward_adjust_edit)).1
            ∧ (ShiftMapDialog.enterRightward
                { d with adjust_ref_point_checked := true } r).northing_adjust_edit
              = (d.map_to_projected.map (r, -1 * d.upward_adjust_edit)).2)
      ∧ ((ShiftMapDialog.construct
            { (Georeferencing.localDefault 1000 : Georeferencing ℝ) with
              state := GeorefState.Geospatial, geographic_ref_point := some ⟨0, 0⟩,
              declination := some 0 }).enterRightward 1).adjust_ref_point_checked = true
      ∧ ((ShiftMapDialog.construct
            { (Georeferencing.localDefault 1000 : Georeferencing ℝ) with
              state := GeorefState.Geospatial, geographic_ref_point := some ⟨0, 0⟩,
              declination := some 0 }).enterRightward 1).easting_adjust_edit = 1
      ∧ ((ShiftMapDialog.construct
            { (Georeferencing.localDefault 1000 : Georeferencing ℝ) with
              state := GeorefState.Geospatial, geographic_ref_point := some ⟨0, 0⟩,
              declination := some 0 }).enterRightward 1).easting_adjust_edit ≠ 0 := by
  have hz : (0.0 : ℝ) = 0 := by norm_num
  have he : ((ShiftMapDialog.construct
      { (Georeferencing.localDefault 1000 : Georeferencing ℝ) with
        state := GeorefState.Geospatial, geographic_ref_point := some ⟨0, 0⟩,
        declination := some 0 }).enterRightward 1).easting_adjust_edit = 1 := by
    have h : ((ShiftMapDialog.construct
        { (Georeferencing.localDefault 1000 : Georeferencing ℝ) with
          state := GeorefState.Geospatial, geographic_ref_point := some ⟨0, 0⟩,
          declination := some 0 }).enterRightward 1).easting_adjust_edit
        = ((ShiftMapDialog.construct
            { (Georeferencing.localDefault 1000 : Georeferencing ℝ) with
              state := GeorefState.Geospatial, geographic_ref_point := some ⟨0, 0⟩,
              declination := some 0 }).map_to_projected.map (1, -1 * 0)).1 := rfl
    rw [h, construct_map_to_projected]
    simp [QTransform.map, Georeferencing.localDefault]
  refine ⟨fun g => ⟨rfl, hz, hz⟩, fun d => ⟨hz, hz⟩, fun d => rfl, fun d r => ⟨rfl, rfl, rfl⟩,
    rfl, he, ?_⟩
  rw [he]
  exact one_ne_zero

end Mapper
